import Mathlib

/-!
# DynamicCheckUp: a shallow embedding of the request / release engine

The development follows `DynamicCheckUp.cpp`.  Process-wide globals are gathered in
`DCU_State`; every entry point is a function on that state.

Modelling conventions

* `size_t`, `unsigned long` and pointers are 64-bit words: naturals with explicit
  reduction modulo `WORD = 2 ^ 64` wherever the C++ arithmetic can wrap.  The null
  pointer is `0`.
* Process memory is `heap : Nat → Nat` (address to byte).
* A singly linked list is a Lean `List` (head first, `next` is the tail).
* A pointer to a `DCU_OperationInfo` node is modelled by the node's contents: nodes are never
  mutated once linked, and the node that `DCU_findOperationOnList` returns is the first node
  of its chain with these contents, so unlinking "the first node with these contents"
  unlinks the very node that was found.
* A pointer to a `DCU_ProblemInfo` node is modelled by the node's position in the registry
  list, because problem nodes are mutated in place.
* The private arena (dlmalloc `mspace`), `backtrace`, `pthread_mutex_init` and `fopen` are external:
  their results for the current call are supplied by a `DCU_Environment`.  Bookkeeping
  allocations (`DCU_createOperation`, `DCU_createProblem`, the bucket array) are assumed
  to succeed; the user-block allocation may fail.
* A call that does not return because the process stops (`_exit`, a write through the null
  pointer) yields `none` (`DCU_Outcome.halted` for a release).  A release that enters
  `DCU_abort` yields `DCU_Outcome.aborted st`, with `st` the state in which `DCU_abort` is
  entered; the process is killed once `DCU_abort` has written its report.
* Locking is not modelled: the embedding is sequential.
-/

/-- Number of values of a 64-bit machine word (`size_t`, `unsigned long`, pointers). -/
def WORD : Nat := 18446744073709551616

/-- Pointer arithmetic `(char*)p + n` on a 64-bit target. -/
def ptr_add (p n : Nat) : Nat := (p + n) % WORD

/-- The byte string of `OVERWRITE_DETECTION_DATA`, `"\xAA\xBB\xCC\xDD"`, indexed by offset. -/
def OVERWRITE_DETECTION_DATA (i : Nat) : Nat :=
  [0xAA, 0xBB, 0xCC, 0xDD].getD i 0

/-- The macro `OVERWRITE_DETECTION_DATA_SIZE`, that is `sizeof("\xAA\xBB\xCC\xDD") - 1`. -/
def OVERWRITE_DETECTION_DATA_SIZE : Nat := 5 - 1

/-- Fill byte written over freshly requested memory. -/
def ALLOCATION_VALUE : Nat := 0xAA

/-- Fill byte written over memory about to be released. -/
def DEALLOCATION_VALUE : Nat := 0xEE

/-- The enumeration `DCU_DynamicOperationType`, in declaration order. -/
inductive DCU_DynamicOperationType
  | DCU_MallocType
  | DCU_FreeType
  | DCU_ReallocType
  | DCU_CallocType
  | DCU_NewType
  | DCU_DeleteType
  | DCU_NewArrayType
  | DCU_DeleteArrayType
  deriving DecidableEq, Repr

/-- The enumeration `DCU_ProblemType`, in declaration order. -/
inductive DCU_ProblemType
  | DCU_LeakType
  | DCU_ReleaseUnallocatedType
  | DCU_MismatchOperationType
  | DCU_FreeNullType
  | DCU_RequestZeroMemoryType
  | DCU_MemoryOverWriteType
  deriving DecidableEq, Repr

open DCU_DynamicOperationType DCU_ProblemType

/-- The struct `DCU_MemoryStats`. -/
structure DCU_MemoryStats where
  count : Nat
  total_memory : Nat
  max_value : Nat
  deriving DecidableEq, Repr

/-- The macro `DCU_STACK_TRACE_SIZE`. -/
def DCU_STACK_TRACE_SIZE : Nat := 8

/-- An array `DCU_ConstPointer[DCU_STACK_TRACE_SIZE]`. -/
abbrev DCU_Stack := Fin 8 → Nat

/-- The struct `DCU_OperationInfo` (the `next` link is the tail of the chain). -/
structure DCU_OperationInfo where
  type : DCU_DynamicOperationType
  memory_address : Nat
  size : Nat
  stack : DCU_Stack
  deriving DecidableEq

/-- The struct `DCU_ProblemInfo` (the `next` link is the tail of the registry). -/
structure DCU_ProblemInfo where
  type : DCU_ProblemType
  size : Nat
  count : Nat
  total_memory : Nat
  allocation_stack : DCU_Stack
  deallocation_stack : DCU_Stack
  deriving DecidableEq

/-- Flag bit `DCU_INITIALIZED`. -/
def DCU_INITIALIZED : Nat := 1
/-- Flag bit `DCU_TRACING`. -/
def DCU_TRACING : Nat := 2
/-- Flag bit `DCU_FINISHED`. -/
def DCU_FINISHED : Nat := 4
/-- Flag bit `DCU_MUTEX_INITED`. -/
def DCU_MUTEX_INITED : Nat := 8

/-- The macro `DCU_HASH_TABLE_SIZE`. -/
def DCU_HASH_TABLE_SIZE : Nat := 35323

/-- The macro `DCU_HASH_FUNCTION`. -/
def DCU_HASH_FUNCTION (address : Nat) : Nat := address % DCU_HASH_TABLE_SIZE

/-- The static array `DCU_null_stack`: zero-initialised, zeroed again by the initialiser and
never written elsewhere. -/
def DCU_null_stack : DCU_Stack := fun _ => 0

/-- Compile-time feature switches (`-D` flags of the Makefile). -/
structure DCU_Features where
  DCU_C_MEMORY_CHECK : Bool
  DCU_ECHO : Bool
  DCU_ABORT_ON_RELEASE_NOT_REQUESTED_MEMORY : Bool
  DCU_ABORT_ON_MEMORY_OVERWRITE : Bool
  deriving DecidableEq, Repr

/-- Results of the external primitives during one call of an entry point. -/
structure DCU_Environment where
  /-- Address returned by the `DCU_malloc` call that obtains the user block (`0`: failure). -/
  mspace_malloc : Nat
  /-- Value that the read of `operation->size` at line 463 yields.  The node has been returned
  to the arena by `DCU_removeMemory` at line 460, so the code does not determine it. -/
  freed_size : Nat
  /-- Frames the platform `backtrace` writes, innermost first. -/
  backtrace : List Nat
  /-- Indeterminate initial contents of a local `stack` array. -/
  stack : DCU_Stack
  /-- Return value of `pthread_mutex_init`. -/
  pthread_mutex_init : Int
  /-- Stream returned by `fopen(DCU_OUTPUT_FILE, "w")` (`0`: `NULL`). -/
  fopen : Nat
  /-- The stream `stdout`, that is `DCU_FALLBACK_STREAM`. -/
  stdout : Nat

/-- The process-wide globals of the library, the process memory and the text written so far
(stream, text). -/
structure DCU_State where
  DCU_flags : Nat
  DCU_stream : Nat
  DCU_memory : Nat → List DCU_OperationInfo
  DCU_problems : List DCU_ProblemInfo
  DCU_memory_stats : DCU_DynamicOperationType → DCU_MemoryStats
  DCU_memory_stats_c : DCU_MemoryStats
  DCU_memory_stats_new : DCU_MemoryStats
  DCU_memory_stats_new_array : DCU_MemoryStats
  heap : Nat → Nat
  written : List (Nat × String)

/-- How a call of `DCU_releaseMemory` ends: it returns, it enters `DCU_abort` (the state is the
one in which `DCU_abort` is entered), or the process stops inside the call. -/
inductive DCU_Outcome where
  | returned (st : DCU_State)
  | aborted (st : DCU_State)
  | halted

/-- The state in which a call ends, when the process did not stop inside it. -/
def DCU_Outcome.state : DCU_Outcome → Option DCU_State
  | DCU_Outcome.returned st => some st
  | DCU_Outcome.aborted st => some st
  | DCU_Outcome.halted => none

/-- The macro `DCU_STATE(flag)`: `DCU_flags & flag`. -/
def DCU_STATE (st : DCU_State) (flag : Nat) : Nat := st.DCU_flags &&& flag

/-- The macro `DCU_SET_FLAG(flag)`: `DCU_flags |= flag`. -/
def DCU_SET_FLAG (st : DCU_State) (flag : Nat) : DCU_State :=
  { st with DCU_flags := st.DCU_flags ||| flag }

/-- The macro `DCU_CLEAR_FLAG(flag)`: `DCU_flags &= ~flag` on an `unsigned char`. -/
def DCU_CLEAR_FLAG (st : DCU_State) (flag : Nat) : DCU_State :=
  { st with DCU_flags := (st.DCU_flags &&& (255 - flag % 256)) % 256 }

/-! ## libc memory primitives -/

/-- The call `memset(p, v, n)`: bytes `p[0..n-1]` become `v`. -/
def memset (heap : Nat → Nat) (p v : Nat) : Nat → (Nat → Nat)
  | 0 => heap
  | n + 1 => Function.update (memset heap p v n) (ptr_add p n) v

/-- The call `memcpy(dst, src, n)` where `src i` is byte `i` of the source object. -/
def memcpy (heap : Nat → Nat) (dst : Nat) (src : Nat → Nat) : Nat → (Nat → Nat)
  | 0 => heap
  | n + 1 => Function.update (memcpy heap dst src n) (ptr_add dst n) (src n)

/-- The call `memcmp(p, data, n)` as a truth value: `true` iff some byte differs. -/
def memcmp (heap : Nat → Nat) (p : Nat) (data : Nat → Nat) (n : Nat) : Bool :=
  (List.range n).any (fun i => decide (heap (ptr_add p i) ≠ data i))

/-! ## Stack capture -/

/-- The function `DCU_stacksMatch`: conjunction over all slots. -/
def DCU_stacksMatch (lhs rhs : DCU_Stack) : Bool :=
  (List.finRange 8).foldl (fun m i => m && decide (lhs i = rhs i)) true

/-- The function `DCU_createStackTrace`.  `memset(stack, 0, sizeof(stack))` is applied to a
parameter of array type, which is a pointer: it clears `sizeof(pointer)` bytes, one slot.
Then `backtrace` writes at most `DCU_STACK_TRACE_SIZE` frames from slot 0 on. -/
def DCU_createStackTrace (stack : DCU_Stack) (bt : List Nat) : DCU_Stack :=
  fun i =>
    if h : i.val < bt.length then bt.get ⟨i.val, h⟩
    else if i.val < 1 then 0
    else stack i

/-! ## Node construction -/

/-- The function `DCU_createOperation`: a zero-filled node. -/
def DCU_createOperation : DCU_OperationInfo :=
  { type := DCU_MallocType, memory_address := 0, size := 0, stack := fun _ => 0 }

/-- The function `DCU_createProblem`: a zero-filled node. -/
def DCU_createProblem : DCU_ProblemInfo :=
  { type := DCU_LeakType, size := 0, count := 0, total_memory := 0,
    allocation_stack := fun _ => 0, deallocation_stack := fun _ => 0 }

/-! ## Operation chains and the hash table -/

/-- Unlink the first node of a chain that is `element`. -/
def DCU_unlinkOperation (element : DCU_OperationInfo) :
    List DCU_OperationInfo → List DCU_OperationInfo
  | [] => []
  | it :: rest => if it = element then rest else it :: DCU_unlinkOperation element rest

/-- The function `DCU_removeOperationFromList` (`none` is the null element). -/
def DCU_removeOperationFromList (list : List DCU_OperationInfo) :
    Option DCU_OperationInfo → List DCU_OperationInfo
  | none => list
  | some element => DCU_unlinkOperation element list

/-- The function `DCU_findOperationOnList`. -/
def DCU_findOperationOnList :
    List DCU_OperationInfo → Nat → Option DCU_OperationInfo
  | [], _ => none
  | it :: rest, memory_address =>
    if it.memory_address ≠ memory_address then DCU_findOperationOnList rest memory_address
    else some it

/-- The function `DCU_addOperationToList`. -/
def DCU_addOperationToList (list : List DCU_OperationInfo) (element : DCU_OperationInfo) :
    List DCU_OperationInfo :=
  element :: list

/-- The function `DCU_addMemory` (the element is never null at its only call site). -/
def DCU_addMemory (st : DCU_State) (element : DCU_OperationInfo) : DCU_State :=
  let hash_table_index := DCU_HASH_FUNCTION element.memory_address
  { st with DCU_memory := (Function.update st.DCU_memory hash_table_index
      (DCU_addOperationToList (st.DCU_memory hash_table_index) element)) }

/-- The function `DCU_findMemory`. -/
def DCU_findMemory (st : DCU_State) (memory_address : Nat) : Option DCU_OperationInfo :=
  let hash_table_index := DCU_HASH_FUNCTION memory_address
  DCU_findOperationOnList (st.DCU_memory hash_table_index) memory_address

/-- The function `DCU_removeMemory`. -/
def DCU_removeMemory (st : DCU_State) : Option DCU_OperationInfo → DCU_State
  | none => st
  | some element =>
    let hash_table_index := DCU_HASH_FUNCTION element.memory_address
    { st with DCU_memory := (Function.update st.DCU_memory hash_table_index
        (DCU_removeOperationFromList (st.DCU_memory hash_table_index) (some element))) }

/-! ## The problem registry -/

/-- The function `DCU_addProblemToList`. -/
def DCU_addProblemToList (list : List DCU_ProblemInfo) (element : DCU_ProblemInfo) :
    List DCU_ProblemInfo :=
  element :: list

/-- The function `DCU_findProblem`: position of the first node whose type and both stacks
match, if any. -/
def DCU_findProblem : List DCU_ProblemInfo → DCU_ProblemType → DCU_Stack → DCU_Stack → Option Nat
  | [], _, _, _ => none
  | it :: rest, type, allocation_stack, deallocation_stack =>
    let not_found := (it.type ≠ type)
      || !DCU_stacksMatch allocation_stack it.allocation_stack
      || !DCU_stacksMatch deallocation_stack it.deallocation_stack
    if not_found then
      (DCU_findProblem rest type allocation_stack deallocation_stack).map (· + 1)
    else some 0

/-- In-place update `*problem = f(*problem)` of the node at a position. -/
def DCU_updateProblem (f : DCU_ProblemInfo → DCU_ProblemInfo) :
    List DCU_ProblemInfo → Nat → List DCU_ProblemInfo
  | [], _ => []
  | it :: rest, 0 => f it :: rest
  | it :: rest, n + 1 => it :: DCU_updateProblem f rest n

/-- The idiom repeated at every detection site:
`problem = DCU_findProblem(..); if (!problem) { problem = DCU_createProblem(); .. fill ..;
DCU_addProblemToList(..); }` followed by the site's in-place update of `*problem`.
`fresh` is the node as filled in at the site, `mutate` the update applied afterwards. -/
def DCU_registerProblem (list : List DCU_ProblemInfo) (type : DCU_ProblemType)
    (allocation_stack deallocation_stack : DCU_Stack) (fresh : DCU_ProblemInfo)
    (mutate : DCU_ProblemInfo → DCU_ProblemInfo) : List DCU_ProblemInfo :=
  match DCU_findProblem list type allocation_stack deallocation_stack with
  | some problem => DCU_updateProblem mutate list problem
  | none => DCU_updateProblem mutate (DCU_addProblemToList list fresh) 0

/-- The statement `problem->count += 1` on a `size_t` field. -/
def DCU_countProblem (problem : DCU_ProblemInfo) : DCU_ProblemInfo :=
  { problem with count := (problem.count + 1) % WORD }

/-! ## Lifecycle -/

/-- The function `DCU_write`: the text goes to `DCU_stream`, and first to the fallback stream
when echoing is compiled in and the two differ. -/
def DCU_write (ft : DCU_Features) (env : DCU_Environment) (st : DCU_State)
    (message : String) : DCU_State :=
  let st :=
    if ft.DCU_ECHO = true ∧ st.DCU_stream ≠ env.stdout then
      { st with written := st.written ++ [(env.stdout, message)] }
    else st
  { st with written := st.written ++ [(st.DCU_stream, message)] }

/-- The function `DCU_initialize`.  `none`: the process exits (`_exit(1)`) or faults
(`fileno` applied to a null stream). -/
def DCU_initialize (ft : DCU_Features) (env : DCU_Environment) (st : DCU_State) :
    Option DCU_State :=
  if DCU_STATE st DCU_INITIALIZED ≠ 0 then some st
  else if DCU_STATE st DCU_MUTEX_INITED ≠ 0 then
    if DCU_STATE st DCU_INITIALIZED ≠ 0 then some st else none
  else if env.pthread_mutex_init < 0 then none
  else
    let st := DCU_SET_FLAG st DCU_MUTEX_INITED
    let st := DCU_SET_FLAG st DCU_INITIALIZED
    let st := { st with
      DCU_stream := env.stdout
      DCU_memory_stats := fun _ => { count := 0, total_memory := 0, max_value := 0 }
      DCU_memory_stats_new := { count := 0, total_memory := 0, max_value := 0 }
      DCU_memory_stats_new_array := { count := 0, total_memory := 0, max_value := 0 }
      DCU_memory_stats_c := { count := 0, total_memory := 0, max_value := 0 }
      DCU_memory := fun _ => []
      DCU_problems := [] }
    let st := { st with DCU_stream := env.fopen }
    if st.DCU_stream < 0 then
      let st := { st with written := (st.written ++
        [(env.stdout, "DynamicCheckUp: Unable to open memory_check_up.txt\n")]) }
      let st := { st with DCU_stream := env.stdout }
      some (DCU_write ft env (DCU_SET_FLAG st DCU_TRACING) "DynamicCheckUp Started\n")
    else if st.DCU_stream = 0 then none
    else some (DCU_write ft env (DCU_SET_FLAG st DCU_TRACING) "DynamicCheckUp Started\n")

/-! ## The request path -/

/-- Lines 416-437 of `DCU_requestMemory`: the zero-size report (the caller returns null). -/
def DCU_requestMemory_zero (env : DCU_Environment) (st : DCU_State) : DCU_State :=
  let stack := DCU_createStackTrace env.stack env.backtrace
  if DCU_STATE st DCU_TRACING ≠ 0 then
    { st with DCU_problems :=
        (DCU_registerProblem st.DCU_problems DCU_RequestZeroMemoryType stack DCU_null_stack
          { DCU_createProblem with type := DCU_RequestZeroMemoryType, allocation_stack := stack }
          DCU_countProblem) }
  else st

/-- Lines 447-483 of `DCU_requestMemory`: the `DCU_ReallocType` branch.  `old_size` is read
before the old node is unlinked and freed; the credit to the Free statistics at line 463 reads
`operation->size` after that, which yields `env.freed_size`.  `DCU_free(pointer)` at line 481
hands the old block back to the arena and acts outside the modelled state. -/
def DCU_requestMemory_realloc (env : DCU_Environment) (st : DCU_State) (size pointer : Nat) :
    DCU_State × Nat :=
  let operation :=
    if DCU_STATE st DCU_TRACING ≠ 0 then DCU_findMemory st pointer else none
  let st :=
    match operation with
    | some op =>
      let st := DCU_removeMemory st (some op)
      let free := st.DCU_memory_stats DCU_FreeType
      { st with DCU_memory_stats := (Function.update st.DCU_memory_stats DCU_FreeType
          { free with count := (free.count + 1) % WORD,
                      total_memory := (free.total_memory + env.freed_size) % WORD }) }
    | none => st
  let out := env.mspace_malloc
  let heap :=
    if out ≠ 0 then
      let heap := memset st.heap out ALLOCATION_VALUE
        ((size + OVERWRITE_DETECTION_DATA_SIZE) % WORD)
      match operation with
      | some op =>
        let old_size := op.size
        memcpy heap out (fun i => heap (ptr_add pointer i))
          (if size > old_size then old_size else size)
      | none => heap
    else st.heap
  ({ st with heap := heap }, out)

/-- Lines 439-490 of `DCU_requestMemory`: obtain and fill the user block.  `none`: the process
faults.  In the Calloc branch `memset` writes `size` bytes into a block of `size + 4` bytes
computed in 64 bits; when that sum wraps, the write runs past the block through the rest of
the address space.  In the last branch `memset` is applied to the result of `DCU_malloc`
without a null test. -/
def DCU_requestMemory_allocate (env : DCU_Environment) (st : DCU_State)
    (type : DCU_DynamicOperationType) (size pointer : Nat) : Option (DCU_State × Nat) :=
  if type = DCU_CallocType then
    let out := env.mspace_malloc
    if out ≠ 0 then
      if (size + OVERWRITE_DETECTION_DATA_SIZE) % WORD < size then none
      else some ({ st with heap := memset st.heap out 0 size }, out)
    else some (st, out)
  else if type = DCU_ReallocType then
    some (DCU_requestMemory_realloc env st size pointer)
  else
    let out := env.mspace_malloc
    if out = 0 then none
    else some ({ st with heap := (memset st.heap out ALLOCATION_VALUE
      ((size + OVERWRITE_DETECTION_DATA_SIZE) % WORD)) }, out)

/-- Lines 492-519 of `DCU_requestMemory`: stamp the canary and register the block. -/
def DCU_requestMemory_register (env : DCU_Environment) (st : DCU_State)
    (type : DCU_DynamicOperationType) (size out : Nat) : DCU_State :=
  if out ≠ 0 then
    let st := { st with heap := (memcpy st.heap (ptr_add out size) OVERWRITE_DETECTION_DATA
      OVERWRITE_DETECTION_DATA_SIZE) }
    if DCU_STATE st DCU_TRACING ≠ 0 then
      let operation := DCU_createOperation
      let operation := { operation with memory_address := out, type := type, size := size }
      let operation := { operation with
        stack := DCU_createStackTrace operation.stack env.backtrace }
      let st := DCU_addMemory st operation
      let stats := st.DCU_memory_stats type
      let stats := { stats with count := (stats.count + 1) % WORD,
                                total_memory := (stats.total_memory + size) % WORD }
      let stats := if size > stats.max_value then { stats with max_value := size } else stats
      { st with DCU_memory_stats := (Function.update st.DCU_memory_stats type stats) }
    else st
  else st

/-- The function `DCU_requestMemory`: the new state and the returned pointer. -/
def DCU_requestMemory (ft : DCU_Features) (env : DCU_Environment) (st : DCU_State)
    (type : DCU_DynamicOperationType) (size pointer : Nat) : Option (DCU_State × Nat) :=
  match ( DCU_initialize ft env st) with
  | none => none
  | some st =>
    if size = 0 ∧ (type = DCU_CallocType ∨ type = DCU_MallocType ∨ type = DCU_NewType
        ∨ type = DCU_NewArrayType) then
      some (DCU_requestMemory_zero env st, 0)
    else
      match DCU_requestMemory_allocate env st type size pointer with
      | none => none
      | some (st, out) => some (DCU_requestMemory_register env st type size out, out)

/-! ## The release path -/

/-- Lines 575-587 of `DCU_releaseMemory`: the value of `mismatched_release`. -/
def DCU_mismatched_release (type allocated : DCU_DynamicOperationType) : Bool :=
  if type = DCU_FreeType then
    !(allocated = DCU_MallocType || allocated = DCU_CallocType || allocated = DCU_ReallocType)
  else if type = DCU_DeleteType then
    allocated ≠ DCU_NewType
  else if type = DCU_DeleteArrayType then
    allocated ≠ DCU_NewArrayType
  else true

/-- Lines 540-604 and 632 of `DCU_releaseMemory`: release of a tracked block. -/
def DCU_releaseMemory_tracked (ft : DCU_Features) (env : DCU_Environment) (st : DCU_State)
    (type : DCU_DynamicOperationType) (pointer : Nat) (operation : DCU_OperationInfo) :
    DCU_Outcome :=
  let stats := st.DCU_memory_stats type
  let st := { st with DCU_memory_stats := (Function.update st.DCU_memory_stats type
    { stats with count := (stats.count + 1) % WORD,
                 total_memory := (stats.total_memory + operation.size) % WORD }) }
  let overwritten := memcmp st.heap (ptr_add pointer operation.size) OVERWRITE_DETECTION_DATA
    OVERWRITE_DETECTION_DATA_SIZE
  let st :=
    if overwritten = true then
      let stack := DCU_createStackTrace env.stack env.backtrace
      { st with DCU_problems :=
          (DCU_registerProblem st.DCU_problems DCU_MemoryOverWriteType operation.stack stack
            { DCU_createProblem with type := DCU_MemoryOverWriteType
                                     allocation_stack := operation.stack
                                     deallocation_stack := stack }
            DCU_countProblem) }
    else st
  if overwritten = true ∧ ft.DCU_ABORT_ON_MEMORY_OVERWRITE = true then DCU_Outcome.aborted st
  else
    let st := { st with heap := (memset st.heap pointer DEALLOCATION_VALUE
      ((operation.size + OVERWRITE_DETECTION_DATA_SIZE) % WORD)) }
    let mismatched_release := DCU_mismatched_release type operation.type
    let st :=
      if mismatched_release = true then
        let stack := DCU_createStackTrace env.stack env.backtrace
        { st with DCU_problems :=
            (DCU_registerProblem st.DCU_problems DCU_MismatchOperationType operation.stack stack
              { DCU_createProblem with type := DCU_MismatchOperationType
                                       allocation_stack := operation.stack
                                       deallocation_stack := stack }
              DCU_countProblem) }
      else st
    DCU_Outcome.returned (DCU_removeMemory st (some operation))

/-- Lines 607-632 of `DCU_releaseMemory`: release of an address that is not tracked. -/
def DCU_releaseMemory_untracked (ft : DCU_Features) (env : DCU_Environment) (st : DCU_State) :
    DCU_Outcome :=
  let stack := DCU_createStackTrace env.stack env.backtrace
  let st := { st with DCU_problems :=
    (DCU_registerProblem st.DCU_problems DCU_ReleaseUnallocatedType DCU_null_stack stack
      { DCU_createProblem with type := DCU_ReleaseUnallocatedType, deallocation_stack := stack }
      DCU_countProblem) }
  if ft.DCU_ABORT_ON_RELEASE_NOT_REQUESTED_MEMORY = true then DCU_Outcome.aborted st
  else DCU_Outcome.returned (DCU_removeMemory st none)

/-- Lines 638-664 of `DCU_releaseMemory`: release of the null pointer. -/
def DCU_releaseMemory_null (ft : DCU_Features) (env : DCU_Environment) (st : DCU_State)
    (type : DCU_DynamicOperationType) : DCU_State :=
  if ft.DCU_C_MEMORY_CHECK = true ∧ type = DCU_FreeType then
    if DCU_STATE st DCU_TRACING ≠ 0 then
      let stack := DCU_createStackTrace env.stack env.backtrace
      { st with DCU_problems :=
          (DCU_registerProblem st.DCU_problems DCU_FreeNullType DCU_null_stack stack
            { DCU_createProblem with type := DCU_FreeNullType, deallocation_stack := stack }
            DCU_countProblem) }
    else st
  else st

/-- The function `DCU_releaseMemory`.  The final `DCU_free(pointer)` acts on the arena only.
With `DCU_ABORT_ON_MEMORY_OVERWRITE` (or `DCU_ABORT_ON_RELEASE_NOT_REQUESTED_MEMORY`) compiled
in, `DCU_abort` is entered right after the problem has been counted. -/
def DCU_releaseMemory (ft : DCU_Features) (env : DCU_Environment) (st : DCU_State)
    (type : DCU_DynamicOperationType) (pointer : Nat) : DCU_Outcome :=
  match ( DCU_initialize ft env st) with
  | none => DCU_Outcome.halted
  | some st =>
    if pointer ≠ 0 then
      if DCU_STATE st DCU_TRACING ≠ 0 then
        match DCU_findMemory st pointer with
        | some operation => DCU_releaseMemory_tracked ft env st type pointer operation
        | none => DCU_releaseMemory_untracked ft env st
      else DCU_Outcome.returned st
    else DCU_Outcome.returned (DCU_releaseMemory_null ft env st type)

/-! ## The analyser -/

/-- One iteration of the statistics loop of `DCU_analyzeMemory` (the `switch` on `i`). -/
def DCU_analyzeMemory_stats (st : DCU_State) (i : DCU_DynamicOperationType) : DCU_State :=
  let s := st.DCU_memory_stats i
  let plus (b : DCU_MemoryStats) : DCU_MemoryStats :=
    { b with count := (b.count + s.count) % WORD,
             total_memory := (b.total_memory + s.total_memory) % WORD }
  let minus (b : DCU_MemoryStats) : DCU_MemoryStats :=
    { b with count := (b.count + (WORD - s.count % WORD)) % WORD,
             total_memory := (b.total_memory + (WORD - s.total_memory % WORD)) % WORD }
  match i with
  | DCU_MallocType | DCU_ReallocType | DCU_CallocType =>
    { st with DCU_memory_stats_c := plus st.DCU_memory_stats_c }
  | DCU_FreeType => { st with DCU_memory_stats_c := minus st.DCU_memory_stats_c }
  | DCU_NewType => { st with DCU_memory_stats_new := plus st.DCU_memory_stats_new }
  | DCU_DeleteType => { st with DCU_memory_stats_new := minus st.DCU_memory_stats_new }
  | DCU_NewArrayType =>
    { st with DCU_memory_stats_new_array := plus st.DCU_memory_stats_new_array }
  | DCU_DeleteArrayType =>
    { st with DCU_memory_stats_new_array := minus st.DCU_memory_stats_new_array }

/-- The body of the leak loop of `DCU_analyzeMemory` for one residual node. -/
def DCU_analyzeMemory_leak (problems : List DCU_ProblemInfo) (iterator : DCU_OperationInfo) :
    List DCU_ProblemInfo :=
  DCU_registerProblem problems DCU_LeakType iterator.stack DCU_null_stack
    { DCU_createProblem with type := DCU_LeakType, allocation_stack := iterator.stack }
    (fun problem => { problem with
      count := (problem.count + 1) % WORD
      size := iterator.size
      total_memory := (problem.total_memory + iterator.size) % WORD })

/-- The function `DCU_analyzeMemory`: the statistics loop over the eight operation types in
enumeration order, then the leak loop over every bucket of the table and every node of its
chain. -/
def DCU_analyzeMemory (st : DCU_State) : DCU_State :=
  let st := [DCU_MallocType, DCU_FreeType, DCU_ReallocType, DCU_CallocType, DCU_NewType,
    DCU_DeleteType, DCU_NewArrayType, DCU_DeleteArrayType].foldl DCU_analyzeMemory_stats st
  { st with DCU_problems :=
      ((List.range DCU_HASH_TABLE_SIZE).foldl
        (fun problems hash_index => (st.DCU_memory hash_index).foldl DCU_analyzeMemory_leak problems)
        st.DCU_problems) }

/-! ## The report -/

/-- The table `DCU_OperationTypeNames`. -/
def DCU_OperationTypeNames : DCU_DynamicOperationType → String
  | DCU_MallocType => "Malloc"
  | DCU_FreeType => "Free"
  | DCU_ReallocType => "Realloc"
  | DCU_CallocType => "Calloc"
  | DCU_NewType => "new"
  | DCU_DeleteType => "delete"
  | DCU_NewArrayType => "new[]"
  | DCU_DeleteArrayType => "delete[]"

/-- The table `DCU_ProblemTypenames`. -/
def DCU_ProblemTypenames : DCU_ProblemType → String
  | DCU_LeakType => "Memory Leak"
  | DCU_ReleaseUnallocatedType => "Release Unallocated Memory"
  | DCU_MismatchOperationType => "Mismatch Memory Allocation/Deletion"
  | DCU_FreeNullType => "Free Null Pointer"
  | DCU_RequestZeroMemoryType => "Request Zero Memory"
  | DCU_MemoryOverWriteType => "Memory Over-Write"

/-- The value of an enumerator of `DCU_ProblemType`. -/
def DCU_ProblemType.index : DCU_ProblemType → Nat
  | DCU_LeakType => 0
  | DCU_ReleaseUnallocatedType => 1
  | DCU_MismatchOperationType => 2
  | DCU_FreeNullType => 3
  | DCU_RequestZeroMemoryType => 4
  | DCU_MemoryOverWriteType => 5

/-- Text that `vfprintf` produces for `%d`.  The arguments are `unsigned long` or `size_t`
values read as `int`: the low 32 bits, signed. -/
def DCU_printf_d (n : Nat) : String :=
  let low := n % 4294967296
  if low < 2147483648 then toString low else "-" ++ toString (4294967296 - low)

/-- Right-justification of a conversion in a field of `width` columns (`%15s`, `%15d`). -/
def DCU_printf_pad (width : Nat) (s : String) : String :=
  String.join (List.replicate (width - s.length) " ") ++ s

/-- Text that `vfprintf` produces for `%p` with a non-null pointer. -/
def DCU_printf_p (p : Nat) : String :=
  "0x" ++ String.mk (Nat.toDigits 16 p)

/-- The 64 dashes that separate the sections of the report. -/
def DCU_report_rule : String :=
  "----------------------------------------------------------------\n"

/-- The frames of a stack as the report prints them: one `DCU_write("%p ", ..)` per non-null
slot. -/
def DCU_reportMemoryStatus_frames (stack : DCU_Stack) : List String :=
  (List.finRange 8).filterMap
    (fun frame => if stack frame ≠ 0 then some (DCU_printf_p (stack frame) ++ " ") else none)

/-- Lines 781-835 of `DCU_reportMemoryStatus`: the texts written for one problem node, one
element per call of `DCU_write`. -/
def DCU_reportMemoryStatus_problem (iterator : DCU_ProblemInfo) : List String :=
  let needs_allocation_stack : Bool :=
    decide (iterator.type = DCU_LeakType)
      || (decide (iterator.type = DCU_RequestZeroMemoryType)
        || decide (iterator.type = DCU_MismatchOperationType)
        || decide (iterator.type = DCU_MemoryOverWriteType))
  let needs_deallocation_stack : Bool :=
    decide (iterator.type = DCU_FreeNullType)
      || decide (iterator.type = DCU_MismatchOperationType)
      || decide (iterator.type = DCU_ReleaseUnallocatedType)
      || decide (iterator.type = DCU_MemoryOverWriteType)
  ["\x7b\n",
   "[" ++ DCU_printf_d iterator.type.index ++ "] " ++ DCU_ProblemTypenames iterator.type ++ "\n",
   "Count: " ++ DCU_printf_d iterator.count ++ "\n"]
  ++ (if iterator.type = DCU_LeakType then
        ["Total Memory Lost: " ++ DCU_printf_d iterator.total_memory ++ " \n"]
      else [])
  ++ (if needs_allocation_stack = true then
        ["Allocation Stack: "] ++ DCU_reportMemoryStatus_frames iterator.allocation_stack
          ++ ["\n"]
      else [])
  ++ (if needs_deallocation_stack = true then
        ["Deallocation Stack: "] ++ DCU_reportMemoryStatus_frames iterator.deallocation_stack
          ++ ["\n"]
      else [])
  ++ ["\x7d\n"]

/-- One row `"%15s %15d %15d %15d\n"` of the operation table. -/
def DCU_reportMemoryStatus_row (name : String) (stats : DCU_MemoryStats) : String :=
  DCU_printf_pad 15 name ++ " " ++ DCU_printf_pad 15 (DCU_printf_d stats.count) ++ " "
    ++ DCU_printf_pad 15 (DCU_printf_d stats.total_memory) ++ " "
    ++ DCU_printf_pad 15 (DCU_printf_d stats.max_value) ++ "\n"

/-- One row `"%15s %15d %15d\n"` of the balance summary. -/
def DCU_reportMemoryStatus_balance (name : String) (stats : DCU_MemoryStats) : String :=
  DCU_printf_pad 15 name ++ " " ++ DCU_printf_pad 15 (DCU_printf_d stats.count) ++ " "
    ++ DCU_printf_pad 15 (DCU_printf_d stats.total_memory) ++ "\n"

/-- The texts `DCU_reportMemoryStatus` passes to `DCU_write`, in order, one element per
call.  Without `DCU_C_MEMORY_CHECK` the rows of the four C operations and the C balance are
skipped. -/
def DCU_reportMemoryStatus_texts (ft : DCU_Features) (st : DCU_State) : List String :=
  ["DynamicCheckUp Memory Report\n", DCU_report_rule,
   DCU_printf_pad 15 "->" ++ " " ++ DCU_printf_pad 15 "operations" ++ " "
     ++ DCU_printf_pad 15 "total mem" ++ " " ++ DCU_printf_pad 15 "max value" ++ "\n"]
  ++ ([DCU_MallocType, DCU_FreeType, DCU_ReallocType, DCU_CallocType].filterMap
        (fun i => if ft.DCU_C_MEMORY_CHECK = true then
            some (DCU_reportMemoryStatus_row (DCU_OperationTypeNames i) (st.DCU_memory_stats i))
          else none))
  ++ ([DCU_NewType, DCU_DeleteType, DCU_NewArrayType, DCU_DeleteArrayType].map
        (fun i => DCU_reportMemoryStatus_row (DCU_OperationTypeNames i) (st.DCU_memory_stats i)))
  ++ ["\nDynamic Memory Balance\n", DCU_report_rule]
  ++ (if ft.DCU_C_MEMORY_CHECK = true then
        [DCU_reportMemoryStatus_balance "C Memory" st.DCU_memory_stats_c]
      else [])
  ++ [DCU_reportMemoryStatus_balance "New Del" st.DCU_memory_stats_new,
      DCU_reportMemoryStatus_balance "New Del[]" st.DCU_memory_stats_new_array]
  ++ ["\nProblems\n", DCU_report_rule]
  ++ st.DCU_problems.flatMap DCU_reportMemoryStatus_problem

/-- The function `DCU_reportMemoryStatus`: every text goes through `DCU_write`. -/
def DCU_reportMemoryStatus (ft : DCU_Features) (env : DCU_Environment) (st : DCU_State) :
    DCU_State :=
  (DCU_reportMemoryStatus_texts ft st).foldl (DCU_write ft env) st

/-! ## Shutdown -/

/-- The function `DCU_emptyOperationList`: unlink and free node after node. -/
def DCU_emptyOperationList : List DCU_OperationInfo → List DCU_OperationInfo
  | [] => []
  | _ :: rest => DCU_emptyOperationList rest

/-- The function `DCU_emptyProblemList`: unlink and free node after node. -/
def DCU_emptyProblemList : List DCU_ProblemInfo → List DCU_ProblemInfo
  | [] => []
  | _ :: rest => DCU_emptyProblemList rest

/-- The function `DCU_emptyMemory`: every bucket of the table, in index order. -/
def DCU_emptyMemory (st : DCU_State) : DCU_State :=
  (List.range DCU_HASH_TABLE_SIZE).foldl
    (fun st i => { st with DCU_memory :=
      (Function.update st.DCU_memory i (DCU_emptyOperationList (st.DCU_memory i))) })
    st

/-- Line 395 of `DCU_shutdown`: `DCU_emptyProblemList(&DCU_problems)`. -/
def DCU_shutdown_problems (st : DCU_State) : DCU_State :=
  { st with DCU_problems := DCU_emptyProblemList st.DCU_problems }

/-- Lines 398-402 of `DCU_shutdown`: the log file is closed and the stream variable is reset
to the fallback stream. -/
def DCU_shutdown_stream (env : DCU_Environment) (st : DCU_State) : DCU_State :=
  if st.DCU_stream ≠ env.stdout then { st with DCU_stream := env.stdout } else st

/-- The function `DCU_shutdown`.  The bucket array is a null pointer until the initialiser has
run, so in a state that was never initialised the analyser faults on its first bucket
(`none`).  `DCU_free(DCU_memory)`, `fclose` and `pthread_mutex_destroy` act outside the
modelled state. -/
def DCU_shutdown (ft : DCU_Features) (env : DCU_Environment) (st : DCU_State) :
    Option DCU_State :=
  if DCU_STATE st DCU_FINISHED = 0 then
    if DCU_STATE st DCU_INITIALIZED = 0 then none
    else
      some (DCU_SET_FLAG
        (DCU_shutdown_stream env
          (DCU_shutdown_problems
            (DCU_emptyMemory
              (DCU_reportMemoryStatus ft env
                (DCU_analyzeMemory (DCU_CLEAR_FLAG st DCU_TRACING))))))
        DCU_FINISHED)
  else some st

/-! ## Observations used in the statements -/

/-- The identity of a problem node: its type and its two stacks. -/
def DCU_signature (problem : DCU_ProblemInfo) : DCU_ProblemType × DCU_Stack × DCU_Stack :=
  (problem.type, problem.allocation_stack, problem.deallocation_stack)

/-- The node of the registry that `DCU_findProblem` returns for a signature, if any. -/
def DCU_problemFor (list : List DCU_ProblemInfo) (type : DCU_ProblemType)
    (allocation_stack deallocation_stack : DCU_Stack) : Option DCU_ProblemInfo :=
  match DCU_findProblem list type allocation_stack deallocation_stack with
  | some problem => list.get? problem
  | none => none

/-- The count recorded in the registry for a signature (`0` when it has no node). -/
def DCU_problemCount (list : List DCU_ProblemInfo) (type : DCU_ProblemType)
    (allocation_stack deallocation_stack : DCU_Stack) : Nat :=
  match DCU_problemFor list type allocation_stack deallocation_stack with
  | some problem => problem.count
  | none => 0

/-- The leaked bytes recorded in the registry for a signature (`0` when it has no node). -/
def DCU_problemTotal (list : List DCU_ProblemInfo) (type : DCU_ProblemType)
    (allocation_stack deallocation_stack : DCU_Stack) : Nat :=
  match DCU_problemFor list type allocation_stack deallocation_stack with
  | some problem => problem.total_memory
  | none => 0

/-- The number of nodes of the registry that carry a signature. -/
def DCU_problemNodes (list : List DCU_ProblemInfo) (type : DCU_ProblemType)
    (allocation_stack deallocation_stack : DCU_Stack) : Nat :=
  (list.filter (fun p =>
    decide (DCU_signature p = (type, allocation_stack, deallocation_stack)))).length

/-- The nodes of the table in the order in which the leak loop of `DCU_analyzeMemory` visits
them: bucket `0` to bucket `DCU_HASH_TABLE_SIZE - 1`, each chain from its head. -/
def DCU_residual (st : DCU_State) : List DCU_OperationInfo :=
  (List.range DCU_HASH_TABLE_SIZE).flatMap st.DCU_memory

/-- The nodes of the table, in any bucket, whose address is `memory_address`. -/
def DCU_entriesFor (st : DCU_State) (memory_address : Nat) : List DCU_OperationInfo :=
  (DCU_residual st).filter (fun op => decide (op.memory_address = memory_address))

/-- The shape of the table that `DCU_addMemory` and `DCU_removeMemory` maintain as long as no
address is handed out twice: every node sits in the bucket of its address, and no two nodes
of a chain have the same address. -/
def DCU_tableInvariant (st : DCU_State) : Prop :=
  ∀ b, (∀ op ∈ st.DCU_memory b, DCU_HASH_FUNCTION op.memory_address = b) ∧
    ((st.DCU_memory b).map (fun op => op.memory_address)).Nodup

/-- The node that `DCU_requestMemory` links for a block it hands out: lines 502-507, the stack
being captured into the zero-filled node. -/
def DCU_registeredNode (env : DCU_Environment) (type : DCU_DynamicOperationType)
    (size out : Nat) : DCU_OperationInfo :=
  { type := type, memory_address := out, size := size,
    stack := DCU_createStackTrace DCU_createOperation.stack env.backtrace }

/-- One call of an entry point by the instrumented program, with the results of the external
primitives during that call. -/
inductive DCU_Call where
  | request (env : DCU_Environment) (type : DCU_DynamicOperationType) (size pointer : Nat)
  | release (env : DCU_Environment) (type : DCU_DynamicOperationType) (pointer : Nat)

/-- Run a sequence of calls: the final state and the pointers returned by the requests, in
call order.  `none`: the process stopped or entered `DCU_abort` during one of the calls. -/
def DCU_run (ft : DCU_Features) : DCU_State → List DCU_Call → Option (DCU_State × List Nat)
  | st, [] => some (st, [])
  | st, DCU_Call.request env type size pointer :: rest =>
    match DCU_requestMemory ft env st type size pointer with
    | none => none
    | some (st1, out) =>
      match DCU_run ft st1 rest with
      | none => none
      | some (st2, outs) => some (st2, out :: outs)
  | st, DCU_Call.release env type pointer :: rest =>
    match DCU_releaseMemory ft env st type pointer with
    | DCU_Outcome.returned st1 => DCU_run ft st1 rest
    | DCU_Outcome.aborted _ => none
    | DCU_Outcome.halted => none

/-! ## Defect events -/

/-- A defect event: the signature passed to `DCU_findProblem` at a detection site. -/
abbrev DCU_Event := DCU_ProblemType × DCU_Stack × DCU_Stack

/-- The detection sites reached by a call of `DCU_requestMemory` in an initialised state:
the zero-size report of lines 416-434. -/
def DCU_requestMemory_events (env : DCU_Environment) (st : DCU_State)
    (type : DCU_DynamicOperationType) (size : Nat) : List DCU_Event :=
  if size = 0 ∧ (type = DCU_CallocType ∨ type = DCU_MallocType ∨ type = DCU_NewType
      ∨ type = DCU_NewArrayType) then
    if DCU_STATE st DCU_TRACING ≠ 0 then
      [(DCU_RequestZeroMemoryType, DCU_createStackTrace env.stack env.backtrace,
        DCU_null_stack)]
    else []
  else []

/-- The detection sites reached by a call of `DCU_releaseMemory` in an initialised state, in
the order in which they are reached: over-write (line 550) then mismatch (line 594) for a
tracked block, release of unallocated memory (line 616) for an untracked one, free of the
null pointer (line 650). -/
def DCU_releaseMemory_events (ft : DCU_Features) (env : DCU_Environment) (st : DCU_State)
    (type : DCU_DynamicOperationType) (pointer : Nat) : List DCU_Event :=
  let stack := DCU_createStackTrace env.stack env.backtrace
  if pointer ≠ 0 then
    if DCU_STATE st DCU_TRACING ≠ 0 then
      match DCU_findMemory st pointer with
      | some operation =>
        let overwritten := memcmp st.heap (ptr_add pointer operation.size)
          OVERWRITE_DETECTION_DATA OVERWRITE_DETECTION_DATA_SIZE
        (if overwritten = true then [(DCU_MemoryOverWriteType, operation.stack, stack)]
          else []) ++
        (if overwritten = true ∧ ft.DCU_ABORT_ON_MEMORY_OVERWRITE = true then []
          else if DCU_mismatched_release type operation.type = true then
            [(DCU_MismatchOperationType, operation.stack, stack)]
          else [])
      | none => [(DCU_ReleaseUnallocatedType, DCU_null_stack, stack)]
    else []
  else
    if ft.DCU_C_MEMORY_CHECK = true ∧ type = DCU_FreeType then
      if DCU_STATE st DCU_TRACING ≠ 0 then [(DCU_FreeNullType, DCU_null_stack, stack)]
      else []
    else []

/-- The detection sites reached by `DCU_analyzeMemory`: one leak per residual node. -/
def DCU_analyzeMemory_events (st : DCU_State) : List DCU_Event :=
  (DCU_residual st).map (fun op => (DCU_LeakType, op.stack, DCU_null_stack))

/-- The defect events raised along a sequence of calls, in order, up to the call (included)
during which the process stops, if any. -/
def DCU_events (ft : DCU_Features) : DCU_State → List DCU_Call → List DCU_Event
  | _, [] => []
  | st, DCU_Call.request env type size pointer :: rest =>
    DCU_requestMemory_events env st type size ++
      (match DCU_requestMemory ft env st type size pointer with
       | none => []
       | some (st1, _) => DCU_events ft st1 rest)
  | st, DCU_Call.release env type pointer :: rest =>
    DCU_releaseMemory_events ft env st type pointer ++
      (match DCU_releaseMemory ft env st type pointer with
       | DCU_Outcome.returned st1 => DCU_events ft st1 rest
       | DCU_Outcome.aborted _ => []
       | DCU_Outcome.halted => [])

/-- The find-or-create-and-count idiom for one event. -/
def DCU_recordEvent (list : List DCU_ProblemInfo) (e : DCU_Event) : List DCU_ProblemInfo :=
  DCU_registerProblem list e.1 e.2.1 e.2.2
    { type := e.1, size := 0, count := 0, total_memory := 0,
      allocation_stack := e.2.1, deallocation_stack := e.2.2 }
    DCU_countProblem

/-- Registry `after` accounts for the events `events` on top of registry `before`: for every
signature the count has grown by the number of its events (modulo 2^64) and a node exists
afterwards iff one existed or an event was raised, without duplication. -/
def DCU_accounts (before : List DCU_ProblemInfo) (events : List DCU_Event)
    (after : List DCU_ProblemInfo) : Prop :=
  ∀ t a d,
    DCU_problemCount after t a d =
      (if events.count (t, a, d) = 0 then DCU_problemCount before t a d
       else (DCU_problemCount before t a d + events.count (t, a, d)) % WORD) ∧
    DCU_problemNodes after t a d =
      (if events.count (t, a, d) = 0 then DCU_problemNodes before t a d
       else if DCU_problemNodes before t a d = 0 then 1
       else DCU_problemNodes before t a d)

/-! ## Sample inputs -/

/-- A build with the C checks compiled in and no abort switch. -/
def DCU_sample_features : DCU_Features :=
  { DCU_C_MEMORY_CHECK := true, DCU_ECHO := false,
    DCU_ABORT_ON_RELEASE_NOT_REQUESTED_MEMORY := false,
    DCU_ABORT_ON_MEMORY_OVERWRITE := false }

/-- A call during which the arena hands out address 8192, `backtrace` writes three frames and
a read of the size field of a freed node yields 4. -/
def DCU_sample_environment : DCU_Environment :=
  { mspace_malloc := 8192, freed_size := 4, backtrace := [301, 302, 303],
    stack := fun _ => 0, pthread_mutex_init := 0, fopen := 7, stdout := 1 }

/-- A four-byte `new[]` block at address 4096, requested from a call site with two frames. -/
def DCU_sample_block : DCU_OperationInfo :=
  { type := DCU_NewArrayType, memory_address := 4096, size := 4,
    stack := fun i => if i.val = 0 then 201 else if i.val = 1 then 202 else 0 }

/-- A state with tracing enabled in which `DCU_sample_block` is the only tracked block; its
canary bytes are intact. -/
def DCU_sample_state : DCU_State :=
  { DCU_flags := 11, DCU_stream := 7,
    DCU_memory := fun b => if b = 4096 then [DCU_sample_block] else [],
    DCU_problems := [],
    DCU_memory_stats := fun t =>
      if t = DCU_NewArrayType then { count := 1, total_memory := 4, max_value := 4 }
      else { count := 0, total_memory := 0, max_value := 0 },
    DCU_memory_stats_c := { count := 0, total_memory := 0, max_value := 0 },
    DCU_memory_stats_new := { count := 0, total_memory := 0, max_value := 0 },
    DCU_memory_stats_new_array := { count := 0, total_memory := 0, max_value := 0 },
    heap := fun a =>
      if a = 4100 then 0xAA else if a = 4101 then 0xBB else if a = 4102 then 0xCC
      else if a = 4103 then 0xDD else 0,
    written := [] }

/-- The sample state after the program wrote `'k'` at offset 4 of the sample block. -/
def DCU_sample_overwritten : DCU_State :=
  { DCU_sample_state with heap := Function.update DCU_sample_state.heap 4100 107 }

/-- A four-byte `malloc` block at address 4096, requested from a call site with two frames. -/
def DCU_sample_malloc_block : DCU_OperationInfo :=
  { type := DCU_MallocType, memory_address := 4096, size := 4,
    stack := fun i => if i.val = 0 then 201 else if i.val = 1 then 202 else 0 }

/-- A state with tracing enabled in which `DCU_sample_malloc_block` is the only tracked block;
the block holds the bytes `'H' 'H' 'H' 'H'` and its canary is intact. -/
def DCU_sample_malloc_state : DCU_State :=
  { DCU_flags := 11, DCU_stream := 7,
    DCU_memory := fun b => if b = 4096 then [DCU_sample_malloc_block] else [],
    DCU_problems := [],
    DCU_memory_stats := fun t =>
      if t = DCU_MallocType then { count := 1, total_memory := 4, max_value := 4 }
      else { count := 0, total_memory := 0, max_value := 0 },
    DCU_memory_stats_c := { count := 0, total_memory := 0, max_value := 0 },
    DCU_memory_stats_new := { count := 0, total_memory := 0, max_value := 0 },
    DCU_memory_stats_new_array := { count := 0, total_memory := 0, max_value := 0 },
    heap := fun a =>
      if 4096 ≤ a ∧ a < 4100 then 0x48
      else if a = 4100 then 0xAA else if a = 4101 then 0xBB else if a = 4102 then 0xCC
      else if a = 4103 then 0xDD else 0,
    written := [] }

/-- The call site of `newAndLoseMemory` in the unit test, as a captured stack. -/
def DCU_sample_leak_stack : DCU_Stack :=
  fun i => if i.val = 0 then 401 else if i.val = 1 then 402 else 0

/-- The `new[]` block of `size` bytes at `memory_address` requested from that call site. -/
def DCU_sample_leak (memory_address size : Nat) : DCU_OperationInfo :=
  { type := DCU_NewArrayType, memory_address := memory_address, size := size,
    stack := DCU_sample_leak_stack }

/-- The table at shutdown of `repeateTest`: five `new[]` blocks of sizes 10 to 14 from one
call site, never released.  Their addresses fall into bucket 4096, latest first. -/
def DCU_sample_leaks : DCU_State :=
  { DCU_sample_state with
    DCU_flags := 9
    DCU_memory := fun b =>
      if b = 4096 then
        [DCU_sample_leak 145388 14, DCU_sample_leak 110065 13, DCU_sample_leak 74742 12,
         DCU_sample_leak 39419 11, DCU_sample_leak 4096 10]
      else [] }

/-- The globals of a process in which nothing of the library has run yet: zero-initialised
statics. -/
def DCU_sample_boot : DCU_State :=
  { DCU_flags := 0, DCU_stream := 0,
    DCU_memory := fun _ => [],
    DCU_problems := [],
    DCU_memory_stats := fun _ => { count := 0, total_memory := 0, max_value := 0 },
    DCU_memory_stats_c := { count := 0, total_memory := 0, max_value := 0 },
    DCU_memory_stats_new := { count := 0, total_memory := 0, max_value := 0 },
    DCU_memory_stats_new_array := { count := 0, total_memory := 0, max_value := 0 },
    heap := fun _ => 0,
    written := [] }

/-- The state `DCU_initialize` produces from `DCU_sample_boot`. -/
def DCU_sample_started : DCU_State :=
  { DCU_sample_boot with
    DCU_flags := 11
    DCU_stream := 7
    written := [(7, "DynamicCheckUp Started\n")] }

/-- A call from another call site (two frames). -/
def DCU_sample_environment2 : DCU_Environment :=
  { DCU_sample_environment with backtrace := [501, 502] }

/-- A short program: two zero-sized `new[]` from one call site, a `new` of four bytes released
with `delete[]`, and a `new[]` of ten bytes that is never released. -/
def DCU_sample_calls : List DCU_Call :=
  [DCU_Call.request DCU_sample_environment DCU_NewArrayType 0 0,
   DCU_Call.request DCU_sample_environment DCU_NewArrayType 0 0,
   DCU_Call.request DCU_sample_environment DCU_NewType 4 0,
   DCU_Call.release DCU_sample_environment2 DCU_DeleteArrayType 8192,
   DCU_Call.request DCU_sample_environment DCU_NewArrayType 10 0]

/-- An output array that still holds what the caller's frame left in it. -/
def DCU_sample_garbage : DCU_Stack :=
  fun _ => 7

/-- A call during which `fopen` cannot open the log file. -/
def DCU_sample_environment_nofile : DCU_Environment :=
  { DCU_sample_environment with fopen := 0 }

/-- A call during which the arena is exhausted. -/
def DCU_sample_environment_exhausted : DCU_Environment :=
  { DCU_sample_environment with mspace_malloc := 0 }

/-! ## Addresses held by the program -/

/-- The addresses the program holds after a request that returned `out`, given those it held
before: an address passed to a Realloc request is given up (the old block goes back to the
arena whether or not a new block is obtained), and a non-null result is held from then on. -/
def DCU_heldAfterRequest (held : List Nat) (type : DCU_DynamicOperationType)
    (pointer out : Nat) : List Nat :=
  let held :=
    if type = DCU_ReallocType then held.filter (fun a => decide (a ≠ pointer)) else held
  if out ≠ 0 then out :: held else held

/-- The addresses the program holds after releasing `pointer`. -/
def DCU_heldAfterRelease (held : List Nat) (pointer : Nat) : List Nat :=
  held.filter (fun a => decide (a ≠ pointer))

/-- The addresses the program holds after a sequence of calls: those returned by a request and
not since released or reallocated. -/
def DCU_heldAfter (ft : DCU_Features) : DCU_State → List Nat → List DCU_Call → List Nat
  | _, held, [] => held
  | st, held, DCU_Call.request env type size pointer :: rest =>
    match DCU_requestMemory ft env st type size pointer with
    | none => held
    | some (st1, out) => DCU_heldAfter ft st1 (DCU_heldAfterRequest held type pointer out) rest
  | st, held, DCU_Call.release env type pointer :: rest =>
    match DCU_releaseMemory ft env st type pointer with
    | DCU_Outcome.returned st1 => DCU_heldAfter ft st1 (DCU_heldAfterRelease held pointer) rest
    | DCU_Outcome.aborted _ => held
    | DCU_Outcome.halted => held

/-- The assumption on the arena along a sequence of calls: the pointer a request returns is
null or an address the program does not hold at that moment. -/
def DCU_arenaFresh (ft : DCU_Features) : DCU_State → List Nat → List DCU_Call → Prop
  | _, _, [] => True
  | st, held, DCU_Call.request env type size pointer :: rest =>
    match DCU_requestMemory ft env st type size pointer with
    | none => True
    | some (st1, out) =>
      (out = 0 ∨ out ∉ held) ∧
      DCU_arenaFresh ft st1 (DCU_heldAfterRequest held type pointer out) rest
  | st, held, DCU_Call.release env type pointer :: rest =>
    match DCU_releaseMemory ft env st type pointer with
    | DCU_Outcome.returned st1 => DCU_arenaFresh ft st1 (DCU_heldAfterRelease held pointer) rest
    | DCU_Outcome.aborted _ => True
    | DCU_Outcome.halted => True

/-- A program that requests two blocks, releases the first and reallocates the second; the
arena hands out 8192, 12288 and 16384. -/
def DCU_sample_session : List DCU_Call :=
  [DCU_Call.request DCU_sample_environment DCU_NewArrayType 10 0,
   DCU_Call.request { DCU_sample_environment with mspace_malloc := 12288 } DCU_MallocType 6 0,
   DCU_Call.release DCU_sample_environment2 DCU_DeleteArrayType 8192,
   DCU_Call.request { DCU_sample_environment2 with mspace_malloc := 16384 }
     DCU_ReallocType 20 12288]

/-- The table tracks exactly the addresses of `held`: it is well shaped, an address of `held`
has exactly one node, every other address has none, and the null address is not held. -/
def DCU_tracksHeld (st : DCU_State) (held : List Nat) : Prop :=
  DCU_tableInvariant st ∧ 0 ∉ held ∧
    ∀ a, (DCU_entriesFor st a).length = if a ∈ held then 1 else 0

/-- One call of `DCU_addMemory` or `DCU_removeMemory` (`none` is the null element). -/
inductive DCU_TableCall where
  | add (element : DCU_OperationInfo)
  | remove (element : Option DCU_OperationInfo)

/-- The state after a sequence of `DCU_addMemory` and `DCU_removeMemory` calls. -/
def DCU_tableAfter (st : DCU_State) : List DCU_TableCall → DCU_State
  | [] => st
  | DCU_TableCall.add element :: rest => DCU_tableAfter (DCU_addMemory st element) rest
  | DCU_TableCall.remove element :: rest => DCU_tableAfter (DCU_removeMemory st element) rest

/-- The fields of a problem node that are not meaningful for its kind are zero: no allocation
stack for Release Unallocated and Free Null Pointer, no deallocation stack for Memory Leak and
Request Zero Memory, no byte total for a kind other than Memory Leak. -/
def DCU_problemShape (problem : DCU_ProblemInfo) : Prop :=
  ((problem.type = DCU_ReleaseUnallocatedType ∨ problem.type = DCU_FreeNullType) →
    problem.allocation_stack = DCU_null_stack) ∧
  ((problem.type = DCU_LeakType ∨ problem.type = DCU_RequestZeroMemoryType) →
    problem.deallocation_stack = DCU_null_stack) ∧
  (problem.type ≠ DCU_LeakType → problem.total_memory = 0)

/-- One step of a session: a call of an entry point, or a run of `DCU_analyzeMemory`. -/
inductive DCU_Action where
  | call (c : DCU_Call)
  | analyze

/-- Perform one step.  `none`: the process stopped or entered `DCU_abort` during the call. -/
def DCU_act (ft : DCU_Features) (st : DCU_State) : DCU_Action → Option DCU_State
  | DCU_Action.call (DCU_Call.request env type size pointer) =>
    match DCU_requestMemory ft env st type size pointer with
    | none => none
    | some (st1, _) => some st1
  | DCU_Action.call (DCU_Call.release env type pointer) =>
    match DCU_releaseMemory ft env st type pointer with
    | DCU_Outcome.returned st1 => some st1
    | DCU_Outcome.aborted _ => none
    | DCU_Outcome.halted => none
  | DCU_Action.analyze => some (DCU_analyzeMemory st)

/-- Perform a sequence of steps, as long as the process goes on. -/
def DCU_perform (ft : DCU_Features) : DCU_State → List DCU_Action → Option DCU_State
  | st, [] => some st
  | st, a :: rest =>
    match DCU_act ft st a with
    | none => none
    | some st1 => DCU_perform ft st1 rest

/-- The sum of the byte totals of the Memory Leak nodes of a registry. -/
def DCU_leakBytes (list : List DCU_ProblemInfo) : Nat :=
  ((list.filter (fun p => decide (p.type = DCU_LeakType))).map (fun p => p.total_memory)).sum

/-- The texts that a log holds for the stream `stream`, in the order in which they were
written. -/
def DCU_streamTexts (stream : Nat) (log : List (Nat × String)) : List String :=
  (log.filter (fun w => decide (w.1 = stream))).map Prod.snd

/-- A registry with a leak node of five blocks and sixty bytes and a Free Null Pointer node
counted twice, in a state that logs to stream 7. -/
def DCU_sample_reported : DCU_State :=
  { DCU_sample_started with
    DCU_problems :=
      [{ type := DCU_LeakType, size := 14, count := 5, total_memory := 60,
         allocation_stack := DCU_sample_leak_stack, deallocation_stack := DCU_null_stack },
       { type := DCU_FreeNullType, size := 0, count := 2, total_memory := 0,
         allocation_stack := DCU_null_stack, deallocation_stack := DCU_sample_leak_stack }] }

/-! # Theorems -/

/-! ## Basic facts -/

theorem DCU_stacksMatch_iff (lhs rhs : DCU_Stack) : DCU_stacksMatch lhs rhs = true ↔ lhs = rhs := by
  have h : (List.finRange 8) = [0, 1, 2, 3, 4, 5, 6, 7] := by rfl
  unfold DCU_stacksMatch
  rw [h]
  simp only [List.foldl, Bool.true_and, Bool.and_eq_true, decide_eq_true_eq]
  constructor
  · intro hh
    funext i
    fin_cases i <;> simp_all
  · intro hh
    subst hh
    simp

theorem DCU_findProblem_head (it : DCU_ProblemInfo) (rest : List DCU_ProblemInfo)
    (t : DCU_ProblemType) (a d : DCU_Stack) :
    DCU_findProblem (it :: rest) t a d =
      if DCU_signature it = (t, a, d) then some 0
      else (DCU_findProblem rest t a d).map (· + 1) := by
  have ha := DCU_stacksMatch_iff a it.allocation_stack
  have hd := DCU_stacksMatch_iff d it.deallocation_stack
  have hnf : ((decide (it.type ≠ t) || !DCU_stacksMatch a it.allocation_stack
      || !DCU_stacksMatch d it.deallocation_stack) = true) ↔ ¬ (DCU_signature it = (t, a, d)) := by
    simp only [DCU_signature, Prod.mk.injEq, Bool.or_eq_true, decide_eq_true_eq,
      Bool.not_eq_true', ← Bool.not_eq_true, ha, hd]
    constructor
    · rintro h ⟨h1, h2, h3⟩
      rcases h with (h | h) | h
      · exact h h1
      · exact h h2.symm
      · exact h h3.symm
    · intro h
      by_cases h1 : it.type = t
      · by_cases h2 : a = it.allocation_stack
        · by_cases h3 : d = it.deallocation_stack
          · exact absurd ⟨h1, h2.symm, h3.symm⟩ h
          · exact Or.inr h3
        · exact Or.inl (Or.inr h2)
      · exact Or.inl (Or.inl h1)
  conv_lhs => rw [DCU_findProblem]
  by_cases hs : DCU_signature it = (t, a, d)
  · have : ¬ ((decide (it.type ≠ t) || !DCU_stacksMatch a it.allocation_stack
      || !DCU_stacksMatch d it.deallocation_stack) = true) := fun h => hnf.mp h hs
    show (if _ then _ else _) = _
    rw [if_neg this, if_pos hs]
  · have : ((decide (it.type ≠ t) || !DCU_stacksMatch a it.allocation_stack
      || !DCU_stacksMatch d it.deallocation_stack) = true) := hnf.mpr hs
    show (if _ then _ else _) = _
    rw [if_pos this, if_neg hs]

theorem DCU_findProblem_none (list : List DCU_ProblemInfo) (t : DCU_ProblemType)
    (a d : DCU_Stack) :
    DCU_findProblem list t a d = none ↔ ∀ q ∈ list, DCU_signature q ≠ (t, a, d) := by
  induction list with
  | nil => simp [DCU_findProblem]
  | cons it rest ih =>
    rw [DCU_findProblem_head]
    by_cases h : DCU_signature it = (t, a, d)
    · simp [h]
    · simp [h, ih]

theorem DCU_findProblem_some (list : List DCU_ProblemInfo) (t : DCU_ProblemType)
    (a d : DCU_Stack) (i : Nat) (h : DCU_findProblem list t a d = some i) :
    ∃ pre p post, list = pre ++ p :: post ∧ pre.length = i ∧
      (∀ q ∈ pre, DCU_signature q ≠ (t, a, d)) ∧ DCU_signature p = (t, a, d) := by
  induction list generalizing i with
  | nil => simp [DCU_findProblem] at h
  | cons it rest ih =>
    rw [DCU_findProblem_head] at h
    by_cases hs : DCU_signature it = (t, a, d)
    · simp [hs] at h
      exact ⟨[], it, rest, by simp, by simp [h], by simp, hs⟩
    · simp [hs] at h
      obtain ⟨j, hj, hi⟩ := h
      obtain ⟨pre, p, post, hl, hlen, hpre, hp⟩ := ih j hj
      refine ⟨it :: pre, p, post, by simp [hl], by simp [hlen, hi], ?_, hp⟩
      intro q hq
      rcases List.mem_cons.mp hq with hq | hq
      · rw [hq]; exact hs
      · exact hpre q hq

theorem DCU_updateProblem_append (f : DCU_ProblemInfo → DCU_ProblemInfo)
    (pre : List DCU_ProblemInfo) (p : DCU_ProblemInfo) (post : List DCU_ProblemInfo) :
    DCU_updateProblem f (pre ++ p :: post) pre.length = pre ++ f p :: post := by
  induction pre with
  | nil => simp [DCU_updateProblem]
  | cons q pre ih => simp [DCU_updateProblem, ih]

/-- The two outcomes of the find-or-create idiom, as a decomposition of the registry. -/
theorem DCU_registerProblem_cases (list : List DCU_ProblemInfo) (t : DCU_ProblemType)
    (a d : DCU_Stack) (fresh : DCU_ProblemInfo) (mutate : DCU_ProblemInfo → DCU_ProblemInfo) :
    (∃ pre p post, list = pre ++ p :: post ∧
        (∀ q ∈ pre, DCU_signature q ≠ (t, a, d)) ∧ DCU_signature p = (t, a, d) ∧
        DCU_registerProblem list t a d fresh mutate = pre ++ mutate p :: post) ∨
    ((∀ q ∈ list, DCU_signature q ≠ (t, a, d)) ∧
        DCU_registerProblem list t a d fresh mutate = mutate fresh :: list) := by
  unfold DCU_registerProblem
  cases h : DCU_findProblem list t a d with
  | none =>
    right
    exact ⟨(DCU_findProblem_none list t a d).mp h, by simp [DCU_addProblemToList, DCU_updateProblem]⟩
  | some i =>
    left
    obtain ⟨pre, p, post, hl, hlen, hpre, hp⟩ := DCU_findProblem_some list t a d i h
    refine ⟨pre, p, post, hl, hpre, hp, ?_⟩
    simp only [hl, ← hlen]
    exact DCU_updateProblem_append mutate pre p post

theorem DCU_problemFor_eq_find (list : List DCU_ProblemInfo) (t : DCU_ProblemType)
    (a d : DCU_Stack) :
    DCU_problemFor list t a d = list.find? (fun p => decide (DCU_signature p = (t, a, d))) := by
  unfold DCU_problemFor
  induction list with
  | nil => simp [DCU_findProblem]
  | cons it rest ih =>
    rw [DCU_findProblem_head]
    by_cases hs : DCU_signature it = (t, a, d)
    · simp [hs]
    · simp only [hs, if_false, List.find?_cons, decide_False]
      cases hr : DCU_findProblem rest t a d with
      | none => simp [hr] at ih ⊢; exact ih
      | some j => simp [hr] at ih ⊢; exact ih

theorem DCU_find_none_of_forall (l : List DCU_ProblemInfo)
    (k : DCU_ProblemType × DCU_Stack × DCU_Stack) (h : ∀ q ∈ l, DCU_signature q ≠ k) :
    l.find? (fun p => decide (DCU_signature p = k)) = none := by
  rw [List.find?_eq_none]
  intro q hq
  simpa using h q hq

/-- After the idiom, the node for the signature is the updated old node, or the updated fresh
node when there was none. -/
theorem DCU_problemFor_register_same (list : List DCU_ProblemInfo) (t : DCU_ProblemType)
    (a d : DCU_Stack) (fresh : DCU_ProblemInfo) (mutate : DCU_ProblemInfo → DCU_ProblemInfo)
    (hm : ∀ p, DCU_signature (mutate p) = DCU_signature p)
    (hf : DCU_signature fresh = (t, a, d)) :
    DCU_problemFor (DCU_registerProblem list t a d fresh mutate) t a d =
      some (mutate ((DCU_problemFor list t a d).getD fresh)) := by
  rw [DCU_problemFor_eq_find, DCU_problemFor_eq_find]
  rcases DCU_registerProblem_cases list t a d fresh mutate with
    ⟨pre, p, post, hl, hpre, hp, hr⟩ | ⟨hno, hr⟩
  · rw [hr, hl, List.find?_append, List.find?_append,
      DCU_find_none_of_forall pre (t, a, d) hpre]
    simp [hm, hp]
  · rw [hr, DCU_find_none_of_forall list (t, a, d) hno]
    simp [hm, hf]

/-- The idiom leaves the node of every other signature as it was. -/
theorem DCU_problemFor_register_other (list : List DCU_ProblemInfo) (t : DCU_ProblemType)
    (a d : DCU_Stack) (fresh : DCU_ProblemInfo) (mutate : DCU_ProblemInfo → DCU_ProblemInfo)
    (hm : ∀ p, DCU_signature (mutate p) = DCU_signature p)
    (hf : DCU_signature fresh = (t, a, d))
    (t' : DCU_ProblemType) (a' d' : DCU_Stack) (hne : (t', a', d') ≠ (t, a, d)) :
    DCU_problemFor (DCU_registerProblem list t a d fresh mutate) t' a' d' =
      DCU_problemFor list t' a' d' := by
  rw [DCU_problemFor_eq_find, DCU_problemFor_eq_find]
  rcases DCU_registerProblem_cases list t a d fresh mutate with
    ⟨pre, p, post, hl, hpre, hp, hr⟩ | ⟨hno, hr⟩
  · rw [hr, hl, List.find?_append, List.find?_append]
    congr 1
    have h1 : ¬ DCU_signature (mutate p) = (t', a', d') := by
      rw [hm, hp]; exact fun h => hne h.symm
    have h2 : ¬ DCU_signature p = (t', a', d') := by
      rw [hp]; exact fun h => hne h.symm
    simp [List.find?_cons, h1, h2]
  · rw [hr]
    have h1 : ¬ DCU_signature (mutate fresh) = (t', a', d') := by
      rw [hm, hf]; exact fun h => hne h.symm
    simp [List.find?_cons, h1]

/-- The idiom leaves the nodes of the other signatures in place and in order. -/
theorem DCU_registerProblem_filter (list : List DCU_ProblemInfo) (t : DCU_ProblemType)
    (a d : DCU_Stack) (fresh : DCU_ProblemInfo) (mutate : DCU_ProblemInfo → DCU_ProblemInfo)
    (hm : ∀ p, DCU_signature (mutate p) = DCU_signature p)
    (hf : DCU_signature fresh = (t, a, d)) :
    (DCU_registerProblem list t a d fresh mutate).filter
        (fun p => decide (DCU_signature p ≠ (t, a, d))) =
      list.filter (fun p => decide (DCU_signature p ≠ (t, a, d))) := by
  rcases DCU_registerProblem_cases list t a d fresh mutate with
    ⟨pre, p, post, hl, hpre, hp, hr⟩ | ⟨hno, hr⟩
  · rw [hr, hl]
    simp [List.filter_append, List.filter_cons, hm, hp]
  · rw [hr]
    simp [List.filter_cons, hm, hf]

theorem DCU_countProblem_signature (p : DCU_ProblemInfo) :
    DCU_signature (DCU_countProblem p) = DCU_signature p := rfl

theorem DCU_initialize_initialized (ft : DCU_Features) (env : DCU_Environment) (st : DCU_State)
    (h : DCU_STATE st DCU_INITIALIZED ≠ 0) : ( DCU_initialize ft env st) = some st := by
  unfold DCU_initialize
  rw [if_pos h]

theorem memcmp_eq_false_iff (heap : Nat → Nat) (p : Nat) (data : Nat → Nat) (n : Nat) :
    memcmp heap p data n = false ↔ ∀ i, i < n → heap (ptr_add p i) = data i := by
  unfold memcmp
  rw [List.any_eq_false]
  simp [List.mem_range]

theorem DCU_mismatched_release_eq_false_iff (type allocated : DCU_DynamicOperationType) :
    DCU_mismatched_release type allocated = false ↔
      ((allocated = DCU_NewType ∧ type = DCU_DeleteType) ∨
       (allocated = DCU_NewArrayType ∧ type = DCU_DeleteArrayType) ∨
       ((allocated = DCU_MallocType ∨ allocated = DCU_CallocType ∨ allocated = DCU_ReallocType)
          ∧ type = DCU_FreeType)) := by
  cases type <;> cases allocated <;> simp [DCU_mismatched_release]

theorem DCU_removeMemory_problems (st : DCU_State) (o : Option DCU_OperationInfo) :
    (DCU_removeMemory st o).DCU_problems = st.DCU_problems := by
  cases o <;> rfl

/-! ## Family check of a release -/

/-- C1: with tracing enabled, releasing a tracked block whose four canary bytes are intact
returns; the registry is unchanged when the (allocating kind, releasing kind) pair is
(new, delete), (new[], delete[]) or (malloc|calloc|realloc, free); for every other pair the
node of signature (Mismatch, the block's allocation stack, the current stack) has its count
increased by one (starting from a zero node when it did not exist), and every node of another
signature is as before, in the same order. -/
theorem DCU_releaseMemory_family_check (ft : DCU_Features) (env : DCU_Environment)
    (st : DCU_State) (type : DCU_DynamicOperationType) (pointer : Nat)
    (operation : DCU_OperationInfo)
    (hinit : DCU_STATE st DCU_INITIALIZED ≠ 0) (htracing : DCU_STATE st DCU_TRACING ≠ 0)
    (hpointer : pointer ≠ 0) (hfind : DCU_findMemory st pointer = some operation)
    (hcanary : ∀ i, i < 4 →
      st.heap (ptr_add (ptr_add pointer operation.size) i) = OVERWRITE_DETECTION_DATA i) :
    ∃ st', DCU_releaseMemory ft env st type pointer = DCU_Outcome.returned st' ∧
      (((operation.type = DCU_NewType ∧ type = DCU_DeleteType) ∨
        (operation.type = DCU_NewArrayType ∧ type = DCU_DeleteArrayType) ∨
        ((operation.type = DCU_MallocType ∨ operation.type = DCU_CallocType ∨
            operation.type = DCU_ReallocType) ∧ type = DCU_FreeType)) →
        st'.DCU_problems = st.DCU_problems) ∧
      (¬ ((operation.type = DCU_NewType ∧ type = DCU_DeleteType) ∨
        (operation.type = DCU_NewArrayType ∧ type = DCU_DeleteArrayType) ∨
        ((operation.type = DCU_MallocType ∨ operation.type = DCU_CallocType ∨
            operation.type = DCU_ReallocType) ∧ type = DCU_FreeType)) →
        DCU_problemFor st'.DCU_problems DCU_MismatchOperationType operation.stack
            (DCU_createStackTrace env.stack env.backtrace) =
          some (DCU_countProblem
            ((DCU_problemFor st.DCU_problems DCU_MismatchOperationType operation.stack
                (DCU_createStackTrace env.stack env.backtrace)).getD
              { type := DCU_MismatchOperationType, size := 0, count := 0, total_memory := 0,
                allocation_stack := operation.stack,
                deallocation_stack := DCU_createStackTrace env.stack env.backtrace })) ∧
        (∀ t a d, (t, a, d) ≠ (DCU_MismatchOperationType, operation.stack,
              DCU_createStackTrace env.stack env.backtrace) →
            DCU_problemFor st'.DCU_problems t a d = DCU_problemFor st.DCU_problems t a d) ∧
        st'.DCU_problems.filter (fun p => decide (DCU_signature p ≠
            (DCU_MismatchOperationType, operation.stack,
              DCU_createStackTrace env.stack env.backtrace))) =
          st.DCU_problems.filter (fun p => decide (DCU_signature p ≠
            (DCU_MismatchOperationType, operation.stack,
              DCU_createStackTrace env.stack env.backtrace)))) := by
  have hcmp : memcmp st.heap (ptr_add pointer operation.size) OVERWRITE_DETECTION_DATA
      OVERWRITE_DETECTION_DATA_SIZE = false :=
    (memcmp_eq_false_iff _ _ _ _).mpr hcanary
  unfold DCU_releaseMemory
  rw [DCU_initialize_initialized ft env st hinit]
  simp only [ne_eq, hpointer, not_false_eq_true, if_true, hfind]
  have htr' : DCU_STATE st DCU_TRACING ≠ 0 := htracing
  rw [if_pos htr']
  unfold DCU_releaseMemory_tracked
  simp only [hcmp, Bool.false_eq_true, if_false, false_and]
  refine ⟨_, rfl, ?_, ?_⟩
  · intro hm
    have := (DCU_mismatched_release_eq_false_iff type operation.type).mpr hm
    simp [this, DCU_removeMemory_problems]
  · intro hm
    have hmm : DCU_mismatched_release type operation.type = true := by
      cases h : DCU_mismatched_release type operation.type
      · exact absurd ((DCU_mismatched_release_eq_false_iff type operation.type).mp h) hm
      · rfl
    simp only [hmm, if_true, DCU_removeMemory_problems]
    refine ⟨?_, ?_, ?_⟩
    · refine DCU_problemFor_register_same _ DCU_MismatchOperationType operation.stack
        (DCU_createStackTrace env.stack env.backtrace) _ _ DCU_countProblem_signature ?_
      rfl
    · intro t a d hne
      refine DCU_problemFor_register_other _ DCU_MismatchOperationType operation.stack
        (DCU_createStackTrace env.stack env.backtrace) _ _ DCU_countProblem_signature ?_
        t a d hne
      rfl
    · refine DCU_registerProblem_filter _ DCU_MismatchOperationType operation.stack
        (DCU_createStackTrace env.stack env.backtrace) _ _ DCU_countProblem_signature ?_
      rfl

/-! ## Balance summary -/

theorem DCU_analyzeMemory_stats_frame (st : DCU_State) (i : DCU_DynamicOperationType) :
    (DCU_analyzeMemory_stats st i).DCU_memory_stats = st.DCU_memory_stats := by
  cases i <;> rfl

theorem DCU_analyzeMemory_stats_fold (st : DCU_State) :
    (DCU_analyzeMemory st).DCU_memory_stats = st.DCU_memory_stats ∧
    (DCU_analyzeMemory st).DCU_memory_stats_c =
      ([DCU_MallocType, DCU_FreeType, DCU_ReallocType, DCU_CallocType, DCU_NewType,
        DCU_DeleteType, DCU_NewArrayType, DCU_DeleteArrayType].foldl
          DCU_analyzeMemory_stats st).DCU_memory_stats_c ∧
    (DCU_analyzeMemory st).DCU_memory_stats_new =
      ([DCU_MallocType, DCU_FreeType, DCU_ReallocType, DCU_CallocType, DCU_NewType,
        DCU_DeleteType, DCU_NewArrayType, DCU_DeleteArrayType].foldl
          DCU_analyzeMemory_stats st).DCU_memory_stats_new ∧
    (DCU_analyzeMemory st).DCU_memory_stats_new_array =
      ([DCU_MallocType, DCU_FreeType, DCU_ReallocType, DCU_CallocType, DCU_NewType,
        DCU_DeleteType, DCU_NewArrayType, DCU_DeleteArrayType].foldl
          DCU_analyzeMemory_stats st).DCU_memory_stats_new_array := by
  refine ⟨?_, rfl, rfl, rfl⟩
  show ([DCU_MallocType, DCU_FreeType, DCU_ReallocType, DCU_CallocType, DCU_NewType,
        DCU_DeleteType, DCU_NewArrayType, DCU_DeleteArrayType].foldl
          DCU_analyzeMemory_stats st).DCU_memory_stats = st.DCU_memory_stats
  simp only [List.foldl, DCU_analyzeMemory_stats_frame]

/-- C5: when the three balance records are zero beforehand, after `DCU_analyzeMemory` the C
balance is Malloc + Realloc + Calloc - Free, the object balance New - Delete and the array
balance NewArray - DeleteArray, for both `count` and `total_memory`, as `unsigned long`
values (modulo 2^64); the per-kind statistics are unchanged. -/
theorem DCU_analyzeMemory_balance (st : DCU_State)
    (hc : st.DCU_memory_stats_c.count = 0 ∧ st.DCU_memory_stats_c.total_memory = 0)
    (hn : st.DCU_memory_stats_new.count = 0 ∧ st.DCU_memory_stats_new.total_memory = 0)
    (ha : st.DCU_memory_stats_new_array.count = 0 ∧
      st.DCU_memory_stats_new_array.total_memory = 0) :
    (((DCU_analyzeMemory st).DCU_memory_stats_c.count : Int) =
        (((st.DCU_memory_stats DCU_MallocType).count : Int)
          + (st.DCU_memory_stats DCU_ReallocType).count
          + (st.DCU_memory_stats DCU_CallocType).count
          - (st.DCU_memory_stats DCU_FreeType).count) % (WORD : Int)) ∧
    (((DCU_analyzeMemory st).DCU_memory_stats_c.total_memory : Int) =
        (((st.DCU_memory_stats DCU_MallocType).total_memory : Int)
          + (st.DCU_memory_stats DCU_ReallocType).total_memory
          + (st.DCU_memory_stats DCU_CallocType).total_memory
          - (st.DCU_memory_stats DCU_FreeType).total_memory) % (WORD : Int)) ∧
    (((DCU_analyzeMemory st).DCU_memory_stats_new.count : Int) =
        (((st.DCU_memory_stats DCU_NewType).count : Int)
          - (st.DCU_memory_stats DCU_DeleteType).count) % (WORD : Int)) ∧
    (((DCU_analyzeMemory st).DCU_memory_stats_new.total_memory : Int) =
        (((st.DCU_memory_stats DCU_NewType).total_memory : Int)
          - (st.DCU_memory_stats DCU_DeleteType).total_memory) % (WORD : Int)) ∧
    (((DCU_analyzeMemory st).DCU_memory_stats_new_array.count : Int) =
        (((st.DCU_memory_stats DCU_NewArrayType).count : Int)
          - (st.DCU_memory_stats DCU_DeleteArrayType).count) % (WORD : Int)) ∧
    (((DCU_analyzeMemory st).DCU_memory_stats_new_array.total_memory : Int) =
        (((st.DCU_memory_stats DCU_NewArrayType).total_memory : Int)
          - (st.DCU_memory_stats DCU_DeleteArrayType).total_memory) % (WORD : Int)) ∧
    (DCU_analyzeMemory st).DCU_memory_stats = st.DCU_memory_stats := by
  obtain ⟨h0, h1, h2, h3⟩ := DCU_analyzeMemory_stats_fold st
  rw [h0, h1, h2, h3]
  simp only [List.foldl, DCU_analyzeMemory_stats, hc.1, hc.2, hn.1, hn.2, ha.1, ha.2, WORD]
  refine ⟨?_, ?_, ?_, ?_, ?_, ?_, trivial⟩ <;> push_cast <;> omega

theorem DCU_analyzeMemory_balance_witness :
    (DCU_sample_state.DCU_memory_stats_c.count = 0 ∧
      DCU_sample_state.DCU_memory_stats_new.count = 0 ∧
      DCU_sample_state.DCU_memory_stats_new_array.count = 0) ∧
    ((DCU_analyzeMemory DCU_sample_state).DCU_memory_stats_new_array.count : Int) =
      ((1 : Int) - 0) % (WORD : Int) ∧
    ((DCU_analyzeMemory DCU_sample_state).DCU_memory_stats_new_array.total_memory : Int) =
      ((4 : Int) - 0) % (WORD : Int) :=
  ⟨⟨rfl, rfl, rfl⟩,
   (DCU_analyzeMemory_balance DCU_sample_state ⟨rfl, rfl⟩ ⟨rfl, rfl⟩ ⟨rfl, rfl⟩).2.2.2.2.1,
   (DCU_analyzeMemory_balance DCU_sample_state ⟨rfl, rfl⟩ ⟨rfl, rfl⟩ ⟨rfl, rfl⟩).2.2.2.2.2.1⟩

theorem DCU_releaseMemory_family_check_witness :
    (DCU_STATE DCU_sample_state DCU_INITIALIZED ≠ 0 ∧
      DCU_STATE DCU_sample_state DCU_TRACING ≠ 0 ∧
      DCU_findMemory DCU_sample_state 4096 = some DCU_sample_block) ∧
    ∃ st', DCU_releaseMemory DCU_sample_features DCU_sample_environment DCU_sample_state
        DCU_DeleteType 4096 = DCU_Outcome.returned st' ∧
      DCU_problemFor st'.DCU_problems DCU_MismatchOperationType DCU_sample_block.stack
          (DCU_createStackTrace DCU_sample_environment.stack
            DCU_sample_environment.backtrace) =
        some { type := DCU_MismatchOperationType, size := 0, count := 1, total_memory := 0,
               allocation_stack := DCU_sample_block.stack,
               deallocation_stack := DCU_createStackTrace DCU_sample_environment.stack
                 DCU_sample_environment.backtrace } := by
  have hinit : DCU_STATE DCU_sample_state DCU_INITIALIZED ≠ 0 := by decide
  have htr : DCU_STATE DCU_sample_state DCU_TRACING ≠ 0 := by decide
  have hfind : DCU_findMemory DCU_sample_state 4096 = some DCU_sample_block := by rfl
  refine ⟨⟨hinit, htr, hfind⟩, ?_⟩
  obtain ⟨st', hrel, _, hmis⟩ := DCU_releaseMemory_family_check DCU_sample_features
    DCU_sample_environment DCU_sample_state DCU_DeleteType 4096 DCU_sample_block hinit htr
    (by decide) hfind (by intro i hi; interval_cases i <;> rfl)
  refine ⟨st', hrel, ?_⟩
  have h := (hmis (by decide)).1
  rw [h]
  rfl

/-! ## Canary check of a release -/

/-- The idiom leaves in place every node selected by a predicate that rejects the signature. -/
theorem DCU_registerProblem_filter_of (P : DCU_ProblemInfo → Bool)
    (list : List DCU_ProblemInfo) (t : DCU_ProblemType)
    (a d : DCU_Stack) (fresh : DCU_ProblemInfo) (mutate : DCU_ProblemInfo → DCU_ProblemInfo)
    (hP : ∀ p, DCU_signature p = (t, a, d) → P p = false)
    (hm : ∀ p, DCU_signature (mutate p) = DCU_signature p)
    (hf : DCU_signature fresh = (t, a, d)) :
    (DCU_registerProblem list t a d fresh mutate).filter P = list.filter P := by
  rcases DCU_registerProblem_cases list t a d fresh mutate with
    ⟨pre, p, post, hl, hpre, hp, hr⟩ | ⟨hno, hr⟩
  · rw [hr, hl]
    have h1 : P (mutate p) = false := hP _ (by rw [hm, hp])
    have h2 : P p = false := hP _ hp
    simp [List.filter_append, List.filter_cons, h1, h2]
  · rw [hr]
    have h1 : P (mutate fresh) = false := hP _ (by rw [hm, hf])
    simp [List.filter_cons, h1]

theorem memcmp_eq_true_iff (heap : Nat → Nat) (p : Nat) (data : Nat → Nat) (n : Nat) :
    memcmp heap p data n = true ↔ ∃ i, i < n ∧ heap (ptr_add p i) ≠ data i := by
  unfold memcmp
  rw [List.any_eq_true]
  simp [List.mem_range]

/-- C7: with tracing enabled, a release of a tracked block of recorded size `n` at `p` ends in
a state in which the node of signature (Memory Over-Write, the block's allocation stack, the
current stack) has its count increased by one (starting from a zero node when absent) if at
least one of the four bytes at `p+n .. p+n+3` differs from `AA BB CC DD`; if the four bytes are
intact, every Memory Over-Write node is as before.  In both cases the Memory Over-Write nodes of
every other signature are as before. -/
theorem DCU_releaseMemory_overwrite_detection (ft : DCU_Features) (env : DCU_Environment)
    (st : DCU_State) (type : DCU_DynamicOperationType) (pointer : Nat)
    (operation : DCU_OperationInfo)
    (hinit : DCU_STATE st DCU_INITIALIZED ≠ 0) (htracing : DCU_STATE st DCU_TRACING ≠ 0)
    (hpointer : pointer ≠ 0) (hfind : DCU_findMemory st pointer = some operation) :
    ∃ st', (DCU_releaseMemory ft env st type pointer).state = some st' ∧
      ((∃ i, i < 4 ∧
          st.heap (ptr_add (ptr_add pointer operation.size) i) ≠ OVERWRITE_DETECTION_DATA i) →
        DCU_problemFor st'.DCU_problems DCU_MemoryOverWriteType operation.stack
            (DCU_createStackTrace env.stack env.backtrace) =
          some (DCU_countProblem
            ((DCU_problemFor st.DCU_problems DCU_MemoryOverWriteType operation.stack
                (DCU_createStackTrace env.stack env.backtrace)).getD
              { type := DCU_MemoryOverWriteType, size := 0, count := 0, total_memory := 0,
                allocation_stack := operation.stack,
                deallocation_stack := DCU_createStackTrace env.stack env.backtrace }))) ∧
      ((∀ i, i < 4 →
          st.heap (ptr_add (ptr_add pointer operation.size) i) = OVERWRITE_DETECTION_DATA i) →
        st'.DCU_problems.filter (fun p => decide (p.type = DCU_MemoryOverWriteType)) =
          st.DCU_problems.filter (fun p => decide (p.type = DCU_MemoryOverWriteType))) ∧
      (∀ a d, (a, d) ≠ (operation.stack, DCU_createStackTrace env.stack env.backtrace) →
        DCU_problemFor st'.DCU_problems DCU_MemoryOverWriteType a d =
          DCU_problemFor st.DCU_problems DCU_MemoryOverWriteType a d) := by
  unfold DCU_releaseMemory
  rw [DCU_initialize_initialized ft env st hinit]
  simp only [ne_eq, hpointer, not_false_eq_true, if_true, hfind]
  have htr' : DCU_STATE st DCU_TRACING ≠ 0 := htracing
  rw [if_pos htr']
  unfold DCU_releaseMemory_tracked
  simp only []
  -- the registry after the family check, whatever the registry before it
  have hmis : ∀ (l : List DCU_ProblemInfo),
      (∀ a d, DCU_problemFor
          (DCU_registerProblem l DCU_MismatchOperationType operation.stack
            (DCU_createStackTrace env.stack env.backtrace)
            { DCU_createProblem with type := DCU_MismatchOperationType
                                     allocation_stack := operation.stack
                                     deallocation_stack :=
                                       DCU_createStackTrace env.stack env.backtrace }
            DCU_countProblem) DCU_MemoryOverWriteType a d =
        DCU_problemFor l DCU_MemoryOverWriteType a d) ∧
      (DCU_registerProblem l DCU_MismatchOperationType operation.stack
            (DCU_createStackTrace env.stack env.backtrace)
            { DCU_createProblem with type := DCU_MismatchOperationType
                                     allocation_stack := operation.stack
                                     deallocation_stack :=
                                       DCU_createStackTrace env.stack env.backtrace }
            DCU_countProblem).filter (fun p => decide (p.type = DCU_MemoryOverWriteType)) =
        l.filter (fun p => decide (p.type = DCU_MemoryOverWriteType)) := by
    intro l
    constructor
    · intro a d
      refine DCU_problemFor_register_other l DCU_MismatchOperationType operation.stack
        (DCU_createStackTrace env.stack env.backtrace) _ _ DCU_countProblem_signature ?_
        DCU_MemoryOverWriteType a d ?_
      · rfl
      · intro h
        cases (Prod.mk.inj h).1
    · refine DCU_registerProblem_filter_of _ l DCU_MismatchOperationType operation.stack
        (DCU_createStackTrace env.stack env.backtrace) _ _ ?_ DCU_countProblem_signature ?_
      · intro p hp
        have : p.type = DCU_MismatchOperationType := (Prod.mk.inj hp).1
        simp [this]
      · rfl
  cases hcmp : memcmp st.heap (ptr_add pointer operation.size) OVERWRITE_DETECTION_DATA
      OVERWRITE_DETECTION_DATA_SIZE with
  | false =>
    have hbytes := (memcmp_eq_false_iff _ _ _ _).mp hcmp
    simp only [Bool.false_eq_true, if_false, false_and]
    refine ⟨_, rfl, ?_, ?_, ?_⟩
    · rintro ⟨i, hi, hne⟩
      exact absurd (hbytes i hi) hne
    · intro _
      rw [DCU_removeMemory_problems]
      by_cases hm : DCU_mismatched_release type operation.type = true
      · rw [if_pos hm]
        exact (hmis _).2
      · rw [if_neg hm]
    · intro a d _
      rw [DCU_removeMemory_problems]
      by_cases hm : DCU_mismatched_release type operation.type = true
      · rw [if_pos hm]
        exact (hmis _).1 a d
      · rw [if_neg hm]
  | true =>
    have hdiff := (memcmp_eq_true_iff _ _ _ _).mp hcmp
    have hsame : DCU_problemFor
        (DCU_registerProblem st.DCU_problems DCU_MemoryOverWriteType operation.stack
          (DCU_createStackTrace env.stack env.backtrace)
          { DCU_createProblem with type := DCU_MemoryOverWriteType
                                   allocation_stack := operation.stack
                                   deallocation_stack :=
                                     DCU_createStackTrace env.stack env.backtrace }
          DCU_countProblem) DCU_MemoryOverWriteType operation.stack
          (DCU_createStackTrace env.stack env.backtrace) =
        some (DCU_countProblem
            ((DCU_problemFor st.DCU_problems DCU_MemoryOverWriteType operation.stack
                (DCU_createStackTrace env.stack env.backtrace)).getD
              { type := DCU_MemoryOverWriteType, size := 0, count := 0, total_memory := 0,
                allocation_stack := operation.stack,
                deallocation_stack := DCU_createStackTrace env.stack env.backtrace })) := by
      refine DCU_problemFor_register_same _ DCU_MemoryOverWriteType operation.stack
        (DCU_createStackTrace env.stack env.backtrace) _ _ DCU_countProblem_signature ?_
      rfl
    have hother : ∀ a d,
        (a, d) ≠ (operation.stack, DCU_createStackTrace env.stack env.backtrace) →
        DCU_problemFor
          (DCU_registerProblem st.DCU_problems DCU_MemoryOverWriteType operation.stack
            (DCU_createStackTrace env.stack env.backtrace)
            { DCU_createProblem with type := DCU_MemoryOverWriteType
                                     allocation_stack := operation.stack
                                     deallocation_stack :=
                                       DCU_createStackTrace env.stack env.backtrace }
            DCU_countProblem) DCU_MemoryOverWriteType a d =
          DCU_problemFor st.DCU_problems DCU_MemoryOverWriteType a d := by
      intro a d hne
      refine DCU_problemFor_register_other _ DCU_MemoryOverWriteType operation.stack
        (DCU_createStackTrace env.stack env.backtrace) _ _ DCU_countProblem_signature ?_
        DCU_MemoryOverWriteType a d ?_
      · rfl
      · intro h
        exact hne (Prod.mk.inj h).2
    simp only [if_true, true_and]
    by_cases hab : ft.DCU_ABORT_ON_MEMORY_OVERWRITE = true
    · rw [if_pos hab]
      refine ⟨_, rfl, fun _ => hsame, ?_, hother⟩
      intro hint
      obtain ⟨i, hi, hne⟩ := hdiff
      exact absurd (hint i hi) hne
    · rw [if_neg hab]
      refine ⟨_, rfl, ?_, ?_, ?_⟩
      · intro _
        rw [DCU_removeMemory_problems]
        by_cases hm : DCU_mismatched_release type operation.type = true
        · rw [if_pos hm]
          rw [(hmis _).1]
          exact hsame
        · rw [if_neg hm]
          exact hsame
      · intro hint
        obtain ⟨i, hi, hne⟩ := hdiff
        exact absurd (hint i hi) hne
      · intro a d hne
        rw [DCU_removeMemory_problems]
        by_cases hm : DCU_mismatched_release type operation.type = true
        · rw [if_pos hm]
          rw [(hmis _).1]
          exact hother a d hne
        · rw [if_neg hm]
          exact hother a d hne

theorem DCU_releaseMemory_overwrite_detection_witness :
    (DCU_STATE DCU_sample_overwritten DCU_INITIALIZED ≠ 0 ∧
      DCU_STATE DCU_sample_overwritten DCU_TRACING ≠ 0 ∧
      DCU_findMemory DCU_sample_overwritten 4096 = some DCU_sample_block ∧
      DCU_sample_overwritten.heap (ptr_add (ptr_add 4096 DCU_sample_block.size) 0) = 107) ∧
    ∃ st', (DCU_releaseMemory DCU_sample_features DCU_sample_environment
        DCU_sample_overwritten DCU_DeleteArrayType 4096).state = some st' ∧
      DCU_problemFor st'.DCU_problems DCU_MemoryOverWriteType DCU_sample_block.stack
          (DCU_createStackTrace DCU_sample_environment.stack
            DCU_sample_environment.backtrace) =
        some { type := DCU_MemoryOverWriteType, size := 0, count := 1, total_memory := 0,
               allocation_stack := DCU_sample_block.stack,
               deallocation_stack := DCU_createStackTrace DCU_sample_environment.stack
                 DCU_sample_environment.backtrace } := by
  have hinit : DCU_STATE DCU_sample_overwritten DCU_INITIALIZED ≠ 0 := by decide
  have htr : DCU_STATE DCU_sample_overwritten DCU_TRACING ≠ 0 := by decide
  have hfind : DCU_findMemory DCU_sample_overwritten 4096 = some DCU_sample_block := by rfl
  have hbyte : DCU_sample_overwritten.heap (ptr_add (ptr_add 4096 DCU_sample_block.size) 0)
      = 107 := by rfl
  refine ⟨⟨hinit, htr, hfind, hbyte⟩, ?_⟩
  obtain ⟨st', hrel, hover, _, _⟩ := DCU_releaseMemory_overwrite_detection
    DCU_sample_features DCU_sample_environment DCU_sample_overwritten DCU_DeleteArrayType
    4096 DCU_sample_block hinit htr (by decide) hfind
  refine ⟨st', hrel, ?_⟩
  rw [hover ⟨0, by decide, by rw [hbyte]; decide⟩]
  rfl

/-! ## Heap primitives -/

theorem ptr_add_inj (p i j : Nat) (hi : i < WORD) (hj : j < WORD)
    (h : ptr_add p i = ptr_add p j) : i = j := by
  unfold ptr_add WORD at *
  omega

theorem memcpy_other (heap : Nat → Nat) (dst : Nat) (src : Nat → Nat) (n a : Nat)
    (h : ∀ i, i < n → a ≠ ptr_add dst i) : memcpy heap dst src n a = heap a := by
  induction n with
  | zero => rfl
  | succ n ih =>
    rw [memcpy, Function.update_noteq (h n (Nat.lt_succ_self n))]
    exact ih (fun i hi => h i (Nat.lt_succ_of_lt hi))

theorem memcpy_at (heap : Nat → Nat) (dst : Nat) (src : Nat → Nat) (n i : Nat)
    (hn : n ≤ WORD) (hi : i < n) : memcpy heap dst src n (ptr_add dst i) = src i := by
  induction n with
  | zero => omega
  | succ n ih =>
    rw [memcpy]
    by_cases hin : i = n
    · rw [hin, Function.update_same]
    · have hne : ptr_add dst i ≠ ptr_add dst n := fun h =>
        hin (ptr_add_inj dst i n (by omega) (by omega) h)
      rw [Function.update_noteq hne]
      exact ih (by omega) (by omega)

theorem memset_other (heap : Nat → Nat) (p v n a : Nat)
    (h : ∀ i, i < n → a ≠ ptr_add p i) : memset heap p v n a = heap a := by
  induction n with
  | zero => rfl
  | succ n ih =>
    rw [memset, Function.update_noteq (h n (Nat.lt_succ_self n))]
    exact ih (fun i hi => h i (Nat.lt_succ_of_lt hi))

theorem memset_at (heap : Nat → Nat) (p v n i : Nat) (hi : i < n) :
    memset heap p v n (ptr_add p i) = v := by
  induction n with
  | zero => omega
  | succ n ih =>
    rw [memset]
    by_cases hin : ptr_add p i = ptr_add p n
    · rw [hin, Function.update_same]
    · rw [Function.update_noteq hin]
      have : i ≠ n := fun h => hin (by rw [h])
      exact ih (by omega)

/-! ## Facts about a request -/

theorem DCU_requestMemory_realloc_frame (env : DCU_Environment) (st : DCU_State)
    (size pointer : Nat) :
    (DCU_requestMemory_realloc env st size pointer).1.DCU_flags = st.DCU_flags ∧
    (DCU_requestMemory_realloc env st size pointer).1.DCU_problems = st.DCU_problems ∧
    (DCU_requestMemory_realloc env st size pointer).2 = env.mspace_malloc := by
  unfold DCU_requestMemory_realloc
  dsimp only
  cases (if DCU_STATE st DCU_TRACING ≠ 0 then DCU_findMemory st pointer else none) with
  | none => exact ⟨rfl, rfl, rfl⟩
  | some op => exact ⟨rfl, rfl, rfl⟩

theorem DCU_requestMemory_allocate_frame (env : DCU_Environment) (st : DCU_State)
    (type : DCU_DynamicOperationType) (size pointer : Nat) (st1 : DCU_State) (out : Nat)
    (h : DCU_requestMemory_allocate env st type size pointer = some (st1, out)) :
    st1.DCU_flags = st.DCU_flags ∧ st1.DCU_problems = st.DCU_problems ∧
      out = env.mspace_malloc := by
  unfold DCU_requestMemory_allocate at h
  dsimp only at h
  split_ifs at h with h1 h2 hw h3 h4
  · simp only [Option.some.injEq, Prod.mk.injEq] at h
    obtain ⟨hs, ho⟩ := h
    subst hs
    exact ⟨rfl, rfl, ho.symm⟩
  · simp only [Option.some.injEq, Prod.mk.injEq] at h
    obtain ⟨hs, ho⟩ := h
    subst hs
    exact ⟨rfl, rfl, ho.symm⟩
  · simp only [Option.some.injEq] at h
    have hf := DCU_requestMemory_realloc_frame env st size pointer
    rw [h] at hf
    exact ⟨hf.1, hf.2.1, hf.2.2⟩
  · simp only [Option.some.injEq, Prod.mk.injEq] at h
    obtain ⟨hs, ho⟩ := h
    subst hs
    exact ⟨rfl, rfl, ho.symm⟩

theorem DCU_findMemory_addMemory_same (st : DCU_State) (element : DCU_OperationInfo) :
    DCU_findMemory (DCU_addMemory st element) element.memory_address = some element := by
  simp [DCU_findMemory, DCU_addMemory, DCU_addOperationToList, DCU_findOperationOnList]

/-- The state after lines 492-519 when a block was obtained and tracing is enabled. -/
theorem DCU_requestMemory_register_tracing (env : DCU_Environment) (st : DCU_State)
    (type : DCU_DynamicOperationType) (size out : Nat) (hout : out ≠ 0)
    (htracing : DCU_STATE st DCU_TRACING ≠ 0) :
    DCU_requestMemory_register env st type size out =
      { DCU_addMemory
          { st with heap := (memcpy st.heap (ptr_add out size) OVERWRITE_DETECTION_DATA
              OVERWRITE_DETECTION_DATA_SIZE) }
          (DCU_registeredNode env type size out) with
        DCU_memory_stats := (Function.update st.DCU_memory_stats type
          { count := ((st.DCU_memory_stats type).count + 1) % WORD,
            total_memory := ((st.DCU_memory_stats type).total_memory + size) % WORD,
            max_value := if size > (st.DCU_memory_stats type).max_value then size
              else (st.DCU_memory_stats type).max_value }) } := by
  unfold DCU_requestMemory_register
  rw [if_pos hout]
  have h2 : DCU_STATE { st with heap := (memcpy st.heap (ptr_add out size)
      OVERWRITE_DETECTION_DATA OVERWRITE_DETECTION_DATA_SIZE) } DCU_TRACING ≠ 0 := htracing
  dsimp only
  rw [if_pos h2]
  by_cases hmax : size > (st.DCU_memory_stats type).max_value
  · simp only [DCU_addMemory, DCU_registeredNode, hmax, if_true]
  · simp only [DCU_addMemory, DCU_registeredNode, hmax, if_false]

/-- What a successful request leaves behind when tracing is enabled: the flags, the canary
bytes past the block and the node found for the returned address. -/
theorem DCU_requestMemory_success (ft : DCU_Features) (env : DCU_Environment) (st : DCU_State)
    (type : DCU_DynamicOperationType) (size pointer : Nat) (st1 : DCU_State) (p : Nat)
    (hinit : DCU_STATE st DCU_INITIALIZED ≠ 0) (htracing : DCU_STATE st DCU_TRACING ≠ 0)
    (hreq : DCU_requestMemory ft env st type size pointer = some (st1, p)) (hp : p ≠ 0) :
    st1.DCU_flags = st.DCU_flags ∧ st1.DCU_problems = st.DCU_problems ∧
    p = env.mspace_malloc ∧
    DCU_findMemory st1 p = some (DCU_registeredNode env type size p) ∧
    (∀ i, i < 4 → st1.heap (ptr_add (ptr_add p size) i) = OVERWRITE_DETECTION_DATA i) := by
  unfold DCU_requestMemory at hreq
  rw [DCU_initialize_initialized ft env st hinit] at hreq
  dsimp only at hreq
  split_ifs at hreq with hz
  · simp only [Option.some.injEq, Prod.mk.injEq] at hreq
    exact absurd hreq.2.symm hp
  · cases hal : DCU_requestMemory_allocate env st type size pointer with
    | none => rw [hal] at hreq; exact absurd hreq (by simp)
    | some r =>
      obtain ⟨sta, out⟩ := r
      rw [hal] at hreq
      simp only [Option.some.injEq, Prod.mk.injEq] at hreq
      obtain ⟨hst, hout⟩ := hreq
      subst hout
      obtain ⟨hfl, hpr, hmal⟩ := DCU_requestMemory_allocate_frame env st type size pointer
        sta out hal
      have htr : DCU_STATE sta DCU_TRACING ≠ 0 := by
        unfold DCU_STATE at htracing ⊢
        rw [hfl]
        exact htracing
      rw [DCU_requestMemory_register_tracing env sta type size out hp htr] at hst
      subst hst
      refine ⟨hfl, hpr, hmal, ?_, ?_⟩
      · exact DCU_findMemory_addMemory_same _ (DCU_registeredNode env type size out)
      · intro i hi
        exact memcpy_at sta.heap (ptr_add out size) OVERWRITE_DETECTION_DATA
          OVERWRITE_DETECTION_DATA_SIZE i (by decide) hi

/-! ## The canary is intact unless written -/

/-- C6: let a request of any kind and size `n` return a non-null block `p` while tracing is
enabled.  In every later state in which `p` is still tracked by the same node and the four
bytes at offsets `n .. n+3` of `p` hold what the request left there, those bytes are
`AA BB CC DD`, and a release of `p` with any release kind returns and leaves every Memory
Over-Write node of the registry as it was. -/
theorem DCU_canary_no_false_positive (ft : DCU_Features) (env env2 : DCU_Environment)
    (st st1 st2 : DCU_State) (type type2 : DCU_DynamicOperationType) (n pointer p : Nat)
    (hinit : DCU_STATE st DCU_INITIALIZED ≠ 0) (htracing : DCU_STATE st DCU_TRACING ≠ 0)
    (hreq : DCU_requestMemory ft env st type n pointer = some (st1, p)) (hp : p ≠ 0)
    (hinit2 : DCU_STATE st2 DCU_INITIALIZED ≠ 0) (htracing2 : DCU_STATE st2 DCU_TRACING ≠ 0)
    (htracked : DCU_findMemory st2 p = DCU_findMemory st1 p)
    (hunwritten : ∀ i, i < 4 →
      st2.heap (ptr_add (ptr_add p n) i) = st1.heap (ptr_add (ptr_add p n) i)) :
    (∀ i, i < 4 → st2.heap (ptr_add (ptr_add p n) i) = OVERWRITE_DETECTION_DATA i) ∧
    ∃ st3, DCU_releaseMemory ft env2 st2 type2 p = DCU_Outcome.returned st3 ∧
      st3.DCU_problems.filter (fun q => decide (q.type = DCU_MemoryOverWriteType)) =
        st2.DCU_problems.filter (fun q => decide (q.type = DCU_MemoryOverWriteType)) := by
  obtain ⟨_, _, _, hfind1, hcan1⟩ :=
    DCU_requestMemory_success ft env st type n pointer st1 p hinit htracing hreq hp
  have hcan2 : ∀ i, i < 4 → st2.heap (ptr_add (ptr_add p n) i) = OVERWRITE_DETECTION_DATA i :=
    fun i hi => (hunwritten i hi).trans (hcan1 i hi)
  refine ⟨hcan2, ?_⟩
  have hfind2 : DCU_findMemory st2 p = some (DCU_registeredNode env type n p) :=
    htracked.trans hfind1
  have hcmp : memcmp st2.heap (ptr_add p (DCU_registeredNode env type n p).size)
      OVERWRITE_DETECTION_DATA OVERWRITE_DETECTION_DATA_SIZE = false :=
    (memcmp_eq_false_iff _ _ _ _).mpr hcan2
  unfold DCU_releaseMemory
  rw [DCU_initialize_initialized ft env2 st2 hinit2]
  simp only [ne_eq, hp, not_false_eq_true, if_true, hfind2]
  have htr' : DCU_STATE st2 DCU_TRACING ≠ 0 := htracing2
  rw [if_pos htr']
  unfold DCU_releaseMemory_tracked
  simp only [hcmp, Bool.false_eq_true, if_false, false_and]
  refine ⟨_, rfl, ?_⟩
  rw [DCU_removeMemory_problems]
  by_cases hm : DCU_mismatched_release type2 (DCU_registeredNode env type n p).type = true
  · rw [if_pos hm]
    refine DCU_registerProblem_filter_of _ _ DCU_MismatchOperationType
      (DCU_registeredNode env type n p).stack
      (DCU_createStackTrace env2.stack env2.backtrace) _ _ ?_ DCU_countProblem_signature ?_
    · intro q hq
      have : q.type = DCU_MismatchOperationType := (Prod.mk.inj hq).1
      simp [this]
    · rfl
  · rw [if_neg hm]

theorem DCU_canary_no_false_positive_witness :
    ∃ st1, DCU_requestMemory DCU_sample_features DCU_sample_environment DCU_sample_state
        DCU_NewArrayType 4 0 = some (st1, 8192) ∧
      (∀ i, i < 4 → st1.heap (ptr_add (ptr_add 8192 4) i) = OVERWRITE_DETECTION_DATA i) ∧
      ∃ st3, DCU_releaseMemory DCU_sample_features DCU_sample_environment st1
          DCU_DeleteArrayType 8192 = DCU_Outcome.returned st3 ∧
        st3.DCU_problems.filter (fun q => decide (q.type = DCU_MemoryOverWriteType)) =
          st1.DCU_problems.filter (fun q => decide (q.type = DCU_MemoryOverWriteType)) := by
  have hreq : DCU_requestMemory DCU_sample_features DCU_sample_environment DCU_sample_state
      DCU_NewArrayType 4 0 =
      some (DCU_requestMemory_register DCU_sample_environment
        { DCU_sample_state with heap := (memset DCU_sample_state.heap 8192 ALLOCATION_VALUE 8) }
        DCU_NewArrayType 4 8192, 8192) := by rfl
  refine ⟨_, hreq, ?_⟩
  exact DCU_canary_no_false_positive DCU_sample_features DCU_sample_environment
    DCU_sample_environment DCU_sample_state _ _ DCU_NewArrayType DCU_DeleteArrayType 4 0 8192
    (by decide) (by decide) hreq (by decide) (by decide) (by decide) rfl (fun _ _ => rfl)

/-! ## Zero-sized requests -/

/-- The idiom creates a node for the signature exactly when none exists. -/
theorem DCU_problemNodes_register (list : List DCU_ProblemInfo) (t : DCU_ProblemType)
    (a d : DCU_Stack) (fresh : DCU_ProblemInfo) (mutate : DCU_ProblemInfo → DCU_ProblemInfo)
    (hm : ∀ p, DCU_signature (mutate p) = DCU_signature p)
    (hf : DCU_signature fresh = (t, a, d)) :
    DCU_problemNodes (DCU_registerProblem list t a d fresh mutate) t a d =
      if DCU_problemNodes list t a d = 0 then 1 else DCU_problemNodes list t a d := by
  unfold DCU_problemNodes
  rcases DCU_registerProblem_cases list t a d fresh mutate with
    ⟨pre, p, post, hl, hpre, hp, hr⟩ | ⟨hno, hr⟩
  · rw [hr, hl]
    simp [List.filter_append, List.filter_cons, hm, hp]
  · rw [hr]
    have h0 : list.filter (fun p => decide (DCU_signature p = (t, a, d))) = [] := by
      rw [List.filter_eq_nil_iff]
      intro q hq
      simpa using hno q hq
    simp [List.filter_cons, hm, hf, h0]

theorem DCU_problemNodes_register_other (list : List DCU_ProblemInfo) (t : DCU_ProblemType)
    (a d : DCU_Stack) (fresh : DCU_ProblemInfo) (mutate : DCU_ProblemInfo → DCU_ProblemInfo)
    (hm : ∀ p, DCU_signature (mutate p) = DCU_signature p)
    (hf : DCU_signature fresh = (t, a, d))
    (t' : DCU_ProblemType) (a' d' : DCU_Stack) (hne : (t', a', d') ≠ (t, a, d)) :
    DCU_problemNodes (DCU_registerProblem list t a d fresh mutate) t' a' d' =
      DCU_problemNodes list t' a' d' := by
  unfold DCU_problemNodes
  rw [DCU_registerProblem_filter_of _ list t a d fresh mutate _ hm hf]
  intro p hp
  rw [hp]
  have : ¬ (t, a, d) = (t', a', d') := fun h => hne h.symm
  simpa using this

theorem DCU_problemCount_register_same (list : List DCU_ProblemInfo) (t : DCU_ProblemType)
    (a d : DCU_Stack) (fresh : DCU_ProblemInfo) (hf : DCU_signature fresh = (t, a, d))
    (hc : fresh.count = 0) :
    DCU_problemCount (DCU_registerProblem list t a d fresh DCU_countProblem) t a d =
      (DCU_problemCount list t a d + 1) % WORD := by
  unfold DCU_problemCount
  rw [DCU_problemFor_register_same list t a d fresh DCU_countProblem
    DCU_countProblem_signature hf]
  cases DCU_problemFor list t a d with
  | none => simp [DCU_countProblem, hc]
  | some p => simp [DCU_countProblem]

theorem DCU_problemCount_register_other (list : List DCU_ProblemInfo) (t : DCU_ProblemType)
    (a d : DCU_Stack) (fresh : DCU_ProblemInfo) (mutate : DCU_ProblemInfo → DCU_ProblemInfo)
    (hm : ∀ p, DCU_signature (mutate p) = DCU_signature p)
    (hf : DCU_signature fresh = (t, a, d))
    (t' : DCU_ProblemType) (a' d' : DCU_Stack) (hne : (t', a', d') ≠ (t, a, d)) :
    DCU_problemCount (DCU_registerProblem list t a d fresh mutate) t' a' d' =
      DCU_problemCount list t' a' d' := by
  unfold DCU_problemCount
  rw [DCU_problemFor_register_other list t a d fresh mutate hm hf t' a' d' hne]

/-- A zero-sized request of one of the four reported kinds returns null after the zero-size
report. -/
theorem DCU_requestMemory_zero_size (ft : DCU_Features) (env : DCU_Environment)
    (st : DCU_State) (type : DCU_DynamicOperationType) (pointer : Nat)
    (hinit : DCU_STATE st DCU_INITIALIZED ≠ 0)
    (htype : type = DCU_CallocType ∨ type = DCU_MallocType ∨ type = DCU_NewType
        ∨ type = DCU_NewArrayType) :
    DCU_requestMemory ft env st type 0 pointer = some (DCU_requestMemory_zero env st, 0) := by
  unfold DCU_requestMemory
  rw [DCU_initialize_initialized ft env st hinit]
  dsimp only
  rw [if_pos ⟨rfl, htype⟩]

/-- C8: with tracing enabled, `N >= 1` successive zero-sized requests of kinds among Malloc,
Calloc, new, new[] whose captured stack is `s` all return null; afterwards the count recorded
for the signature (Request Zero Memory, `s`, all-zero stack) has grown by `N` (it is `N` when
the signature had no node, modulo 2^64), the signature has one node if it had none and keeps
the nodes it had otherwise (so exactly one node, the registry having no duplicates), and the
count and the number of nodes of every other signature are as before. -/
theorem DCU_requestMemory_zero_repeated (ft : DCU_Features) (s : DCU_Stack)
    (calls : List DCU_Call) (st : DCU_State)
    (hinit : DCU_STATE st DCU_INITIALIZED ≠ 0) (htracing : DCU_STATE st DCU_TRACING ≠ 0)
    (hN : 1 ≤ calls.length)
    (hcalls : ∀ c ∈ calls, ∃ env type pointer,
      c = DCU_Call.request env type 0 pointer ∧
      (type = DCU_CallocType ∨ type = DCU_MallocType ∨ type = DCU_NewType
        ∨ type = DCU_NewArrayType) ∧
      DCU_createStackTrace env.stack env.backtrace = s) :
    ∃ st', DCU_run ft st calls = some (st', List.replicate calls.length 0) ∧
      DCU_problemCount st'.DCU_problems DCU_RequestZeroMemoryType s DCU_null_stack =
        (DCU_problemCount st.DCU_problems DCU_RequestZeroMemoryType s DCU_null_stack
          + calls.length) % WORD ∧
      DCU_problemNodes st'.DCU_problems DCU_RequestZeroMemoryType s DCU_null_stack =
        (if DCU_problemNodes st.DCU_problems DCU_RequestZeroMemoryType s DCU_null_stack = 0
          then 1
          else DCU_problemNodes st.DCU_problems DCU_RequestZeroMemoryType s DCU_null_stack) ∧
      (∀ t a d, (t, a, d) ≠ (DCU_RequestZeroMemoryType, s, DCU_null_stack) →
        DCU_problemCount st'.DCU_problems t a d = DCU_problemCount st.DCU_problems t a d ∧
        DCU_problemNodes st'.DCU_problems t a d = DCU_problemNodes st.DCU_problems t a d) := by
  induction calls generalizing st with
  | nil => simp at hN
  | cons c rest ih =>
    obtain ⟨env, type, pointer, hc, htype, hs⟩ := hcalls c (List.mem_cons_self c rest)
    subst hc
    have hstep := DCU_requestMemory_zero_size ft env st type pointer hinit htype
    -- the state after the first call
    have hz : DCU_requestMemory_zero env st =
        { st with DCU_problems :=
            (DCU_registerProblem st.DCU_problems DCU_RequestZeroMemoryType s DCU_null_stack
              { DCU_createProblem with type := DCU_RequestZeroMemoryType
                                       allocation_stack := s }
              DCU_countProblem) } := by
      unfold DCU_requestMemory_zero
      dsimp only
      rw [if_pos htracing, hs]
    have hsig : DCU_signature { DCU_createProblem with type := DCU_RequestZeroMemoryType
                                                       allocation_stack := s } =
        (DCU_RequestZeroMemoryType, s, DCU_null_stack) := rfl
    have hcount1 := DCU_problemCount_register_same st.DCU_problems DCU_RequestZeroMemoryType s
      DCU_null_stack _ hsig rfl
    have hnodes1 := DCU_problemNodes_register st.DCU_problems DCU_RequestZeroMemoryType s
      DCU_null_stack _ DCU_countProblem DCU_countProblem_signature hsig
    have hnodes1' : DCU_problemNodes (DCU_requestMemory_zero env st).DCU_problems
        DCU_RequestZeroMemoryType s DCU_null_stack =
        (if DCU_problemNodes st.DCU_problems DCU_RequestZeroMemoryType s DCU_null_stack = 0
          then 1
          else DCU_problemNodes st.DCU_problems DCU_RequestZeroMemoryType s DCU_null_stack) := by
      rw [hz]
      exact hnodes1
    have hother1 : ∀ t a d, (t, a, d) ≠ (DCU_RequestZeroMemoryType, s, DCU_null_stack) →
        DCU_problemCount (DCU_requestMemory_zero env st).DCU_problems t a d =
          DCU_problemCount st.DCU_problems t a d ∧
        DCU_problemNodes (DCU_requestMemory_zero env st).DCU_problems t a d =
          DCU_problemNodes st.DCU_problems t a d := by
      intro t a d hne
      rw [hz]
      exact ⟨DCU_problemCount_register_other _ _ _ _ _ _ DCU_countProblem_signature hsig
          t a d hne,
        DCU_problemNodes_register_other _ _ _ _ _ _ DCU_countProblem_signature hsig
          t a d hne⟩
    have hinit1 : DCU_STATE (DCU_requestMemory_zero env st) DCU_INITIALIZED ≠ 0 := by
      rw [hz]; exact hinit
    have htr1 : DCU_STATE (DCU_requestMemory_zero env st) DCU_TRACING ≠ 0 := by
      rw [hz]; exact htracing
    by_cases hrest : rest = []
    · subst hrest
      refine ⟨DCU_requestMemory_zero env st, ?_, ?_, hnodes1', hother1⟩
      · simp [DCU_run, hstep]
      · rw [hz]
        show DCU_problemCount (DCU_registerProblem _ _ _ _ _ _) _ _ _ = _
        rw [hcount1]
        simp
    · have hlen : 1 ≤ rest.length := by
        cases rest with
        | nil => exact absurd rfl hrest
        | cons _ _ => simp
      obtain ⟨st', hrun, hcount, hn, hother⟩ := ih (DCU_requestMemory_zero env st) hinit1 htr1
        hlen (fun c hc => hcalls c (List.mem_cons_of_mem _ hc))
      refine ⟨st', ?_, ?_, ?_, ?_⟩
      · simp [DCU_run, hstep, hrun, List.replicate_succ]
      · rw [hcount, hz]
        show (DCU_problemCount (DCU_registerProblem _ _ _ _ _ _) _ _ _ + _) % WORD = _
        rw [hcount1]
        simp only [List.length_cons, WORD]
        omega
      · rw [hn, hnodes1']
        split_ifs <;> rfl
      · intro t a d hne
        obtain ⟨h1, h2⟩ := hother t a d hne
        obtain ⟨h3, h4⟩ := hother1 t a d hne
        exact ⟨h1.trans h3, h2.trans h4⟩

theorem DCU_requestMemory_zero_repeated_witness :
    (DCU_STATE DCU_sample_state DCU_INITIALIZED ≠ 0 ∧
      DCU_STATE DCU_sample_state DCU_TRACING ≠ 0) ∧
    ∃ st', DCU_run DCU_sample_features DCU_sample_state
        [DCU_Call.request DCU_sample_environment DCU_NewArrayType 0 0,
         DCU_Call.request DCU_sample_environment DCU_NewArrayType 0 0] =
          some (st', [0, 0]) ∧
      DCU_problemCount st'.DCU_problems DCU_RequestZeroMemoryType
        (DCU_createStackTrace DCU_sample_environment.stack DCU_sample_environment.backtrace)
        DCU_null_stack = 2 ∧
      DCU_problemNodes st'.DCU_problems DCU_RequestZeroMemoryType
        (DCU_createStackTrace DCU_sample_environment.stack DCU_sample_environment.backtrace)
        DCU_null_stack = 1 := by
  have hinit : DCU_STATE DCU_sample_state DCU_INITIALIZED ≠ 0 := by decide
  have htr : DCU_STATE DCU_sample_state DCU_TRACING ≠ 0 := by decide
  refine ⟨⟨hinit, htr⟩, ?_⟩
  obtain ⟨st', hrun, hcount, hnodes, _⟩ := DCU_requestMemory_zero_repeated DCU_sample_features
    (DCU_createStackTrace DCU_sample_environment.stack DCU_sample_environment.backtrace)
    [DCU_Call.request DCU_sample_environment DCU_NewArrayType 0 0,
     DCU_Call.request DCU_sample_environment DCU_NewArrayType 0 0]
    DCU_sample_state hinit htr (by decide)
    (by
      intro c hc
      refine ⟨DCU_sample_environment, DCU_NewArrayType, 0, ?_, by decide, rfl⟩
      simp only [List.mem_cons, List.mem_singleton, List.not_mem_nil, or_false, or_self] at hc
      exact hc)
  exact ⟨st', hrun, hcount.trans (by decide), hnodes.trans (by decide)⟩

/-! ## The live-block table -/

theorem DCU_flatMap_range_single {α : Type} (f : Nat → List α) (n k : Nat) (hk : k < n)
    (h : ∀ b, b < n → b ≠ k → f b = []) : (List.range n).flatMap f = f k := by
  induction n with
  | zero => omega
  | succ n ih =>
    rw [List.range_succ, List.flatMap_append]
    by_cases hkn : k = n
    · subst hkn
      have h0 : (List.range k).flatMap f = [] := by
        rw [List.flatMap_eq_nil_iff]
        intro b hb
        have hb' := List.mem_range.mp hb
        exact h b (by omega) (by omega)
      simp [h0]
    · have hn : f n = [] := h n (by omega) (fun e => hkn e.symm)
      rw [ih (by omega) (fun b hb hne => h b (by omega) hne)]
      simp [hn]

theorem DCU_HASH_FUNCTION_lt (a : Nat) : DCU_HASH_FUNCTION a < DCU_HASH_TABLE_SIZE := by
  unfold DCU_HASH_FUNCTION DCU_HASH_TABLE_SIZE
  omega

/-- In a well-shaped table the nodes for an address are those of its bucket. -/
theorem DCU_entriesFor_bucket (st : DCU_State) (hinv : DCU_tableInvariant st) (a : Nat) :
    DCU_entriesFor st a =
      (st.DCU_memory (DCU_HASH_FUNCTION a)).filter
        (fun op => decide (op.memory_address = a)) := by
  unfold DCU_entriesFor DCU_residual
  rw [List.filter_flatMap]
  apply DCU_flatMap_range_single _ _ _ (DCU_HASH_FUNCTION_lt a)
  intro b _ hne
  rw [List.filter_eq_nil_iff]
  intro op hop
  have := (hinv b).1 op hop
  simp only [decide_eq_true_eq]
  intro h
  rw [h] at this
  exact hne this.symm

theorem DCU_findOperationOnList_eq_find (list : List DCU_OperationInfo) (a : Nat) :
    DCU_findOperationOnList list a = list.find? (fun op => decide (op.memory_address = a)) := by
  induction list with
  | nil => rfl
  | cons it rest ih =>
    unfold DCU_findOperationOnList
    by_cases h : it.memory_address = a
    · simp [h]
    · simp [h, ih]

theorem DCU_findOperationOnList_some (list : List DCU_OperationInfo) (a : Nat)
    (op : DCU_OperationInfo) (h : DCU_findOperationOnList list a = some op) :
    op ∈ list ∧ op.memory_address = a := by
  rw [DCU_findOperationOnList_eq_find] at h
  exact ⟨List.mem_of_find?_eq_some h, by simpa using List.find?_some h⟩

theorem DCU_findOperationOnList_none (list : List DCU_OperationInfo) (a : Nat) :
    DCU_findOperationOnList list a = none ↔ ∀ op ∈ list, op.memory_address ≠ a := by
  rw [DCU_findOperationOnList_eq_find, List.find?_eq_none]
  simp

/-- Unlinking a node from a chain without repeated addresses removes exactly the nodes of its
address. -/
theorem DCU_unlinkOperation_filter (list : List DCU_OperationInfo) (element : DCU_OperationInfo)
    (hmem : element ∈ list)
    (hnodup : (list.map (fun op => op.memory_address)).Nodup) :
    DCU_unlinkOperation element list =
      list.filter (fun op => decide (op.memory_address ≠ element.memory_address)) := by
  induction list with
  | nil => simp at hmem
  | cons it rest ih =>
    simp only [List.map_cons, List.nodup_cons, List.mem_map, not_exists, not_and] at hnodup
    unfold DCU_unlinkOperation
    by_cases h : it = element
    · subst h
      rw [if_pos rfl]
      have : rest.filter (fun op => decide (op.memory_address ≠ it.memory_address)) = rest := by
        rw [List.filter_eq_self]
        intro op hop
        simpa using hnodup.1 op hop
      rw [List.filter_cons]
      simp only [ne_eq, not_true_eq_false, decide_False, Bool.false_eq_true, if_false]
      exact this.symm
    · rw [if_neg h]
      have hmem' : element ∈ rest := by
        rcases List.mem_cons.mp hmem with h' | h'
        · exact absurd h'.symm h
        · exact h'
      have hne : it.memory_address ≠ element.memory_address :=
        fun e => hnodup.1 element hmem' e.symm
      rw [ih hmem' hnodup.2]
      simp [List.filter_cons, hne]

theorem DCU_unlinkOperation_sublist (list : List DCU_OperationInfo)
    (element : DCU_OperationInfo) : (DCU_unlinkOperation element list).Sublist list := by
  induction list with
  | nil => exact List.Sublist.refl _
  | cons it rest ih =>
    unfold DCU_unlinkOperation
    by_cases h : it = element
    · rw [if_pos h]; exact List.sublist_cons_self it rest
    · rw [if_neg h]; exact List.Sublist.cons₂ it ih

theorem DCU_tableInvariant_removeMemory (st : DCU_State) (o : Option DCU_OperationInfo)
    (hinv : DCU_tableInvariant st) : DCU_tableInvariant (DCU_removeMemory st o) := by
  cases o with
  | none => exact hinv
  | some element =>
    intro b
    unfold DCU_removeMemory
    dsimp only
    by_cases hb : b = DCU_HASH_FUNCTION element.memory_address
    · subst hb
      rw [Function.update_same]
      have hsub := DCU_unlinkOperation_sublist
        (st.DCU_memory (DCU_HASH_FUNCTION element.memory_address)) element
      refine ⟨fun op hop => (hinv _).1 op (hsub.subset hop), ?_⟩
      exact List.Nodup.sublist (hsub.map _) (hinv _).2
    · rw [Function.update_noteq hb]
      exact hinv b

theorem DCU_tableInvariant_addMemory (st : DCU_State) (element : DCU_OperationInfo)
    (hinv : DCU_tableInvariant st)
    (hfresh : DCU_findMemory st element.memory_address = none) :
    DCU_tableInvariant (DCU_addMemory st element) := by
  intro b
  unfold DCU_addMemory
  dsimp only
  by_cases hb : b = DCU_HASH_FUNCTION element.memory_address
  · subst hb
    rw [Function.update_same]
    unfold DCU_addOperationToList
    have hno := (DCU_findOperationOnList_none _ _).mp hfresh
    refine ⟨?_, ?_⟩
    · intro op hop
      rcases List.mem_cons.mp hop with h | h
      · rw [h]
      · exact (hinv _).1 op h
    · rw [List.map_cons, List.nodup_cons]
      refine ⟨?_, (hinv _).2⟩
      intro hmem
      obtain ⟨op, hop, haddr⟩ := List.mem_map.mp hmem
      exact hno op hop haddr
  · rw [Function.update_noteq hb]
    exact hinv b

/-! ## Reallocation -/

/-- The state after a `DCU_ReallocType` request for a tracked block when the arena hands out
a block, field by field. -/
theorem DCU_requestMemory_realloc_tracked (ft : DCU_Features) (env : DCU_Environment)
    (st : DCU_State) (n old : Nat) (op : DCU_OperationInfo)
    (hinit : DCU_STATE st DCU_INITIALIZED ≠ 0) (htracing : DCU_STATE st DCU_TRACING ≠ 0)
    (hold : DCU_findMemory st old = some op) (hout : env.mspace_malloc ≠ 0) :
    ∃ st', DCU_requestMemory ft env st DCU_ReallocType n old = some (st', env.mspace_malloc) ∧
      st'.DCU_memory = (DCU_addMemory (DCU_removeMemory st (some op))
        (DCU_registeredNode env DCU_ReallocType n env.mspace_malloc)).DCU_memory ∧
      st'.DCU_memory_stats DCU_FreeType =
        { count := ((st.DCU_memory_stats DCU_FreeType).count + 1) % WORD,
          total_memory :=
                ((st.DCU_memory_stats DCU_FreeType).total_memory + env.freed_size) % WORD,
          max_value := (st.DCU_memory_stats DCU_FreeType).max_value } ∧
      st'.heap = memcpy
        (memcpy
          (memset st.heap env.mspace_malloc ALLOCATION_VALUE
            ((n + OVERWRITE_DETECTION_DATA_SIZE) % WORD))
          env.mspace_malloc
          (fun i => memset st.heap env.mspace_malloc ALLOCATION_VALUE
            ((n + OVERWRITE_DETECTION_DATA_SIZE) % WORD) (ptr_add old i))
          (if n > op.size then op.size else n))
        (ptr_add env.mspace_malloc n) OVERWRITE_DETECTION_DATA OVERWRITE_DETECTION_DATA_SIZE ∧
      st'.DCU_flags = st.DCU_flags ∧ st'.DCU_problems = st.DCU_problems := by
  have hz : ¬ (n = 0 ∧ (DCU_ReallocType = DCU_CallocType ∨ DCU_ReallocType = DCU_MallocType ∨
      DCU_ReallocType = DCU_NewType ∨ DCU_ReallocType = DCU_NewArrayType)) := by
    rintro ⟨_, h | h | h | h⟩ <;> cases h
  have hal : DCU_requestMemory_allocate env st DCU_ReallocType n old =
      some (DCU_requestMemory_realloc env st n old) := by
    unfold DCU_requestMemory_allocate
    rw [if_neg (by decide), if_pos rfl]
  have hre : DCU_requestMemory_realloc env st n old =
      ({ DCU_removeMemory st (some op) with
          DCU_memory_stats := (Function.update st.DCU_memory_stats DCU_FreeType
            { count := ((st.DCU_memory_stats DCU_FreeType).count + 1) % WORD,
              total_memory :=
                ((st.DCU_memory_stats DCU_FreeType).total_memory + env.freed_size) % WORD,
              max_value := (st.DCU_memory_stats DCU_FreeType).max_value })
          heap := (memcpy
            (memset st.heap env.mspace_malloc ALLOCATION_VALUE
              ((n + OVERWRITE_DETECTION_DATA_SIZE) % WORD))
            env.mspace_malloc
            (fun i => memset st.heap env.mspace_malloc ALLOCATION_VALUE
              ((n + OVERWRITE_DETECTION_DATA_SIZE) % WORD) (ptr_add old i))
            (if n > op.size then op.size else n)) }, env.mspace_malloc) := by
    unfold DCU_requestMemory_realloc
    dsimp only
    rw [if_pos htracing, hold]
    dsimp only
    rw [if_pos hout]
    rfl
  unfold DCU_requestMemory
  rw [DCU_initialize_initialized ft env st hinit]
  dsimp only
  rw [if_neg hz, hal, hre]
  dsimp only
  have htr2 : DCU_STATE ({ DCU_removeMemory st (some op) with
          DCU_memory_stats := (Function.update st.DCU_memory_stats DCU_FreeType
            { count := ((st.DCU_memory_stats DCU_FreeType).count + 1) % WORD,
              total_memory :=
                ((st.DCU_memory_stats DCU_FreeType).total_memory + env.freed_size) % WORD,
              max_value := (st.DCU_memory_stats DCU_FreeType).max_value })
          heap := (memcpy
            (memset st.heap env.mspace_malloc ALLOCATION_VALUE
              ((n + OVERWRITE_DETECTION_DATA_SIZE) % WORD))
            env.mspace_malloc
            (fun i => memset st.heap env.mspace_malloc ALLOCATION_VALUE
              ((n + OVERWRITE_DETECTION_DATA_SIZE) % WORD) (ptr_add old i))
            (if n > op.size then op.size else n)) } : DCU_State) DCU_TRACING ≠ 0 := htracing
  rw [DCU_requestMemory_register_tracing env _ DCU_ReallocType n env.mspace_malloc hout htr2]
  refine ⟨_, rfl, rfl, ?_, rfl, rfl, rfl⟩
  dsimp only [DCU_addMemory]
  rw [Function.update_noteq (by decide), Function.update_same]

/-- The table after a reallocation.  With tracing enabled, let `old` be tracked in a
well-shaped table, and let a `DCU_ReallocType` request of size `n` on `old` return a non-null
`p` that was not a tracked address.  Then `p` differs from `old`, the table has exactly one
node for `p` (size `n`, kind Realloc), no node for `old`, the nodes of every other address are
as before, the table is still well-shaped, and the Free statistics have count + 1 and
total_memory + the value read at line 463 (modulo 2^64). -/
theorem DCU_requestMemory_realloc_entries (ft : DCU_Features) (env : DCU_Environment)
    (st st' : DCU_State) (n old p : Nat) (op : DCU_OperationInfo)
    (hinit : DCU_STATE st DCU_INITIALIZED ≠ 0) (htracing : DCU_STATE st DCU_TRACING ≠ 0)
    (hinv : DCU_tableInvariant st)
    (hold : DCU_findMemory st old = some op)
    (hreq : DCU_requestMemory ft env st DCU_ReallocType n old = some (st', p))
    (hp : p ≠ 0) (hfresh : DCU_findMemory st p = none) :
    p ≠ old ∧
    DCU_entriesFor st' p =
      [{ type := DCU_ReallocType, memory_address := p, size := n,
         stack := DCU_createStackTrace DCU_null_stack env.backtrace }] ∧
    DCU_entriesFor st' old = [] ∧
    (∀ a, a ≠ p → a ≠ old → DCU_entriesFor st' a = DCU_entriesFor st a) ∧
    DCU_tableInvariant st' ∧
    st'.DCU_memory_stats DCU_FreeType =
      { count := ((st.DCU_memory_stats DCU_FreeType).count + 1) % WORD,
        total_memory := ((st.DCU_memory_stats DCU_FreeType).total_memory + env.freed_size) % WORD,
        max_value := (st.DCU_memory_stats DCU_FreeType).max_value } := by
  have hpo : p ≠ old := by
    intro h
    rw [h, hold] at hfresh
    exact absurd hfresh (by simp)
  have hpm : p = env.mspace_malloc :=
    (DCU_requestMemory_success ft env st DCU_ReallocType n old st' p hinit htracing hreq hp).2.2.1
  subst hpm
  obtain ⟨st'', hreq', hmem, hfree, _, _, _⟩ :=
    DCU_requestMemory_realloc_tracked ft env st n old op hinit htracing hold hp
  rw [hreq'] at hreq
  simp only [Option.some.injEq, Prod.mk.injEq, and_true] at hreq
  subst hreq
  -- the old node and its chain
  obtain ⟨hopmem, hopaddr⟩ := DCU_findOperationOnList_some _ _ _ hold
  have hinv1 : DCU_tableInvariant (DCU_removeMemory st (some op)) :=
    DCU_tableInvariant_removeMemory st (some op) hinv
  have hsub : ∀ b, ∀ x ∈ (DCU_removeMemory st (some op)).DCU_memory b, x ∈ st.DCU_memory b := by
    intro b x hx
    unfold DCU_removeMemory at hx
    dsimp only at hx
    by_cases hb : b = DCU_HASH_FUNCTION op.memory_address
    · subst hb
      rw [Function.update_same] at hx
      exact (DCU_unlinkOperation_sublist _ op).subset hx
    · rw [Function.update_noteq hb] at hx
      exact hx
  have hfresh1 : DCU_findMemory (DCU_removeMemory st (some op))
      (DCU_registeredNode env DCU_ReallocType n env.mspace_malloc).memory_address = none := by
    show DCU_findOperationOnList _ env.mspace_malloc = none
    rw [DCU_findOperationOnList_none]
    intro x hx
    exact (DCU_findOperationOnList_none _ _).mp hfresh x (hsub _ x hx)
  have hinv2 : DCU_tableInvariant st'' := by
    intro b
    rw [hmem]
    exact DCU_tableInvariant_addMemory _ _ hinv1 hfresh1 b
  -- nodes of an address after the unlinking
  have hrm : ∀ a, ((DCU_removeMemory st (some op)).DCU_memory (DCU_HASH_FUNCTION a)).filter
        (fun x => decide (x.memory_address = a)) =
      if a = old then [] else
        (st.DCU_memory (DCU_HASH_FUNCTION a)).filter (fun x => decide (x.memory_address = a)) := by
    intro a
    unfold DCU_removeMemory
    dsimp only
    by_cases hb : DCU_HASH_FUNCTION a = DCU_HASH_FUNCTION op.memory_address
    · rw [hb, Function.update_same]
      unfold DCU_removeOperationFromList
      dsimp only
      rw [hopaddr, DCU_unlinkOperation_filter _ op hopmem (hinv _).2, List.filter_filter]
      simp only [hopaddr]
      by_cases ha : a = old
      · subst ha
        rw [if_pos rfl, List.filter_eq_nil_iff]
        intro x _
        simp
      · rw [if_neg ha]
        apply List.filter_congr
        intro x _
        by_cases hx : x.memory_address = a
        · simp [hx, ha]
        · simp [hx]
    · rw [Function.update_noteq hb]
      have ha : a ≠ old := by
        intro h
        rw [h, hopaddr] at hb
        exact hb rfl
      rw [if_neg ha]
  -- nodes of an address after the linking
  have hadd : ∀ a, DCU_entriesFor st'' a =
      if a = env.mspace_malloc then
        DCU_registeredNode env DCU_ReallocType n env.mspace_malloc ::
          (((DCU_removeMemory st (some op)).DCU_memory (DCU_HASH_FUNCTION a)).filter
            (fun x => decide (x.memory_address = a)))
      else ((DCU_removeMemory st (some op)).DCU_memory (DCU_HASH_FUNCTION a)).filter
            (fun x => decide (x.memory_address = a)) := by
    intro a
    rw [DCU_entriesFor_bucket st'' hinv2 a, hmem]
    have hna : (DCU_registeredNode env DCU_ReallocType n env.mspace_malloc).memory_address =
        env.mspace_malloc := rfl
    unfold DCU_addMemory DCU_addOperationToList
    dsimp only
    rw [hna]
    by_cases ha : a = env.mspace_malloc
    · rw [if_pos ha, ha, Function.update_same, List.filter_cons]
      simp only [hna, decide_True, if_true]
    · rw [if_neg ha]
      by_cases hb : DCU_HASH_FUNCTION a = DCU_HASH_FUNCTION env.mspace_malloc
      · rw [hb, Function.update_same, List.filter_cons]
        have : ¬ (DCU_registeredNode env DCU_ReallocType n env.mspace_malloc).memory_address = a :=
          fun h => ha h.symm
        simp only [this, decide_False, Bool.false_eq_true, if_false]
      · rw [Function.update_noteq hb]
  have hnone : (st.DCU_memory (DCU_HASH_FUNCTION env.mspace_malloc)).filter
      (fun x => decide (x.memory_address = env.mspace_malloc)) = [] := by
    rw [List.filter_eq_nil_iff]
    intro x hx
    simpa using (DCU_findOperationOnList_none _ _).mp hfresh x hx
  refine ⟨hpo, ?_, ?_, ?_, hinv2, hfree⟩
  · rw [hadd, if_pos rfl, hrm, if_neg hpo, hnone]
    rfl
  · rw [hadd, if_neg (fun h => hpo h.symm), hrm, if_pos rfl]
  · intro a hap hao
    rw [hadd, if_neg hap, hrm, if_neg hao, DCU_entriesFor_bucket st hinv a]

theorem DCU_sample_malloc_state_invariant : DCU_tableInvariant DCU_sample_malloc_state := by
  intro b
  by_cases hb : b = 4096
  · subst hb
    exact ⟨by decide, by decide⟩
  · simp [DCU_sample_malloc_state, hb]

/-- The reallocation of the sample block to 16 bytes in a call during which the read at line
463 yields 4, the size recorded for the block. -/
theorem DCU_sample_realloc_entries :
    (DCU_STATE DCU_sample_malloc_state DCU_INITIALIZED ≠ 0 ∧
      DCU_STATE DCU_sample_malloc_state DCU_TRACING ≠ 0 ∧
      DCU_findMemory DCU_sample_malloc_state 4096 = some DCU_sample_malloc_block ∧
      DCU_findMemory DCU_sample_malloc_state 8192 = none) ∧
    ∃ st', DCU_requestMemory DCU_sample_features DCU_sample_environment
        DCU_sample_malloc_state DCU_ReallocType 16 4096 = some (st', 8192) ∧
      DCU_entriesFor st' 8192 =
        [{ type := DCU_ReallocType, memory_address := 8192, size := 16,
           stack := DCU_createStackTrace DCU_null_stack DCU_sample_environment.backtrace }] ∧
      DCU_entriesFor st' 4096 = [] ∧
      (st'.DCU_memory_stats DCU_FreeType).count = 1 ∧
      (st'.DCU_memory_stats DCU_FreeType).total_memory = 4 := by
  have hinit : DCU_STATE DCU_sample_malloc_state DCU_INITIALIZED ≠ 0 := by decide
  have htr : DCU_STATE DCU_sample_malloc_state DCU_TRACING ≠ 0 := by decide
  have hold : DCU_findMemory DCU_sample_malloc_state 4096 = some DCU_sample_malloc_block := by
    rfl
  have hfresh : DCU_findMemory DCU_sample_malloc_state 8192 = none := by rfl
  refine ⟨⟨hinit, htr, hold, hfresh⟩, ?_⟩
  have hreq : DCU_requestMemory DCU_sample_features DCU_sample_environment
      DCU_sample_malloc_state DCU_ReallocType 16 4096 =
      some (DCU_requestMemory_register DCU_sample_environment
        (DCU_requestMemory_realloc DCU_sample_environment DCU_sample_malloc_state 16 4096).1
        DCU_ReallocType 16 8192, 8192) := by rfl
  obtain ⟨_, hnew, hgone, _, _, hfree⟩ := DCU_requestMemory_realloc_entries
    DCU_sample_features DCU_sample_environment DCU_sample_malloc_state _ 16 4096 8192
    DCU_sample_malloc_block hinit htr DCU_sample_malloc_state_invariant hold hreq (by decide)
    hfresh
  refine ⟨_, hreq, hnew, hgone, ?_, ?_⟩
  · rw [hfree]; rfl
  · rw [hfree]; rfl

/-- C10, a failing input: `realloc(p, 16)` on the tracked four-byte block at 4096, in a call
during which the read of `operation->size` at line 463, made after `DCU_removeMemory` has
freed the node, yields 0.  The request returns 8192 and counts one more Free operation, but
the Free statistics are credited 0 bytes and not the 4 bytes recorded for the block. -/
theorem DCU_requestMemory_realloc_stale_credit :
    DCU_STATE DCU_sample_malloc_state DCU_TRACING ≠ 0 ∧
    DCU_findMemory DCU_sample_malloc_state 4096 = some DCU_sample_malloc_block ∧
    DCU_sample_malloc_block.size = 4 ∧
    (DCU_sample_malloc_state.DCU_memory_stats DCU_FreeType).count = 0 ∧
    (DCU_sample_malloc_state.DCU_memory_stats DCU_FreeType).total_memory = 0 ∧
    ∃ st', DCU_requestMemory DCU_sample_features
        { DCU_sample_environment with freed_size := 0 }
        DCU_sample_malloc_state DCU_ReallocType 16 4096 = some (st', 8192) ∧
      (st'.DCU_memory_stats DCU_FreeType).count = 1 ∧
      (st'.DCU_memory_stats DCU_FreeType).total_memory = 0 ∧
      (st'.DCU_memory_stats DCU_FreeType).total_memory ≠
        ((DCU_sample_malloc_state.DCU_memory_stats DCU_FreeType).total_memory
          + DCU_sample_malloc_block.size) % WORD := by
  refine ⟨by decide, rfl, rfl, rfl, rfl, _, rfl, rfl, rfl, ?_⟩
  intro h
  have h' : (0 : Nat) = 4 := h
  exact absurd h' (by decide)

/-- Data preservation of a reallocation when `n + 4` does not wrap: if the first
`min(n, s)` bytes of the old block lie outside the `n + 4` bytes of the block handed out,
the new block starts with those bytes, and for `n > s` its bytes `s .. n-1` hold the
allocation fill. -/
theorem DCU_requestMemory_realloc_preserves (ft : DCU_Features) (env : DCU_Environment)
    (st : DCU_State) (n old : Nat) (op : DCU_OperationInfo)
    (hinit : DCU_STATE st DCU_INITIALIZED ≠ 0) (htracing : DCU_STATE st DCU_TRACING ≠ 0)
    (hold : DCU_findMemory st old = some op) (hout : env.mspace_malloc ≠ 0)
    (hsize : n + OVERWRITE_DETECTION_DATA_SIZE < WORD)
    (hdisjoint : ∀ i, i < min n op.size → ∀ k, k < n + OVERWRITE_DETECTION_DATA_SIZE →
      ptr_add old i ≠ ptr_add env.mspace_malloc k) :
    ∃ st', DCU_requestMemory ft env st DCU_ReallocType n old = some (st', env.mspace_malloc) ∧
      (∀ i, i < min n op.size →
        st'.heap (ptr_add env.mspace_malloc i) = st.heap (ptr_add old i)) ∧
      (∀ i, op.size ≤ i → i < n →
        st'.heap (ptr_add env.mspace_malloc i) = ALLOCATION_VALUE) := by
  obtain ⟨st', hreq, _, _, hheap, _, _⟩ :=
    DCU_requestMemory_realloc_tracked ft env st n old op hinit htracing hold hout
  refine ⟨st', hreq, ?_, ?_⟩
  all_goals
    have hmod : (n + OVERWRITE_DETECTION_DATA_SIZE) % WORD = n + OVERWRITE_DETECTION_DATA_SIZE :=
      Nat.mod_eq_of_lt hsize
    have hmin : (if n > op.size then op.size else n) = min n op.size := by
      by_cases h : n > op.size
      · rw [if_pos h]; omega
      · rw [if_neg h]; omega
    have hcanary : ∀ i, i < n → ∀ j, j < OVERWRITE_DETECTION_DATA_SIZE →
        ptr_add env.mspace_malloc i ≠ ptr_add (ptr_add env.mspace_malloc n) j := by
      intro i hi j hj
      unfold ptr_add OVERWRITE_DETECTION_DATA_SIZE WORD at *
      omega
  · intro i hi
    rw [hheap, memcpy_other _ _ _ _ _ (hcanary i (by omega)), hmin,
      memcpy_at _ _ _ _ i (by unfold OVERWRITE_DETECTION_DATA_SIZE at hsize; omega) hi]
    rw [hmod]
    exact memset_other _ _ _ _ _ (hdisjoint i hi)
  · intro i his hin
    rw [hheap, memcpy_other _ _ _ _ _ (hcanary i hin), hmin, memcpy_other, hmod]
    · exact memset_at _ _ _ _ i (by omega)
    · intro k hk h
      have := ptr_add_inj env.mspace_malloc i k
        (by unfold OVERWRITE_DETECTION_DATA_SIZE at hsize; omega)
        (by unfold OVERWRITE_DETECTION_DATA_SIZE at hsize; omega) h
      omega

/-- C9, at a failing input: `realloc(old, 2^64 - 1)` on the tracked 4-byte block at 4096
whose bytes are `0x48`.  `size + 4` wraps to 3, the arena hands out address 8192, and the
canary, written at `p + size`, lands on `p - 1 .. p + 2`: the first byte of the returned
block is `0xBB`, so the first `min(n, s) = 4` bytes of the new block are not the bytes of
the old block. -/
theorem DCU_requestMemory_realloc_overflow :
    DCU_STATE DCU_sample_malloc_state DCU_TRACING ≠ 0 ∧
    DCU_findMemory DCU_sample_malloc_state 4096 = some DCU_sample_malloc_block ∧
    ∃ st', DCU_requestMemory DCU_sample_features DCU_sample_environment
        DCU_sample_malloc_state DCU_ReallocType (WORD - 1) 4096 = some (st', 8192) ∧
      DCU_sample_malloc_state.heap (ptr_add 4096 0) = 0x48 ∧
      st'.heap (ptr_add 8192 0) = 0xBB ∧
      ¬ (∀ i, i < min (WORD - 1) DCU_sample_malloc_block.size →
          st'.heap (ptr_add 8192 i) = DCU_sample_malloc_state.heap (ptr_add 4096 i)) := by
  refine ⟨by decide, rfl, ?_⟩
  obtain ⟨st', hreq, _, _, hheap, _, _⟩ :=
    DCU_requestMemory_realloc_tracked DCU_sample_features DCU_sample_environment
      DCU_sample_malloc_state (WORD - 1) 4096 DCU_sample_malloc_block (by decide) (by decide)
      rfl (by decide)
  have hnew : st'.heap (ptr_add 8192 0) = 0xBB := by
    rw [hheap]
    rfl
  have hold : DCU_sample_malloc_state.heap (ptr_add 4096 0) = 0x48 := rfl
  refine ⟨st', hreq, hold, hnew, ?_⟩
  intro hall
  have h0 := hall 0 (by decide)
  rw [hnew, hold] at h0
  exact absurd h0 (by decide)

/-! ## Leak synthesis -/

theorem DCU_foldl_flatMap {α β : Type} (f : β → α → β) (g : Nat → List α) (l : List Nat)
    (b : β) :
    (l.flatMap g).foldl f b = l.foldl (fun acc i => (g i).foldl f acc) b := by
  induction l generalizing b with
  | nil => rfl
  | cons i rest ih => simp [List.flatMap_cons, List.foldl_append, ih]

/-- The leak loop folds its body over the residual nodes; the table is not touched. -/
theorem DCU_analyzeMemory_problems (st : DCU_State) :
    (DCU_analyzeMemory st).DCU_problems =
      (DCU_residual st).foldl DCU_analyzeMemory_leak st.DCU_problems ∧
    (DCU_analyzeMemory st).DCU_memory = st.DCU_memory := by
  have hp : ∀ (l : List DCU_DynamicOperationType) (s : DCU_State),
      (l.foldl DCU_analyzeMemory_stats s).DCU_problems = s.DCU_problems ∧
      (l.foldl DCU_analyzeMemory_stats s).DCU_memory = s.DCU_memory := by
    intro l
    induction l with
    | nil => intro s; exact ⟨rfl, rfl⟩
    | cons i rest ih =>
      intro s
      rw [List.foldl_cons]
      obtain ⟨h1, h2⟩ := ih (DCU_analyzeMemory_stats s i)
      rw [h1, h2]
      cases i <;> exact ⟨rfl, rfl⟩
  unfold DCU_analyzeMemory DCU_residual
  dsimp only
  rw [DCU_foldl_flatMap, (hp _ st).1, (hp _ st).2]
  exact ⟨rfl, rfl⟩

theorem DCU_analyzeMemory_leak_signature (iterator : DCU_OperationInfo) (p : DCU_ProblemInfo) :
    DCU_signature ({ p with count := (p.count + 1) % WORD
                            size := iterator.size
                            total_memory := (p.total_memory + iterator.size) % WORD }) =
      DCU_signature p := rfl

/-- Every node after the idiom carries the signature or was there before. -/
theorem DCU_registerProblem_mem (list : List DCU_ProblemInfo) (t : DCU_ProblemType)
    (a d : DCU_Stack) (fresh : DCU_ProblemInfo) (mutate : DCU_ProblemInfo → DCU_ProblemInfo)
    (hm : ∀ p, DCU_signature (mutate p) = DCU_signature p)
    (hf : DCU_signature fresh = (t, a, d)) (r : DCU_ProblemInfo)
    (hr : r ∈ DCU_registerProblem list t a d fresh mutate) :
    DCU_signature r = (t, a, d) ∨ r ∈ list := by
  rcases DCU_registerProblem_cases list t a d fresh mutate with
    ⟨pre, p, post, hl, _, hp, hreg⟩ | ⟨_, hreg⟩
  · rw [hreg] at hr
    rw [hl]
    rcases List.mem_append.mp hr with h | h
    · exact Or.inr (List.mem_append_left _ h)
    · rcases List.mem_cons.mp h with h | h
      · left; rw [h, hm, hp]
      · exact Or.inr (List.mem_append_right _ (List.mem_cons_of_mem _ h))
  · rw [hreg] at hr
    rcases List.mem_cons.mp hr with h | h
    · left; rw [h, hm, hf]
    · exact Or.inr h

/-- One pass of the leak loop body, seen through the registry observations. -/
theorem DCU_analyzeMemory_leak_step (l : List DCU_ProblemInfo) (op : DCU_OperationInfo) :
    DCU_problemCount (DCU_analyzeMemory_leak l op) DCU_LeakType op.stack DCU_null_stack =
      (DCU_problemCount l DCU_LeakType op.stack DCU_null_stack + 1) % WORD ∧
    DCU_problemTotal (DCU_analyzeMemory_leak l op) DCU_LeakType op.stack DCU_null_stack =
      (DCU_problemTotal l DCU_LeakType op.stack DCU_null_stack + op.size) % WORD ∧
    DCU_problemNodes (DCU_analyzeMemory_leak l op) DCU_LeakType op.stack DCU_null_stack =
      (if DCU_problemNodes l DCU_LeakType op.stack DCU_null_stack = 0 then 1
        else DCU_problemNodes l DCU_LeakType op.stack DCU_null_stack) ∧
    (∀ t a d, (t, a, d) ≠ (DCU_LeakType, op.stack, DCU_null_stack) →
      DCU_problemCount (DCU_analyzeMemory_leak l op) t a d = DCU_problemCount l t a d ∧
      DCU_problemTotal (DCU_analyzeMemory_leak l op) t a d = DCU_problemTotal l t a d ∧
      DCU_problemNodes (DCU_analyzeMemory_leak l op) t a d = DCU_problemNodes l t a d) ∧
    (∀ r ∈ DCU_analyzeMemory_leak l op,
      DCU_signature r = (DCU_LeakType, op.stack, DCU_null_stack) ∨ r ∈ l) := by
  have hsig : DCU_signature { DCU_createProblem with type := DCU_LeakType
                                                     allocation_stack := op.stack } =
      (DCU_LeakType, op.stack, DCU_null_stack) := rfl
  have hm := DCU_analyzeMemory_leak_signature op
  have hsame := DCU_problemFor_register_same l DCU_LeakType op.stack DCU_null_stack _ _ hm hsig
  refine ⟨?_, ?_, ?_, ?_, ?_⟩
  · unfold DCU_problemCount DCU_analyzeMemory_leak
    rw [hsame]
    cases DCU_problemFor l DCU_LeakType op.stack DCU_null_stack <;> rfl
  · unfold DCU_problemTotal DCU_analyzeMemory_leak
    rw [hsame]
    cases DCU_problemFor l DCU_LeakType op.stack DCU_null_stack <;> rfl
  · exact DCU_problemNodes_register l DCU_LeakType op.stack DCU_null_stack _ _ hm hsig
  · intro t a d hne
    refine ⟨DCU_problemCount_register_other l _ _ _ _ _ hm hsig t a d hne, ?_,
      DCU_problemNodes_register_other l _ _ _ _ _ hm hsig t a d hne⟩
    unfold DCU_problemTotal DCU_analyzeMemory_leak
    rw [DCU_problemFor_register_other l _ _ _ _ _ hm hsig t a d hne]
  · intro r hr
    exact DCU_registerProblem_mem l _ _ _ _ _ hm hsig r hr

/-- The leak loop over a list of residual nodes, seen through the registry observations. -/
theorem DCU_analyzeMemory_leak_fold (ops : List DCU_OperationInfo) (l : List DCU_ProblemInfo) :
    (∀ s, DCU_problemCount (ops.foldl DCU_analyzeMemory_leak l) DCU_LeakType s DCU_null_stack =
      if (ops.filter (fun op => decide (op.stack = s))).length = 0 then
        DCU_problemCount l DCU_LeakType s DCU_null_stack
      else (DCU_problemCount l DCU_LeakType s DCU_null_stack
        + (ops.filter (fun op => decide (op.stack = s))).length) % WORD) ∧
    (∀ s, DCU_problemTotal (ops.foldl DCU_analyzeMemory_leak l) DCU_LeakType s DCU_null_stack =
      if (ops.filter (fun op => decide (op.stack = s))).length = 0 then
        DCU_problemTotal l DCU_LeakType s DCU_null_stack
      else (DCU_problemTotal l DCU_LeakType s DCU_null_stack
        + ((ops.filter (fun op => decide (op.stack = s))).map (fun op => op.size)).sum)
          % WORD) ∧
    (∀ s, DCU_problemNodes (ops.foldl DCU_analyzeMemory_leak l) DCU_LeakType s DCU_null_stack =
      if (ops.filter (fun op => decide (op.stack = s))).length = 0 then
        DCU_problemNodes l DCU_LeakType s DCU_null_stack
      else if DCU_problemNodes l DCU_LeakType s DCU_null_stack = 0 then 1
      else DCU_problemNodes l DCU_LeakType s DCU_null_stack) ∧
    (∀ t a d, (t ≠ DCU_LeakType ∨ d ≠ DCU_null_stack) →
      DCU_problemCount (ops.foldl DCU_analyzeMemory_leak l) t a d = DCU_problemCount l t a d ∧
      DCU_problemTotal (ops.foldl DCU_analyzeMemory_leak l) t a d = DCU_problemTotal l t a d ∧
      DCU_problemNodes (ops.foldl DCU_analyzeMemory_leak l) t a d = DCU_problemNodes l t a d) ∧
    (∀ r ∈ ops.foldl DCU_analyzeMemory_leak l,
      (∃ op ∈ ops, DCU_signature r = (DCU_LeakType, op.stack, DCU_null_stack)) ∨ r ∈ l) := by
  induction ops generalizing l with
  | nil =>
    refine ⟨?_, ?_, ?_, ?_, ?_⟩
    · intro s; simp
    · intro s; simp
    · intro s; simp
    · intro t a d _; exact ⟨rfl, rfl, rfl⟩
    · intro r hr; exact Or.inr hr
  | cons op rest ih =>
    obtain ⟨hc, ht, hn, ho, hmem⟩ := ih (DCU_analyzeMemory_leak l op)
    obtain ⟨sc, stt, sn, so, smem⟩ := DCU_analyzeMemory_leak_step l op
    rw [List.foldl_cons]
    refine ⟨?_, ?_, ?_, ?_, ?_⟩
    · intro s
      rw [hc s]
      by_cases hs : op.stack = s
      · subst hs
        rw [sc]
        simp only [List.filter_cons, decide_True, if_true, List.length_cons]
        generalize (List.filter _ rest).length = k
        generalize DCU_problemCount l DCU_LeakType op.stack DCU_null_stack = c
        split_ifs <;> first | omega | (simp only [WORD] at * <;> omega)
      · have hne : (DCU_LeakType, s, DCU_null_stack) ≠ (DCU_LeakType, op.stack, DCU_null_stack) := by
          intro h
          exact hs (congrFun (congrArg Prod.fst (congrArg Prod.snd h)) |> fun e => (funext e).symm)
        rw [(so _ _ _ hne).1]
        simp only [List.filter_cons, hs, decide_False, Bool.false_eq_true, if_false]
    · intro s
      rw [ht s]
      by_cases hs : op.stack = s
      · subst hs
        rw [stt]
        simp only [List.filter_cons, decide_True, if_true, List.length_cons, List.map_cons,
          List.sum_cons]
        have hσ : (rest.filter (fun x => decide (x.stack = op.stack))).length = 0 →
            ((rest.filter (fun x => decide (x.stack = op.stack))).map
              (fun x => x.size)).sum = 0 := by
          intro h0
          rw [List.length_eq_zero.mp h0]
          rfl
        generalize ((rest.filter (fun x => decide (x.stack = op.stack))).map
              (fun x => x.size)).sum = σ at hσ ⊢
        generalize (rest.filter (fun x => decide (x.stack = op.stack))).length = k at hσ ⊢
        generalize DCU_problemTotal l DCU_LeakType op.stack DCU_null_stack = c
        generalize op.size = z
        split_ifs with h0 <;> first | omega | (simp only [WORD] at * <;> omega)
      · have hne : (DCU_LeakType, s, DCU_null_stack) ≠ (DCU_LeakType, op.stack, DCU_null_stack) := by
          intro h
          exact hs (congrFun (congrArg Prod.fst (congrArg Prod.snd h)) |> fun e => (funext e).symm)
        rw [(so _ _ _ hne).2.1]
        simp only [List.filter_cons, hs, decide_False, Bool.false_eq_true, if_false]
    · intro s
      rw [hn s]
      by_cases hs : op.stack = s
      · subst hs
        rw [sn]
        simp only [List.filter_cons, decide_True, if_true, List.length_cons]
        generalize (List.filter _ rest).length = k
        generalize DCU_problemNodes l DCU_LeakType op.stack DCU_null_stack = c
        clear hc ht hn ho hmem sc stt sn so smem ih
        split_ifs
        all_goals first | rfl | contradiction
      · have hne : (DCU_LeakType, s, DCU_null_stack) ≠ (DCU_LeakType, op.stack, DCU_null_stack) := by
          intro h
          exact hs (congrFun (congrArg Prod.fst (congrArg Prod.snd h)) |> fun e => (funext e).symm)
        rw [(so _ _ _ hne).2.2]
        simp only [List.filter_cons, hs, decide_False, Bool.false_eq_true, if_false]
    · intro t a d htd
      have hne : (t, a, d) ≠ (DCU_LeakType, op.stack, DCU_null_stack) := by
        intro h
        rcases htd with h1 | h1
        · exact h1 (congrArg Prod.fst h)
        · exact h1 (congrArg Prod.snd (congrArg Prod.snd h))
      obtain ⟨h1, h2, h3⟩ := ho t a d htd
      obtain ⟨h4, h5, h6⟩ := so t a d hne
      exact ⟨h1.trans h4, h2.trans h5, h3.trans h6⟩
    · intro r hr
      rcases hmem r hr with ⟨op', hop', hsig⟩ | hr1
      · exact Or.inl ⟨op', List.mem_cons_of_mem _ hop', hsig⟩
      · rcases smem r hr1 with hsig | hr2
        · exact Or.inl ⟨op, List.mem_cons_self _ _, hsig⟩
        · exact Or.inr hr2

theorem DCU_problemFor_none_of_no_leak (l : List DCU_ProblemInfo)
    (hno : ∀ r ∈ l, r.type ≠ DCU_LeakType) (a d : DCU_Stack) :
    DCU_problemFor l DCU_LeakType a d = none ∧ DCU_problemCount l DCU_LeakType a d = 0 ∧
    DCU_problemTotal l DCU_LeakType a d = 0 ∧ DCU_problemNodes l DCU_LeakType a d = 0 := by
  have hsig : ∀ q ∈ l, DCU_signature q ≠ (DCU_LeakType, a, d) :=
    fun q hq h => hno q hq (congrArg Prod.fst h)
  have hnone : DCU_problemFor l DCU_LeakType a d = none := by
    rw [DCU_problemFor_eq_find]
    exact DCU_find_none_of_forall l _ hsig
  refine ⟨hnone, ?_, ?_, ?_⟩
  · unfold DCU_problemCount; rw [hnone]
  · unfold DCU_problemTotal; rw [hnone]
  · unfold DCU_problemNodes
    rw [List.length_eq_zero, List.filter_eq_nil_iff]
    intro q hq
    simpa using hsig q hq

theorem DCU_analyzeMemory_residual (st : DCU_State) :
    DCU_residual (DCU_analyzeMemory st) = DCU_residual st := by
  unfold DCU_residual
  rw [(DCU_analyzeMemory_problems st).2]

/-- C3: when the registry holds no Leak node, after `DCU_analyzeMemory` every node still in
the table (the analyser leaves the table as it is) has exactly one Leak node in the registry
whose allocation stack equals the node's stack in all eight slots and whose deallocation
stack is all zero; and every Leak node of the registry has the stack of some node of the
table as allocation stack and an all-zero deallocation stack. -/
theorem DCU_analyzeMemory_leak_closure (st : DCU_State)
    (hno : ∀ r ∈ st.DCU_problems, r.type ≠ DCU_LeakType) :
    DCU_residual (DCU_analyzeMemory st) = DCU_residual st ∧
    (∀ op ∈ DCU_residual st,
      DCU_problemNodes (DCU_analyzeMemory st).DCU_problems DCU_LeakType op.stack
        DCU_null_stack = 1) ∧
    (∀ r ∈ (DCU_analyzeMemory st).DCU_problems, r.type = DCU_LeakType →
      ∃ op ∈ DCU_residual st,
        r.allocation_stack = op.stack ∧ r.deallocation_stack = DCU_null_stack) := by
  obtain ⟨_, _, hn, _, hmem⟩ := DCU_analyzeMemory_leak_fold (DCU_residual st) st.DCU_problems
  rw [← (DCU_analyzeMemory_problems st).1] at hn hmem
  refine ⟨DCU_analyzeMemory_residual st, ?_, ?_⟩
  · intro op hop
    rw [hn op.stack, (DCU_problemFor_none_of_no_leak st.DCU_problems hno _ _).2.2.2]
    have hpos : (List.filter (fun x => decide (x.stack = op.stack)) (DCU_residual st)).length
        ≠ 0 := by
      rw [Ne, List.length_eq_zero, List.filter_eq_nil_iff]
      intro h
      simpa using h op hop
    rw [if_neg hpos, if_pos rfl]
  · intro r hr hleak
    rcases hmem r hr with ⟨op, hop, hsig⟩ | hold
    · refine ⟨op, hop, ?_, ?_⟩
      · exact congrArg Prod.fst (congrArg Prod.snd hsig)
      · exact congrArg Prod.snd (congrArg Prod.snd hsig)
    · exact absurd hleak (hno r hold)

theorem DCU_sample_leaks_residual :
    DCU_residual DCU_sample_leaks =
      [DCU_sample_leak 145388 14, DCU_sample_leak 110065 13, DCU_sample_leak 74742 12,
       DCU_sample_leak 39419 11, DCU_sample_leak 4096 10] := by
  unfold DCU_residual
  rw [DCU_flatMap_range_single DCU_sample_leaks.DCU_memory DCU_HASH_TABLE_SIZE 4096
    (by decide) (by intro b _ hb; simp [DCU_sample_leaks, hb])]
  rfl

theorem DCU_analyzeMemory_leak_closure_witness :
    (∀ r ∈ DCU_sample_leaks.DCU_problems, r.type ≠ DCU_LeakType) ∧
    DCU_sample_leak 74742 12 ∈ DCU_residual DCU_sample_leaks ∧
    DCU_problemNodes (DCU_analyzeMemory DCU_sample_leaks).DCU_problems DCU_LeakType
      (DCU_sample_leak 74742 12).stack DCU_null_stack = 1 := by
  have hno : ∀ r ∈ DCU_sample_leaks.DCU_problems, r.type ≠ DCU_LeakType := by
    intro r hr
    exact absurd hr (List.not_mem_nil r)
  have hmem : DCU_sample_leak 74742 12 ∈ DCU_residual DCU_sample_leaks := by
    rw [DCU_sample_leaks_residual]
    simp
  exact ⟨hno, hmem, (DCU_analyzeMemory_leak_closure DCU_sample_leaks hno).2.1 _ hmem⟩

theorem DCU_accounts_nil (l : List DCU_ProblemInfo) : DCU_accounts l [] l := by
  intro t a d
  simp

theorem DCU_accounts_trans (l0 l1 l2 : List DCU_ProblemInfo) (e1 e2 : List DCU_Event)
    (h1 : DCU_accounts l0 e1 l1) (h2 : DCU_accounts l1 e2 l2) :
    DCU_accounts l0 (e1 ++ e2) l2 := by
  intro t a d
  obtain ⟨c1, n1⟩ := h1 t a d
  obtain ⟨c2, n2⟩ := h2 t a d
  rw [c2, n2, c1, n1, List.count_append]
  generalize List.count (t, a, d) e1 = k1
  generalize List.count (t, a, d) e2 = k2
  generalize DCU_problemCount l0 t a d = c
  generalize DCU_problemNodes l0 t a d = m
  constructor
  · split_ifs <;> first | rfl | omega | (simp only [WORD] at *; omega)
  · split_ifs <;> first | rfl | omega

/-- The find-or-create idiom with a counting update accounts for one event. -/
theorem DCU_accounts_register (l : List DCU_ProblemInfo) (t : DCU_ProblemType)
    (a d : DCU_Stack) (fresh : DCU_ProblemInfo) (mutate : DCU_ProblemInfo → DCU_ProblemInfo)
    (hm : ∀ p, DCU_signature (mutate p) = DCU_signature p)
    (hf : DCU_signature fresh = (t, a, d))
    (hcount : ∀ p, (mutate p).count = (p.count + 1) % WORD) (hfc : fresh.count = 0) :
    DCU_accounts l [(t, a, d)] (DCU_registerProblem l t a d fresh mutate) := by
  intro t' a' d'
  by_cases hk : (t', a', d') = (t, a, d)
  · simp only [Prod.mk.injEq] at hk
    obtain ⟨ht, ha, hd⟩ := hk
    subst ht ha hd
    have h1 : List.count (t', a', d') [(t', a', d')] = 1 := by simp
    rw [h1]
    refine ⟨?_, ?_⟩
    · rw [if_neg (by decide)]
      unfold DCU_problemCount
      rw [DCU_problemFor_register_same l t' a' d' fresh mutate hm hf]
      cases DCU_problemFor l t' a' d' with
      | none => simp [hcount, hfc]
      | some p => simp [hcount]
    · rw [if_neg (by decide)]
      exact DCU_problemNodes_register l t' a' d' fresh mutate hm hf
  · have h0 : List.count (t', a', d') [(t, a, d)] = 0 := by
      rw [List.count_eq_zero]
      intro hmem
      exact hk (List.mem_singleton.mp hmem)
    rw [h0]
    refine ⟨?_, ?_⟩
    · rw [if_pos rfl]
      exact DCU_problemCount_register_other l t a d fresh mutate hm hf t' a' d' hk
    · rw [if_pos rfl]
      exact DCU_problemNodes_register_other l t a d fresh mutate hm hf t' a' d' hk

theorem DCU_accounts_recordEvent (l : List DCU_ProblemInfo) (e : DCU_Event) :
    DCU_accounts l [e] (DCU_recordEvent l e) := by
  obtain ⟨t, a, d⟩ := e
  exact DCU_accounts_register l t a d _ DCU_countProblem DCU_countProblem_signature rfl
    (fun _ => rfl) rfl

theorem DCU_accounts_foldl_recordEvent (es : List DCU_Event) (l : List DCU_ProblemInfo) :
    DCU_accounts l es (es.foldl DCU_recordEvent l) := by
  induction es generalizing l with
  | nil => exact DCU_accounts_nil l
  | cons e rest ih =>
    rw [List.foldl_cons]
    exact DCU_accounts_trans l _ _ [e] rest (DCU_accounts_recordEvent l e) (ih _)

theorem DCU_accounts_foldl_leak (ops : List DCU_OperationInfo) (l : List DCU_ProblemInfo) :
    DCU_accounts l (ops.map (fun op => (DCU_LeakType, op.stack, DCU_null_stack)))
      (ops.foldl DCU_analyzeMemory_leak l) := by
  induction ops generalizing l with
  | nil => exact DCU_accounts_nil l
  | cons op rest ih =>
    rw [List.foldl_cons, List.map_cons]
    refine DCU_accounts_trans l _ _ [_] _ ?_ (ih _)
    exact DCU_accounts_register l DCU_LeakType op.stack DCU_null_stack _ _
      (DCU_analyzeMemory_leak_signature op) rfl (fun _ => rfl) rfl

/-- The analyser accounts for one leak event per residual node. -/
theorem DCU_accounts_analyzeMemory (st : DCU_State) :
    DCU_accounts st.DCU_problems (DCU_analyzeMemory_events st)
      (DCU_analyzeMemory st).DCU_problems := by
  rw [(DCU_analyzeMemory_problems st).1]
  exact DCU_accounts_foldl_leak (DCU_residual st) st.DCU_problems

theorem DCU_requestMemory_register_frame (env : DCU_Environment) (st : DCU_State)
    (type : DCU_DynamicOperationType) (size out : Nat) :
    (DCU_requestMemory_register env st type size out).DCU_flags = st.DCU_flags ∧
    (DCU_requestMemory_register env st type size out).DCU_problems = st.DCU_problems := by
  unfold DCU_requestMemory_register
  dsimp only
  split_ifs <;> exact ⟨rfl, rfl⟩

/-- A request that returns keeps the flags and records exactly its events. -/
theorem DCU_requestMemory_records (ft : DCU_Features) (env : DCU_Environment)
    (st st1 : DCU_State) (type : DCU_DynamicOperationType) (size pointer out : Nat)
    (hinit : DCU_STATE st DCU_INITIALIZED ≠ 0)
    (hreq : DCU_requestMemory ft env st type size pointer = some (st1, out)) :
    st1.DCU_flags = st.DCU_flags ∧
    st1.DCU_problems =
      (DCU_requestMemory_events env st type size).foldl DCU_recordEvent st.DCU_problems := by
  unfold DCU_requestMemory at hreq
  rw [DCU_initialize_initialized ft env st hinit] at hreq
  dsimp only at hreq
  unfold DCU_requestMemory_events
  by_cases hz : size = 0 ∧ (type = DCU_CallocType ∨ type = DCU_MallocType ∨
      type = DCU_NewType ∨ type = DCU_NewArrayType)
  · rw [if_pos hz] at hreq
    rw [if_pos hz]
    simp only [Option.some.injEq, Prod.mk.injEq] at hreq
    obtain ⟨hst, _⟩ := hreq
    subst hst
    unfold DCU_requestMemory_zero
    dsimp only
    by_cases htr : DCU_STATE st DCU_TRACING ≠ 0
    · rw [if_pos htr, if_pos htr]
      exact ⟨rfl, rfl⟩
    · rw [if_neg htr, if_neg htr]
      exact ⟨rfl, rfl⟩
  · rw [if_neg hz] at hreq
    rw [if_neg hz]
    cases hal : DCU_requestMemory_allocate env st type size pointer with
    | none => rw [hal] at hreq; exact absurd hreq (by simp)
    | some r =>
      obtain ⟨sta, o⟩ := r
      rw [hal] at hreq
      simp only [Option.some.injEq, Prod.mk.injEq] at hreq
      obtain ⟨hst, _⟩ := hreq
      subst hst
      obtain ⟨hfl, hpr, _⟩ := DCU_requestMemory_allocate_frame env st type size pointer sta o hal
      obtain ⟨h1, h2⟩ := DCU_requestMemory_register_frame env sta type size o
      exact ⟨h1.trans hfl, h2.trans hpr⟩

/-- A release that returns keeps the flags and records exactly its events. -/
theorem DCU_releaseMemory_records (ft : DCU_Features) (env : DCU_Environment)
    (st st1 : DCU_State) (type : DCU_DynamicOperationType) (pointer : Nat)
    (hinit : DCU_STATE st DCU_INITIALIZED ≠ 0)
    (hrel : DCU_releaseMemory ft env st type pointer = DCU_Outcome.returned st1) :
    st1.DCU_flags = st.DCU_flags ∧
    st1.DCU_problems =
      (DCU_releaseMemory_events ft env st type pointer).foldl DCU_recordEvent
        st.DCU_problems := by
  unfold DCU_releaseMemory at hrel
  rw [DCU_initialize_initialized ft env st hinit] at hrel
  dsimp only at hrel
  unfold DCU_releaseMemory_events
  dsimp only
  by_cases hp : pointer ≠ 0
  · rw [if_pos hp] at hrel
    rw [if_pos hp]
    by_cases htr : DCU_STATE st DCU_TRACING ≠ 0
    · rw [if_pos htr] at hrel
      rw [if_pos htr]
      cases hfind : DCU_findMemory st pointer with
      | none =>
        rw [hfind] at hrel
        dsimp only at hrel ⊢
        unfold DCU_releaseMemory_untracked at hrel
        dsimp only at hrel
        split_ifs at hrel
        simp only [DCU_Outcome.returned.injEq] at hrel
        subst hrel
        exact ⟨rfl, rfl⟩
      | some operation =>
        rw [hfind] at hrel
        dsimp only at hrel ⊢
        unfold DCU_releaseMemory_tracked at hrel
        dsimp only at hrel
        cases hc : memcmp st.heap (ptr_add pointer operation.size) OVERWRITE_DETECTION_DATA
            OVERWRITE_DETECTION_DATA_SIZE <;>
          cases hm : DCU_mismatched_release type operation.type <;>
          cases hab : ft.DCU_ABORT_ON_MEMORY_OVERWRITE <;>
          simp only [hc, hm, hab, Bool.false_eq_true, if_false, if_true, and_self, and_false,
            false_and, DCU_Outcome.returned.injEq, reduceCtorEq] at hrel <;>
          (try subst hrel) <;>
          simp only [Bool.false_eq_true, if_false, if_true, and_self, and_false,
            false_and, DCU_removeMemory_problems, List.append_nil, List.nil_append,
            List.singleton_append] <;>
          exact ⟨rfl, rfl⟩
    · rw [if_neg htr] at hrel
      rw [if_neg htr]
      simp only [DCU_Outcome.returned.injEq] at hrel
      subst hrel
      exact ⟨rfl, rfl⟩
  · rw [if_neg hp] at hrel
    rw [if_neg hp]
    simp only [DCU_Outcome.returned.injEq] at hrel
    subst hrel
    unfold DCU_releaseMemory_null
    by_cases hc : ft.DCU_C_MEMORY_CHECK = true ∧ type = DCU_FreeType
    · rw [if_pos hc, if_pos hc]
      by_cases htr : DCU_STATE st DCU_TRACING ≠ 0
      · rw [if_pos htr, if_pos htr]
        exact ⟨rfl, rfl⟩
      · rw [if_neg htr, if_neg htr]
        exact ⟨rfl, rfl⟩
    · rw [if_neg hc, if_neg hc]
      exact ⟨rfl, rfl⟩

/-- A run that completes keeps the flags, and its final registry accounts for its events. -/
theorem DCU_run_accounts (ft : DCU_Features) (calls : List DCU_Call) (st0 st : DCU_State)
    (outs : List Nat) (hinit : DCU_STATE st0 DCU_INITIALIZED ≠ 0)
    (hrun : DCU_run ft st0 calls = some (st, outs)) :
    st.DCU_flags = st0.DCU_flags ∧
    DCU_accounts st0.DCU_problems (DCU_events ft st0 calls) st.DCU_problems := by
  induction calls generalizing st0 outs with
  | nil =>
    simp only [DCU_run, Option.some.injEq, Prod.mk.injEq] at hrun
    obtain ⟨h, _⟩ := hrun
    subst h
    exact ⟨rfl, DCU_accounts_nil _⟩
  | cons c rest ih =>
    cases c with
    | request env type size pointer =>
      unfold DCU_run at hrun
      unfold DCU_events
      cases hreq : DCU_requestMemory ft env st0 type size pointer with
      | none => rw [hreq] at hrun; exact absurd hrun (by simp)
      | some r =>
        obtain ⟨st1, out⟩ := r
        rw [hreq] at hrun
        dsimp only at hrun ⊢
        obtain ⟨hfl, hpr⟩ :=
          DCU_requestMemory_records ft env st0 st1 type size pointer out hinit hreq
        have hinit1 : DCU_STATE st1 DCU_INITIALIZED ≠ 0 := by
          unfold DCU_STATE at hinit ⊢
          rw [hfl]
          exact hinit
        cases hrest : DCU_run ft st1 rest with
        | none => rw [hrest] at hrun; exact absurd hrun (by simp)
        | some r2 =>
          obtain ⟨st2, outs2⟩ := r2
          rw [hrest] at hrun
          simp only [Option.some.injEq, Prod.mk.injEq] at hrun
          obtain ⟨hst, _⟩ := hrun
          subst hst
          obtain ⟨hfl2, hacc⟩ := ih st1 outs2 hinit1 hrest
          refine ⟨hfl2.trans hfl, ?_⟩
          refine DCU_accounts_trans _ st1.DCU_problems _ _ _ ?_ hacc
          rw [hpr]
          exact DCU_accounts_foldl_recordEvent _ _
    | release env type pointer =>
      unfold DCU_run at hrun
      unfold DCU_events
      cases hrel : DCU_releaseMemory ft env st0 type pointer with
      | halted => rw [hrel] at hrun; exact absurd hrun (by simp)
      | aborted s => rw [hrel] at hrun; exact absurd hrun (by simp)
      | returned st1 =>
        rw [hrel] at hrun
        dsimp only at hrun ⊢
        obtain ⟨hfl, hpr⟩ := DCU_releaseMemory_records ft env st0 st1 type pointer hinit hrel
        have hinit1 : DCU_STATE st1 DCU_INITIALIZED ≠ 0 := by
          unfold DCU_STATE at hinit ⊢
          rw [hfl]
          exact hinit
        obtain ⟨hfl2, hacc⟩ := ih st1 outs hinit1 hrun
        refine ⟨hfl2.trans hfl, ?_⟩
        refine DCU_accounts_trans _ st1.DCU_problems _ _ _ ?_ hacc
        rw [hpr]
        exact DCU_accounts_foldl_recordEvent _ _

theorem DCU_write_frame (ft : DCU_Features) (env : DCU_Environment) (st : DCU_State)
    (message : String) :
    (DCU_write ft env st message).DCU_flags = st.DCU_flags ∧
    (DCU_write ft env st message).DCU_problems = st.DCU_problems ∧
    (DCU_write ft env st message).DCU_memory = st.DCU_memory := by
  unfold DCU_write
  dsimp only
  split_ifs <;> exact ⟨rfl, rfl, rfl⟩

/-- What `DCU_initialize` leaves behind when it runs its body: both flags set, an empty
registry and an empty table. -/
theorem DCU_initialize_fresh (ft : DCU_Features) (env : DCU_Environment) (st st0 : DCU_State)
    (hcold : DCU_STATE st DCU_INITIALIZED = 0)
    (h : ( DCU_initialize ft env st) = some st0) :
    DCU_STATE st0 DCU_INITIALIZED ≠ 0 ∧ DCU_STATE st0 DCU_TRACING ≠ 0 ∧
    st0.DCU_problems = [] ∧ st0.DCU_memory = fun _ => [] := by
  have h1 : ∀ f : Nat, (f ||| 8 ||| 1 ||| 2) &&& 1 ≠ 0 := by
    intro f hf
    have := congrArg (fun x => x.testBit 0) hf
    simp [Nat.testBit_and, Nat.testBit_or] at this
  have h2 : ∀ f : Nat, (f ||| 8 ||| 1 ||| 2) &&& 2 ≠ 0 := by
    intro f hf
    have h21 : Nat.testBit 2 1 = true := by decide
    have := congrArg (fun x => x.testBit 1) hf
    simp [Nat.testBit_and, Nat.testBit_or, h21] at this
  unfold DCU_initialize at h
  rw [if_neg (by rw [hcold]; exact fun h => h rfl)] at h
  dsimp only at h
  split_ifs at h
  all_goals first
    | exact absurd hcold (by assumption)
    | exact absurd (by assumption) (Nat.not_lt_zero _)
    | (simp only [Option.some.injEq] at h
       subst h
       unfold DCU_STATE
       rw [(DCU_write_frame _ _ _ _).1, (DCU_write_frame _ _ _ _).2.1,
         (DCU_write_frame _ _ _ _).2.2]
       exact ⟨h1 _, h2 _, rfl, rfl⟩)

/-- C2: run any finite sequence of requests and releases from an initialised state with an
empty registry (such as the state `DCU_initialize` produces), then `DCU_analyzeMemory` or
not.  For every triple (kind, allocation stack, deallocation stack) the registry holds at most
one node whose kind and two stacks equal the triple in every slot; it holds one iff a defect
event with that triple was raised; and the count recorded for the triple is the number of
those events (as a `size_t`, modulo 2^64). -/
theorem DCU_registry_dedup (ft : DCU_Features) (calls : List DCU_Call) (st0 st : DCU_State)
    (outs : List Nat) (analyze : Bool)
    (hinit : DCU_STATE st0 DCU_INITIALIZED ≠ 0) (hempty : st0.DCU_problems = [])
    (hrun : DCU_run ft st0 calls = some (st, outs))
    (t : DCU_ProblemType) (a d : DCU_Stack) :
    DCU_problemNodes
        (if analyze = true then (DCU_analyzeMemory st).DCU_problems else st.DCU_problems)
        t a d ≤ 1 ∧
    (DCU_problemNodes
        (if analyze = true then (DCU_analyzeMemory st).DCU_problems else st.DCU_problems)
        t a d = 1 ↔
      (t, a, d) ∈ DCU_events ft st0 calls ++
        (if analyze = true then DCU_analyzeMemory_events st else [])) ∧
    DCU_problemCount
        (if analyze = true then (DCU_analyzeMemory st).DCU_problems else st.DCU_problems)
        t a d =
      (DCU_events ft st0 calls ++
        (if analyze = true then DCU_analyzeMemory_events st else [])).count (t, a, d)
        % WORD := by
  obtain ⟨_, hacc⟩ := DCU_run_accounts ft calls st0 st outs hinit hrun
  have hall : DCU_accounts [] (DCU_events ft st0 calls ++
        (if analyze = true then DCU_analyzeMemory_events st else []))
      (if analyze = true then (DCU_analyzeMemory st).DCU_problems else st.DCU_problems) := by
    rw [hempty] at hacc
    cases analyze with
    | false =>
      simp only [Bool.false_eq_true, if_false, List.append_nil]
      exact hacc
    | true =>
      simp only [if_true]
      exact DCU_accounts_trans _ _ _ _ _ hacc (DCU_accounts_analyzeMemory st)
  obtain ⟨hc, hn⟩ := hall t a d
  have hc0 : DCU_problemCount [] t a d = 0 := rfl
  have hn0 : DCU_problemNodes [] t a d = 0 := rfl
  rw [hc0] at hc
  rw [hn0] at hn
  rw [hc, hn]
  have hmem := @List.count_pos_iff _ _ _ (t, a, d) (DCU_events ft st0 calls ++
        (if analyze = true then DCU_analyzeMemory_events st else []))
  rw [← hmem]
  clear hc hn hall hacc hmem hc0 hn0
  generalize List.count (t, a, d) (DCU_events ft st0 calls ++
        (if analyze = true then DCU_analyzeMemory_events st else [])) = k
  by_cases hk : k = 0
  · subst hk
    simp
  · have hpos : 0 < k := Nat.pos_of_ne_zero hk
    simp [hk, hpos]

theorem DCU_sample_started_eq :
    ( DCU_initialize DCU_sample_features DCU_sample_environment DCU_sample_boot) =
      some DCU_sample_started := by
  rfl

theorem DCU_sample_calls_events :
    DCU_events DCU_sample_features DCU_sample_started DCU_sample_calls =
      [(DCU_RequestZeroMemoryType,
          DCU_createStackTrace DCU_sample_environment.stack DCU_sample_environment.backtrace,
          DCU_null_stack),
       (DCU_RequestZeroMemoryType,
          DCU_createStackTrace DCU_sample_environment.stack DCU_sample_environment.backtrace,
          DCU_null_stack),
       (DCU_MismatchOperationType,
          DCU_createStackTrace DCU_null_stack DCU_sample_environment.backtrace,
          DCU_createStackTrace DCU_sample_environment2.stack
            DCU_sample_environment2.backtrace)] := by
  rfl

theorem DCU_registry_dedup_witness :
    (DCU_STATE DCU_sample_started DCU_INITIALIZED ≠ 0 ∧
      DCU_sample_started.DCU_problems = []) ∧
    ∃ st outs, DCU_run DCU_sample_features DCU_sample_started DCU_sample_calls =
        some (st, outs) ∧
      DCU_problemNodes (DCU_analyzeMemory st).DCU_problems DCU_RequestZeroMemoryType
        (DCU_createStackTrace DCU_sample_environment.stack DCU_sample_environment.backtrace)
        DCU_null_stack = 1 ∧
      DCU_problemCount (DCU_analyzeMemory st).DCU_problems DCU_RequestZeroMemoryType
        (DCU_createStackTrace DCU_sample_environment.stack DCU_sample_environment.backtrace)
        DCU_null_stack = 2 := by
  have hinit : DCU_STATE DCU_sample_started DCU_INITIALIZED ≠ 0 := by decide
  refine ⟨⟨hinit, rfl⟩, ?_⟩
  have hsome : (DCU_run DCU_sample_features DCU_sample_started DCU_sample_calls).isSome
      = true := by rfl
  obtain ⟨⟨st, outs⟩, hrun⟩ := Option.isSome_iff_exists.mp hsome
  refine ⟨st, outs, hrun, ?_⟩
  obtain ⟨_, hnodes, hcount⟩ := DCU_registry_dedup DCU_sample_features DCU_sample_calls
    DCU_sample_started st outs true hinit rfl hrun DCU_RequestZeroMemoryType
    (DCU_createStackTrace DCU_sample_environment.stack DCU_sample_environment.backtrace)
    DCU_null_stack
  simp only [if_true] at hnodes hcount
  have hleak : List.count (DCU_RequestZeroMemoryType,
      DCU_createStackTrace DCU_sample_environment.stack DCU_sample_environment.backtrace,
      DCU_null_stack) (DCU_analyzeMemory_events st) = 0 := by
    rw [List.count_eq_zero]
    intro hmem
    unfold DCU_analyzeMemory_events at hmem
    obtain ⟨op, _, hop⟩ := List.mem_map.mp hmem
    have h1 : DCU_LeakType = DCU_RequestZeroMemoryType := congrArg Prod.fst hop
    exact absurd h1 (by decide)
  constructor
  · rw [hnodes, DCU_sample_calls_events]
    simp
  · rw [hcount, List.count_append, hleak, DCU_sample_calls_events]
    have hne : ¬ ((DCU_MismatchOperationType,
        DCU_createStackTrace DCU_null_stack DCU_sample_environment.backtrace,
        DCU_createStackTrace DCU_sample_environment2.stack DCU_sample_environment2.backtrace)
        = (DCU_RequestZeroMemoryType,
        DCU_createStackTrace DCU_sample_environment.stack DCU_sample_environment.backtrace,
        DCU_null_stack)) := by
      intro h
      have h1 : DCU_MismatchOperationType = DCU_RequestZeroMemoryType := congrArg Prod.fst h
      exact absurd h1 (by decide)
    simp [List.count_cons, hne, WORD]

/-! ## Stack capture -/

/-- What `DCU_createStackTrace` leaves in the output array: the frames written by
`backtrace`, a zero in slot 0 when no frame was written, and the former content in every
other slot. -/
theorem DCU_createStackTrace_slots (stack : DCU_Stack) (bt : List Nat) (i : Fin 8) :
    (∀ h : i.val < bt.length, DCU_createStackTrace stack bt i = bt.get ⟨i.val, h⟩) ∧
    (bt.length ≤ i.val → i.val < 1 → DCU_createStackTrace stack bt i = 0) ∧
    (bt.length ≤ i.val → 1 ≤ i.val → DCU_createStackTrace stack bt i = stack i) := by
  unfold DCU_createStackTrace
  refine ⟨?_, ?_, ?_⟩
  · intro h
    rw [dif_pos h]
  · intro h1 h2
    rw [dif_neg (by omega), if_pos h2]
  · intro h1 h2
    rw [dif_neg (by omega), if_neg (by omega)]

/-- C16: with an output array that holds 7 in every slot and a `backtrace` that writes the two
frames 101 and 102, `DCU_createStackTrace` leaves the frames in slots 0 and 1 and the value 7,
not zero, in each of the slots 2 to 7. -/
theorem DCU_createStackTrace_keeps_garbage :
    DCU_createStackTrace DCU_sample_garbage [101, 102] 0 = 101 ∧
    DCU_createStackTrace DCU_sample_garbage [101, 102] 1 = 102 ∧
    (∀ i : Fin 8, 2 ≤ i.val → DCU_createStackTrace DCU_sample_garbage [101, 102] i = 7) ∧
    ¬ (∀ i : Fin 8, 2 ≤ i.val → DCU_createStackTrace DCU_sample_garbage [101, 102] i = 0) := by
  refine ⟨rfl, rfl, ?_, ?_⟩
  · intro i hi
    exact (DCU_createStackTrace_slots DCU_sample_garbage [101, 102] i).2.2 hi (by omega)
  · intro h
    have h2 := h 2 (by decide)
    have h7 := (DCU_createStackTrace_slots DCU_sample_garbage [101, 102] 2).2.2
      (by decide) (by decide)
    rw [h7] at h2
    exact absurd h2 (by decide)

/-! ## Initialisation -/

/-- When `fopen` returns the null stream during the first initialisation, the test
`DCU_stream < 0` is false and the initialiser goes on to `fileno(DCU_stream)`: it does not
return. -/
theorem DCU_initialize_null_stream (ft : DCU_Features) (env : DCU_Environment) (st : DCU_State)
    (hcold : DCU_STATE st DCU_INITIALIZED = 0) (hopen : env.fopen = 0) :
    ( DCU_initialize ft env st) = none := by
  unfold DCU_initialize
  rw [if_neg (by rw [hcold]; exact fun h => h rfl)]
  dsimp only
  split_ifs <;> first | rfl | contradiction

/-- C18: from the zero-initialised globals, with a `fopen` that returns the null stream,
`DCU_initialize` does not complete: no state with the fallback stream and the flags set is
produced. -/
theorem DCU_initialize_fopen_failure :
    ( DCU_initialize DCU_sample_features DCU_sample_environment_nofile DCU_sample_boot) = none ∧
    DCU_sample_environment_nofile.fopen = 0 ∧
    DCU_STATE DCU_sample_boot DCU_INITIALIZED = 0 ∧
    ¬ (∃ st, ( DCU_initialize DCU_sample_features DCU_sample_environment_nofile
        DCU_sample_boot) = some st ∧ st.DCU_stream = DCU_sample_environment_nofile.stdout ∧
        DCU_STATE st DCU_TRACING ≠ 0 ∧ DCU_STATE st DCU_INITIALIZED ≠ 0) := by
  have h := DCU_initialize_null_stream DCU_sample_features DCU_sample_environment_nofile
    DCU_sample_boot rfl rfl
  refine ⟨h, rfl, rfl, ?_⟩
  rintro ⟨st, hst, -⟩
  rw [h] at hst
  exact absurd hst (by simp)

/-! ## Shutdown -/

theorem DCU_foldl_frame {α β γ : Type} (f : β → α → β) (g : β → γ)
    (h : ∀ b a, g (f b a) = g b) (l : List α) (b : β) : g (l.foldl f b) = g b := by
  induction l generalizing b with
  | nil => rfl
  | cons a rest ih => rw [List.foldl_cons, ih, h]

/-- Everything but the written text is untouched by `DCU_write`. -/
theorem DCU_write_stats_frame (ft : DCU_Features) (env : DCU_Environment) (st : DCU_State)
    (message : String) :
    (DCU_write ft env st message).DCU_memory_stats = st.DCU_memory_stats ∧
    (DCU_write ft env st message).DCU_memory_stats_c = st.DCU_memory_stats_c ∧
    (DCU_write ft env st message).DCU_memory_stats_new = st.DCU_memory_stats_new ∧
    (DCU_write ft env st message).DCU_memory_stats_new_array = st.DCU_memory_stats_new_array ∧
    (DCU_write ft env st message).DCU_stream = st.DCU_stream ∧
    (DCU_write ft env st message).heap = st.heap := by
  unfold DCU_write
  dsimp only
  split_ifs <;> exact ⟨rfl, rfl, rfl, rfl, rfl, rfl⟩

theorem DCU_reportMemoryStatus_frame (ft : DCU_Features) (env : DCU_Environment)
    (st : DCU_State) :
    (DCU_reportMemoryStatus ft env st).DCU_flags = st.DCU_flags ∧
    (DCU_reportMemoryStatus ft env st).DCU_problems = st.DCU_problems ∧
    (DCU_reportMemoryStatus ft env st).DCU_memory = st.DCU_memory ∧
    (DCU_reportMemoryStatus ft env st).DCU_memory_stats = st.DCU_memory_stats := by
  unfold DCU_reportMemoryStatus
  refine ⟨?_, ?_, ?_, ?_⟩
  · exact DCU_foldl_frame _ (fun s => s.DCU_flags)
      (fun b a => (DCU_write_frame ft env b a).1) _ st
  · exact DCU_foldl_frame _ (fun s => s.DCU_problems)
      (fun b a => (DCU_write_frame ft env b a).2.1) _ st
  · exact DCU_foldl_frame _ (fun s => s.DCU_memory)
      (fun b a => (DCU_write_frame ft env b a).2.2) _ st
  · exact DCU_foldl_frame _ (fun s => s.DCU_memory_stats)
      (fun b a => (DCU_write_stats_frame ft env b a).1) _ st

theorem DCU_emptyMemory_fold_frame (l : List Nat) (st : DCU_State) :
    (l.foldl (fun st i => { st with DCU_memory :=
      (Function.update st.DCU_memory i (DCU_emptyOperationList (st.DCU_memory i))) })
      st).DCU_flags = st.DCU_flags ∧
    (l.foldl (fun st i => { st with DCU_memory :=
      (Function.update st.DCU_memory i (DCU_emptyOperationList (st.DCU_memory i))) })
      st).DCU_problems = st.DCU_problems ∧
    (l.foldl (fun st i => { st with DCU_memory :=
      (Function.update st.DCU_memory i (DCU_emptyOperationList (st.DCU_memory i))) })
      st).DCU_memory_stats = st.DCU_memory_stats := by
  induction l generalizing st with
  | nil => exact ⟨rfl, rfl, rfl⟩
  | cons i rest ih =>
    rw [List.foldl_cons]
    obtain ⟨h1, h2, h3⟩ := ih ({ st with DCU_memory :=
      (Function.update st.DCU_memory i (DCU_emptyOperationList (st.DCU_memory i))) })
    exact ⟨h1, h2, h3⟩

theorem DCU_emptyMemory_frame (st : DCU_State) :
    (DCU_emptyMemory st).DCU_flags = st.DCU_flags ∧
    (DCU_emptyMemory st).DCU_problems = st.DCU_problems ∧
    (DCU_emptyMemory st).DCU_memory_stats = st.DCU_memory_stats :=
  DCU_emptyMemory_fold_frame (List.range DCU_HASH_TABLE_SIZE) st

theorem DCU_analyzeMemory_flags (st : DCU_State) :
    (DCU_analyzeMemory st).DCU_flags = st.DCU_flags := by
  unfold DCU_analyzeMemory
  dsimp only
  exact DCU_foldl_frame DCU_analyzeMemory_stats (fun s => s.DCU_flags)
    (fun b a => by cases a <;> rfl) _ st

theorem DCU_STATE_initialized_iff (st : DCU_State) :
    DCU_STATE st DCU_INITIALIZED ≠ 0 ↔ st.DCU_flags.testBit 0 = true := by
  show st.DCU_flags &&& 1 ≠ 0 ↔ _
  rw [Nat.and_one_is_mod]
  simp [Nat.testBit_zero]

theorem DCU_STATE_tracing_iff (st : DCU_State) :
    DCU_STATE st DCU_TRACING = 0 ↔ st.DCU_flags.testBit 1 = false := by
  show st.DCU_flags &&& 2 = 0 ↔ _
  constructor
  · intro h
    have := congrArg (fun y => y.testBit 1) h
    simpa [Nat.testBit_and, show Nat.testBit 2 1 = true by decide] using this
  · intro h
    apply Nat.eq_of_testBit_eq
    intro i
    rw [Nat.testBit_and, Nat.zero_testBit]
    by_cases hi : i = 1
    · subst hi; rw [h]; rfl
    · have h2 : Nat.testBit 2 i = false := by
        have := @Nat.testBit_two_pow 1 i
        simp only [pow_one] at this
        rw [this]; simp; omega
      rw [h2]; simp

theorem DCU_shutdown_stream_flags (env : DCU_Environment) (st : DCU_State) :
    (DCU_shutdown_stream env st).DCU_flags = st.DCU_flags := by
  unfold DCU_shutdown_stream
  split_ifs <;> rfl

theorem DCU_SET_FLAG_flags (st : DCU_State) (flag : Nat) :
    (DCU_SET_FLAG st flag).DCU_flags = st.DCU_flags ||| flag := rfl

theorem DCU_shutdown_problems_flags (st : DCU_State) :
    (DCU_shutdown_problems st).DCU_flags = st.DCU_flags := rfl

theorem DCU_CLEAR_FLAG_flags (st : DCU_State) (flag : Nat) :
    (DCU_CLEAR_FLAG st flag).DCU_flags = (st.DCU_flags &&& (255 - flag % 256)) % 256 := rfl

/-- The flags after a shutdown that runs: `DCU_TRACING` cleared, `DCU_FINISHED` set. -/
theorem DCU_shutdown_flags (ft : DCU_Features) (env : DCU_Environment) (st : DCU_State)
    (hinit : DCU_STATE st DCU_INITIALIZED ≠ 0) (hrun : DCU_STATE st DCU_FINISHED = 0) :
    ∃ st1, DCU_shutdown ft env st = some st1 ∧
      st1.DCU_flags = ((st.DCU_flags &&& (255 - 2 % 256)) % 256) ||| 4 := by
  unfold DCU_shutdown
  rw [if_pos hrun, if_neg hinit]
  refine ⟨_, rfl, ?_⟩
  rw [DCU_SET_FLAG_flags, DCU_shutdown_stream_flags, DCU_shutdown_problems_flags,
    (DCU_emptyMemory_frame _).1, (DCU_reportMemoryStatus_frame _ _ _).1,
    DCU_analyzeMemory_flags, DCU_CLEAR_FLAG_flags]
  rfl

/-- A state produced by `DCU_shutdown` from an initialised state is initialised; when the
shutdown ran (the state was not finished before), tracing is off in it. -/
theorem DCU_shutdown_state (ft : DCU_Features) (env : DCU_Environment) (st st1 : DCU_State)
    (hinit : DCU_STATE st DCU_INITIALIZED ≠ 0) (h : DCU_shutdown ft env st = some st1) :
    DCU_STATE st1 DCU_INITIALIZED ≠ 0 ∧
    (DCU_STATE st DCU_FINISHED = 0 → DCU_STATE st1 DCU_TRACING = 0) := by
  have h256 : (256 : Nat) = 2 ^ 8 := by norm_num
  by_cases hrun : DCU_STATE st DCU_FINISHED = 0
  · obtain ⟨st2, h2, hflags⟩ := DCU_shutdown_flags ft env st hinit hrun
    rw [h2] at h
    have h12 : st2 = st1 := Option.some.inj h
    subst h12
    refine ⟨?_, fun _ => ?_⟩
    · rw [DCU_STATE_initialized_iff] at hinit ⊢
      rw [hflags, Nat.testBit_or, h256, Nat.testBit_mod_two_pow, Nat.testBit_and, hinit]
      decide
    · rw [DCU_STATE_tracing_iff, hflags, Nat.testBit_or, h256, Nat.testBit_mod_two_pow,
        Nat.testBit_and]
      have h1 : Nat.testBit (255 - 2 % 2 ^ 8) 1 = false := by decide
      have h4 : Nat.testBit 4 1 = false := by decide
      rw [h1, h4]
      simp
  · unfold DCU_shutdown at h
    rw [if_neg hrun] at h
    have h12 : st = st1 := Option.some.inj h
    subst h12
    exact ⟨hinit, fun h0 => absurd h0 hrun⟩

/-- C17: in every state in which `DCU_INITIALIZED` is set, in every state that `DCU_shutdown`
produces from such a state, and in every state that `DCU_initialize` itself has produced,
`DCU_initialize` returns with the state unchanged: flags, statistics, table, registry, stream
and log are what they were. -/
theorem DCU_initialize_idempotent (ft : DCU_Features) (env : DCU_Environment) (st : DCU_State)
    (h : DCU_STATE st DCU_INITIALIZED ≠ 0 ∨
      (∃ env0 st0, DCU_STATE st0 DCU_INITIALIZED ≠ 0 ∧ DCU_shutdown ft env0 st0 = some st) ∨
      (∃ env0 st0, ( DCU_initialize ft env0 st0) = some st)) :
    ( DCU_initialize ft env st) = some st := by
  apply DCU_initialize_initialized
  rcases h with h | ⟨env0, st0, h0, hs⟩ | ⟨env0, st0, hi⟩
  · exact h
  · exact (DCU_shutdown_state ft env0 st0 st h0 hs).1
  · by_cases hcold : DCU_STATE st0 DCU_INITIALIZED = 0
    · exact (DCU_initialize_fresh ft env0 st0 st hcold hi).1
    · rw [DCU_initialize_initialized ft env0 st0 hcold] at hi
      have h12 : st0 = st := Option.some.inj hi
      subst h12
      exact hcold

theorem DCU_initialize_idempotent_witness :
    ( DCU_initialize DCU_sample_features DCU_sample_environment2 DCU_sample_started) =
      some DCU_sample_started :=
  DCU_initialize_idempotent DCU_sample_features DCU_sample_environment2 DCU_sample_started
    (Or.inr (Or.inr ⟨DCU_sample_environment, DCU_sample_boot, DCU_sample_started_eq⟩))

/-! ## Statistics of a release -/

theorem DCU_removeMemory_stats (st : DCU_State) (o : Option DCU_OperationInfo) :
    (DCU_removeMemory st o).DCU_memory_stats = st.DCU_memory_stats ∧
    (DCU_removeMemory st o).DCU_memory_stats_c = st.DCU_memory_stats_c ∧
    (DCU_removeMemory st o).DCU_memory_stats_new = st.DCU_memory_stats_new ∧
    (DCU_removeMemory st o).DCU_memory_stats_new_array = st.DCU_memory_stats_new_array ∧
    (DCU_removeMemory st o).DCU_flags = st.DCU_flags := by
  cases o <;> exact ⟨rfl, rfl, rfl, rfl, rfl⟩

/-- The idiom at a signature that has no node: the new node is linked at the head. -/
theorem DCU_recordEvent_absent (l : List DCU_ProblemInfo) (e : DCU_Event)
    (h : ∀ p ∈ l, DCU_signature p ≠ e) :
    DCU_recordEvent l e =
      { type := e.1, size := 0, count := 1, total_memory := 0,
        allocation_stack := e.2.1, deallocation_stack := e.2.2 } :: l := by
  obtain ⟨t, a, d⟩ := e
  unfold DCU_recordEvent
  rcases DCU_registerProblem_cases l t a d
      { type := t, size := 0, count := 0, total_memory := 0,
        allocation_stack := a, deallocation_stack := d } DCU_countProblem with
    ⟨pre, p, post, hl, -, hp, -⟩ | ⟨-, hr⟩
  · exact absurd hp (h p (by rw [hl]; simp))
  · rw [hr]
    rfl

theorem DCU_problemCount_recordEvent_same (l : List DCU_ProblemInfo) (t : DCU_ProblemType)
    (a d : DCU_Stack) :
    DCU_problemCount (DCU_recordEvent l (t, a, d)) t a d =
      (DCU_problemCount l t a d + 1) % WORD :=
  DCU_problemCount_register_same l t a d
    { type := t, size := 0, count := 0, total_memory := 0,
      allocation_stack := a, deallocation_stack := d } rfl rfl

theorem DCU_problemCount_recordEvent_other (l : List DCU_ProblemInfo) (t t' : DCU_ProblemType)
    (a d a' d' : DCU_Stack) (hne : (t', a', d') ≠ (t, a, d)) :
    DCU_problemCount (DCU_recordEvent l (t, a, d)) t' a' d' = DCU_problemCount l t' a' d' :=
  DCU_problemCount_register_other l t a d
    { type := t, size := 0, count := 0, total_memory := 0,
      allocation_stack := a, deallocation_stack := d } DCU_countProblem
    DCU_countProblem_signature rfl t' a' d' hne

theorem DCU_problemFor_recordEvent_other (l : List DCU_ProblemInfo) (t t' : DCU_ProblemType)
    (a d a' d' : DCU_Stack) (hne : (t', a', d') ≠ (t, a, d)) :
    DCU_problemFor (DCU_recordEvent l (t, a, d)) t' a' d' = DCU_problemFor l t' a' d' :=
  DCU_problemFor_register_other l t a d
    { type := t, size := 0, count := 0, total_memory := 0,
      allocation_stack := a, deallocation_stack := d } DCU_countProblem
    DCU_countProblem_signature rfl t' a' d' hne

/-- C19: with tracing enabled and the abort-on-overwrite switch off, the release of a tracked
block whose canary bytes are corrupted, with a release kind that does not pair with the
allocating kind, returns after applying the registration idiom twice with the key (block's
allocation stack, current stack): first for Memory Over-Write, then for Mismatch.  Each of
the two counts grows by one, every other signature is as before, and when neither signature
had a node the Mismatch node is linked in front of the Memory Over-Write node. -/
theorem DCU_releaseMemory_both_defects (ft : DCU_Features) (env : DCU_Environment)
    (st : DCU_State) (type : DCU_DynamicOperationType) (pointer : Nat)
    (operation : DCU_OperationInfo)
    (hinit : DCU_STATE st DCU_INITIALIZED ≠ 0) (htracing : DCU_STATE st DCU_TRACING ≠ 0)
    (hpointer : pointer ≠ 0) (hfind : DCU_findMemory st pointer = some operation)
    (habort : ft.DCU_ABORT_ON_MEMORY_OVERWRITE = false)
    (hcorrupt : ∃ i, i < 4 ∧
      st.heap (ptr_add (ptr_add pointer operation.size) i) ≠ OVERWRITE_DETECTION_DATA i)
    (hkinds : ¬ ((operation.type = DCU_NewType ∧ type = DCU_DeleteType) ∨
        (operation.type = DCU_NewArrayType ∧ type = DCU_DeleteArrayType) ∨
        ((operation.type = DCU_MallocType ∨ operation.type = DCU_CallocType ∨
            operation.type = DCU_ReallocType) ∧ type = DCU_FreeType))) :
    ∃ st', DCU_releaseMemory ft env st type pointer = DCU_Outcome.returned st' ∧
      DCU_releaseMemory_events ft env st type pointer =
        [(DCU_MemoryOverWriteType, operation.stack,
            DCU_createStackTrace env.stack env.backtrace),
         (DCU_MismatchOperationType, operation.stack,
            DCU_createStackTrace env.stack env.backtrace)] ∧
      st'.DCU_problems =
        DCU_recordEvent
          (DCU_recordEvent st.DCU_problems (DCU_MemoryOverWriteType, operation.stack,
            DCU_createStackTrace env.stack env.backtrace))
          (DCU_MismatchOperationType, operation.stack,
            DCU_createStackTrace env.stack env.backtrace) ∧
      DCU_problemCount st'.DCU_problems DCU_MemoryOverWriteType operation.stack
          (DCU_createStackTrace env.stack env.backtrace) =
        (DCU_problemCount st.DCU_problems DCU_MemoryOverWriteType operation.stack
          (DCU_createStackTrace env.stack env.backtrace) + 1) % WORD ∧
      DCU_problemCount st'.DCU_problems DCU_MismatchOperationType operation.stack
          (DCU_createStackTrace env.stack env.backtrace) =
        (DCU_problemCount st.DCU_problems DCU_MismatchOperationType operation.stack
          (DCU_createStackTrace env.stack env.backtrace) + 1) % WORD ∧
      (∀ t a d,
        (t, a, d) ≠ (DCU_MemoryOverWriteType, operation.stack,
          DCU_createStackTrace env.stack env.backtrace) →
        (t, a, d) ≠ (DCU_MismatchOperationType, operation.stack,
          DCU_createStackTrace env.stack env.backtrace) →
        DCU_problemFor st'.DCU_problems t a d = DCU_problemFor st.DCU_problems t a d) ∧
      ((∀ p ∈ st.DCU_problems,
          DCU_signature p ≠ (DCU_MemoryOverWriteType, operation.stack,
            DCU_createStackTrace env.stack env.backtrace) ∧
          DCU_signature p ≠ (DCU_MismatchOperationType, operation.stack,
            DCU_createStackTrace env.stack env.backtrace)) →
        st'.DCU_problems =
          { type := DCU_MismatchOperationType, size := 0, count := 1, total_memory := 0,
            allocation_stack := operation.stack,
            deallocation_stack := DCU_createStackTrace env.stack env.backtrace } ::
          { type := DCU_MemoryOverWriteType, size := 0, count := 1, total_memory := 0,
            allocation_stack := operation.stack,
            deallocation_stack := DCU_createStackTrace env.stack env.backtrace } ::
          st.DCU_problems) := by
  have hcmp : memcmp st.heap (ptr_add pointer operation.size) OVERWRITE_DETECTION_DATA
      OVERWRITE_DETECTION_DATA_SIZE = true :=
    (memcmp_eq_true_iff _ _ _ _).mpr hcorrupt
  have hmm : DCU_mismatched_release type operation.type = true := by
    cases h : DCU_mismatched_release type operation.type
    · exact absurd ((DCU_mismatched_release_eq_false_iff type operation.type).mp h) hkinds
    · rfl
  have htr' : DCU_STATE st DCU_TRACING ≠ 0 := htracing
  have hev : DCU_releaseMemory_events ft env st type pointer =
      [(DCU_MemoryOverWriteType, operation.stack,
          DCU_createStackTrace env.stack env.backtrace),
       (DCU_MismatchOperationType, operation.stack,
          DCU_createStackTrace env.stack env.backtrace)] := by
    unfold DCU_releaseMemory_events
    simp only [ne_eq, hpointer, not_false_eq_true, if_true, hfind]
    rw [if_pos htr']
    simp only [hcmp, habort, hmm, if_true, Bool.false_eq_true, and_false, if_false]
    rfl
  have hret : ∃ st', DCU_releaseMemory ft env st type pointer = DCU_Outcome.returned st' := by
    unfold DCU_releaseMemory
    rw [DCU_initialize_initialized ft env st hinit]
    simp only [ne_eq, hpointer, not_false_eq_true, if_true, hfind]
    rw [if_pos htr']
    unfold DCU_releaseMemory_tracked
    simp only [hcmp, habort, Bool.false_eq_true, and_false, if_false]
    exact ⟨_, rfl⟩
  obtain ⟨st', hst'⟩ := hret
  have hp := (DCU_releaseMemory_records ft env st st' type pointer hinit hst').2
  rw [hev] at hp
  simp only [List.foldl_cons, List.foldl_nil] at hp
  have hne : (DCU_MemoryOverWriteType, operation.stack,
      DCU_createStackTrace env.stack env.backtrace) ≠
      (DCU_MismatchOperationType, operation.stack,
        DCU_createStackTrace env.stack env.backtrace) := by
    intro h
    have h1 : DCU_MemoryOverWriteType = DCU_MismatchOperationType := congrArg Prod.fst h
    exact absurd h1 (by decide)
  refine ⟨st', hst', hev, hp, ?_, ?_, ?_, ?_⟩
  · rw [hp, DCU_problemCount_recordEvent_other _ _ _ _ _ _ _ hne,
      DCU_problemCount_recordEvent_same]
  · rw [hp, DCU_problemCount_recordEvent_same,
      DCU_problemCount_recordEvent_other _ _ _ _ _ _ _ hne.symm]
  · intro t a d h1 h2
    rw [hp, DCU_problemFor_recordEvent_other _ _ _ _ _ _ _ h2,
      DCU_problemFor_recordEvent_other _ _ _ _ _ _ _ h1]
  · intro hno
    rw [hp, DCU_recordEvent_absent st.DCU_problems _ (fun p hpm => (hno p hpm).1)]
    refine DCU_recordEvent_absent _ _ ?_
    intro p hpm
    rcases List.mem_cons.mp hpm with h | h
    · rw [h]
      exact hne
    · exact (hno p h).2

theorem DCU_releaseMemory_both_defects_witness :
    (DCU_STATE DCU_sample_overwritten DCU_TRACING ≠ 0 ∧
      DCU_findMemory DCU_sample_overwritten 4096 = some DCU_sample_block ∧
      DCU_sample_overwritten.heap (ptr_add (ptr_add 4096 DCU_sample_block.size) 0) = 107 ∧
      DCU_sample_block.type = DCU_NewArrayType) ∧
    ∃ st', DCU_releaseMemory DCU_sample_features DCU_sample_environment
        DCU_sample_overwritten DCU_FreeType 4096 = DCU_Outcome.returned st' ∧
      st'.DCU_problems =
        [{ type := DCU_MismatchOperationType, size := 0, count := 1, total_memory := 0,
           allocation_stack := DCU_sample_block.stack,
           deallocation_stack := DCU_createStackTrace DCU_sample_environment.stack
             DCU_sample_environment.backtrace },
         { type := DCU_MemoryOverWriteType, size := 0, count := 1, total_memory := 0,
           allocation_stack := DCU_sample_block.stack,
           deallocation_stack := DCU_createStackTrace DCU_sample_environment.stack
             DCU_sample_environment.backtrace }] := by
  have hinit : DCU_STATE DCU_sample_overwritten DCU_INITIALIZED ≠ 0 := by decide
  have htr : DCU_STATE DCU_sample_overwritten DCU_TRACING ≠ 0 := by decide
  have hfind : DCU_findMemory DCU_sample_overwritten 4096 = some DCU_sample_block := by rfl
  have hbyte : DCU_sample_overwritten.heap (ptr_add (ptr_add 4096 DCU_sample_block.size) 0)
      = 107 := by rfl
  refine ⟨⟨htr, hfind, hbyte, rfl⟩, ?_⟩
  obtain ⟨st', hrel, _, _, _, _, _, hnew⟩ := DCU_releaseMemory_both_defects
    DCU_sample_features DCU_sample_environment DCU_sample_overwritten DCU_FreeType
    4096 DCU_sample_block hinit htr (by decide) hfind rfl
    ⟨0, by decide, by rw [hbyte]; decide⟩ (by simp [DCU_sample_block])
  refine ⟨st', hrel, ?_⟩
  rw [hnew (fun p hp => absurd hp (by simp [DCU_sample_overwritten, DCU_sample_state]))]
  rfl

/-! ## Release of an address that is not tracked -/

/-- C11: with tracing enabled, a release (of any kind) of a non-null address that
`DCU_findMemory` does not find ends in a state (the call returns, or enters `DCU_abort` when
the abort switch is compiled in) in which the node of signature (Release Unallocated,
all-zero allocation stack, current stack) has its count increased by one, starting from a zero
node when absent; every node of another signature is as before, in the same order, and the
table, the operation statistics and the balance records are as before. -/
theorem DCU_releaseMemory_untracked_frame (ft : DCU_Features) (env : DCU_Environment)
    (st : DCU_State) (type : DCU_DynamicOperationType) (pointer : Nat)
    (hinit : DCU_STATE st DCU_INITIALIZED ≠ 0) (htracing : DCU_STATE st DCU_TRACING ≠ 0)
    (hpointer : pointer ≠ 0) (hfind : DCU_findMemory st pointer = none) :
    ∃ st', (DCU_releaseMemory ft env st type pointer).state = some st' ∧
      (ft.DCU_ABORT_ON_RELEASE_NOT_REQUESTED_MEMORY = false →
        DCU_releaseMemory ft env st type pointer = DCU_Outcome.returned st') ∧
      DCU_problemFor st'.DCU_problems DCU_ReleaseUnallocatedType DCU_null_stack
          (DCU_createStackTrace env.stack env.backtrace) =
        some (DCU_countProblem
          ((DCU_problemFor st.DCU_problems DCU_ReleaseUnallocatedType DCU_null_stack
              (DCU_createStackTrace env.stack env.backtrace)).getD
            { type := DCU_ReleaseUnallocatedType, size := 0, count := 0, total_memory := 0,
              allocation_stack := DCU_null_stack,
              deallocation_stack := DCU_createStackTrace env.stack env.backtrace })) ∧
      DCU_problemCount st'.DCU_problems DCU_ReleaseUnallocatedType DCU_null_stack
          (DCU_createStackTrace env.stack env.backtrace) =
        (DCU_problemCount st.DCU_problems DCU_ReleaseUnallocatedType DCU_null_stack
          (DCU_createStackTrace env.stack env.backtrace) + 1) % WORD ∧
      (∀ t a d, (t, a, d) ≠ (DCU_ReleaseUnallocatedType, DCU_null_stack,
            DCU_createStackTrace env.stack env.backtrace) →
          DCU_problemFor st'.DCU_problems t a d = DCU_problemFor st.DCU_problems t a d) ∧
      st'.DCU_problems.filter (fun p => decide (DCU_signature p ≠
          (DCU_ReleaseUnallocatedType, DCU_null_stack,
            DCU_createStackTrace env.stack env.backtrace))) =
        st.DCU_problems.filter (fun p => decide (DCU_signature p ≠
          (DCU_ReleaseUnallocatedType, DCU_null_stack,
            DCU_createStackTrace env.stack env.backtrace))) ∧
      st'.DCU_memory = st.DCU_memory ∧
      st'.DCU_memory_stats = st.DCU_memory_stats ∧
      st'.DCU_memory_stats_c = st.DCU_memory_stats_c ∧
      st'.DCU_memory_stats_new = st.DCU_memory_stats_new ∧
      st'.DCU_memory_stats_new_array = st.DCU_memory_stats_new_array := by
  have htr' : DCU_STATE st DCU_TRACING ≠ 0 := htracing
  have hrel : DCU_releaseMemory ft env st type pointer =
      DCU_releaseMemory_untracked ft env st := by
    unfold DCU_releaseMemory
    rw [DCU_initialize_initialized ft env st hinit]
    simp only [ne_eq, hpointer, not_false_eq_true, if_true, hfind]
    rw [if_pos htr']
  have hstate : ∃ st', (DCU_releaseMemory_untracked ft env st).state = some st' ∧
      (ft.DCU_ABORT_ON_RELEASE_NOT_REQUESTED_MEMORY = false →
        DCU_releaseMemory_untracked ft env st = DCU_Outcome.returned st') ∧
      st' = { st with DCU_problems :=
        (DCU_registerProblem st.DCU_problems DCU_ReleaseUnallocatedType DCU_null_stack
          (DCU_createStackTrace env.stack env.backtrace)
          { DCU_createProblem with type := DCU_ReleaseUnallocatedType
                                   deallocation_stack :=
                                     DCU_createStackTrace env.stack env.backtrace }
          DCU_countProblem) } := by
    unfold DCU_releaseMemory_untracked
    dsimp only
    cases ha : ft.DCU_ABORT_ON_RELEASE_NOT_REQUESTED_MEMORY
    · exact ⟨_, rfl, fun _ => rfl, rfl⟩
    · exact ⟨_, rfl, fun h => absurd h (by simp), rfl⟩
  obtain ⟨st', h1, h2, h3⟩ := hstate
  rw [hrel]
  subst h3
  refine ⟨_, h1, h2, ?_, ?_, ?_, ?_, rfl, rfl, rfl, rfl, rfl⟩
  · refine DCU_problemFor_register_same _ DCU_ReleaseUnallocatedType DCU_null_stack
      (DCU_createStackTrace env.stack env.backtrace) _ _ DCU_countProblem_signature ?_
    rfl
  · refine DCU_problemCount_register_same _ DCU_ReleaseUnallocatedType DCU_null_stack
      (DCU_createStackTrace env.stack env.backtrace) _ ?_ ?_ <;> rfl
  · intro t a d hne
    refine DCU_problemFor_register_other _ DCU_ReleaseUnallocatedType DCU_null_stack
      (DCU_createStackTrace env.stack env.backtrace) _ _ DCU_countProblem_signature ?_
      t a d hne
    rfl
  · refine DCU_registerProblem_filter_of _ _ DCU_ReleaseUnallocatedType DCU_null_stack
      (DCU_createStackTrace env.stack env.backtrace) _ _ ?_ DCU_countProblem_signature ?_
    · intro p hp
      simp [hp]
    · rfl

theorem DCU_releaseMemory_untracked_frame_witness :
    (DCU_STATE DCU_sample_state DCU_TRACING ≠ 0 ∧
      DCU_findMemory DCU_sample_state 4097 = none) ∧
    ∃ st', DCU_releaseMemory DCU_sample_features DCU_sample_environment DCU_sample_state
        DCU_DeleteArrayType 4097 = DCU_Outcome.returned st' ∧
      DCU_problemCount st'.DCU_problems DCU_ReleaseUnallocatedType DCU_null_stack
        (DCU_createStackTrace DCU_sample_environment.stack
          DCU_sample_environment.backtrace) = 1 ∧
      DCU_findMemory st' 4096 = some DCU_sample_block := by
  have hinit : DCU_STATE DCU_sample_state DCU_INITIALIZED ≠ 0 := by decide
  have htr : DCU_STATE DCU_sample_state DCU_TRACING ≠ 0 := by decide
  have hfind : DCU_findMemory DCU_sample_state 4097 = none := by rfl
  refine ⟨⟨htr, hfind⟩, ?_⟩
  obtain ⟨st', _, hret, _, hcount, _, _, hmem, _⟩ := DCU_releaseMemory_untracked_frame
    DCU_sample_features DCU_sample_environment DCU_sample_state DCU_DeleteArrayType 4097
    hinit htr (by decide) hfind
  refine ⟨st', hret rfl, ?_, ?_⟩
  · rw [hcount]
    rfl
  · unfold DCU_findMemory
    rw [hmem]
    rfl

/-! ## Release of the null pointer -/

/-- C12: a release of the null pointer returns; relative to the state in which the entry
check leaves the library (the state itself when it is initialised), the table, the operation
statistics, the balance records and the flags are unchanged.  When the kind is Free, the C
checks are compiled in and tracing is on, the node of signature (Free Null Pointer, all-zero
allocation stack, current stack) has its count increased by one (starting from a zero node
when absent) and every node of another signature is as before; in every other case the
registry is unchanged. -/
theorem DCU_releaseMemory_null_pointer (ft : DCU_Features) (env : DCU_Environment)
    (st st0 : DCU_State) (type : DCU_DynamicOperationType)
    (hentry : ( DCU_initialize ft env st) = some st0) :
    ∃ st', DCU_releaseMemory ft env st type 0 = DCU_Outcome.returned st' ∧
      st'.DCU_memory = st0.DCU_memory ∧
      st'.DCU_memory_stats = st0.DCU_memory_stats ∧
      st'.DCU_memory_stats_c = st0.DCU_memory_stats_c ∧
      st'.DCU_memory_stats_new = st0.DCU_memory_stats_new ∧
      st'.DCU_memory_stats_new_array = st0.DCU_memory_stats_new_array ∧
      st'.DCU_flags = st0.DCU_flags ∧
      ((type = DCU_FreeType ∧ ft.DCU_C_MEMORY_CHECK = true ∧ DCU_STATE st0 DCU_TRACING ≠ 0) →
        DCU_problemCount st'.DCU_problems DCU_FreeNullType DCU_null_stack
            (DCU_createStackTrace env.stack env.backtrace) =
          (DCU_problemCount st0.DCU_problems DCU_FreeNullType DCU_null_stack
            (DCU_createStackTrace env.stack env.backtrace) + 1) % WORD ∧
        DCU_problemNodes st'.DCU_problems DCU_FreeNullType DCU_null_stack
            (DCU_createStackTrace env.stack env.backtrace) =
          (if DCU_problemNodes st0.DCU_problems DCU_FreeNullType DCU_null_stack
              (DCU_createStackTrace env.stack env.backtrace) = 0 then 1
           else DCU_problemNodes st0.DCU_problems DCU_FreeNullType DCU_null_stack
              (DCU_createStackTrace env.stack env.backtrace)) ∧
        (∀ t a d, (t, a, d) ≠ (DCU_FreeNullType, DCU_null_stack,
              DCU_createStackTrace env.stack env.backtrace) →
            DCU_problemFor st'.DCU_problems t a d = DCU_problemFor st0.DCU_problems t a d) ∧
        st'.DCU_problems.filter (fun p => decide (DCU_signature p ≠
            (DCU_FreeNullType, DCU_null_stack,
              DCU_createStackTrace env.stack env.backtrace))) =
          st0.DCU_problems.filter (fun p => decide (DCU_signature p ≠
            (DCU_FreeNullType, DCU_null_stack,
              DCU_createStackTrace env.stack env.backtrace)))) ∧
      (¬ (type = DCU_FreeType ∧ ft.DCU_C_MEMORY_CHECK = true ∧
          DCU_STATE st0 DCU_TRACING ≠ 0) →
        st'.DCU_problems = st0.DCU_problems) := by
  unfold DCU_releaseMemory
  rw [hentry]
  simp only [ne_eq, not_true_eq_false, if_false]
  unfold DCU_releaseMemory_null
  by_cases hc : ft.DCU_C_MEMORY_CHECK = true ∧ type = DCU_FreeType
  · rw [if_pos hc]
    by_cases ht : DCU_STATE st0 DCU_TRACING = 0
    · rw [if_neg (fun h => h ht)]
      exact ⟨_, rfl, rfl, rfl, rfl, rfl, rfl, rfl,
        fun h => absurd ht h.2.2, fun _ => rfl⟩
    · rw [if_pos ht]
      refine ⟨_, rfl, rfl, rfl, rfl, rfl, rfl, rfl, fun _ => ⟨?_, ?_, ?_, ?_⟩,
        fun h => absurd ⟨hc.2, hc.1, ht⟩ h⟩
      · refine DCU_problemCount_register_same _ DCU_FreeNullType DCU_null_stack
          (DCU_createStackTrace env.stack env.backtrace) _ ?_ ?_ <;> rfl
      · refine DCU_problemNodes_register _ DCU_FreeNullType DCU_null_stack
          (DCU_createStackTrace env.stack env.backtrace) _ _ DCU_countProblem_signature ?_
        rfl
      · intro t a d hne
        refine DCU_problemFor_register_other _ DCU_FreeNullType DCU_null_stack
          (DCU_createStackTrace env.stack env.backtrace) _ _ DCU_countProblem_signature ?_
          t a d hne
        rfl
      · refine DCU_registerProblem_filter_of _ _ DCU_FreeNullType DCU_null_stack
          (DCU_createStackTrace env.stack env.backtrace) _ _ ?_ DCU_countProblem_signature rfl
        intro p hp
        simp [hp]
  · rw [if_neg hc]
    exact ⟨_, rfl, rfl, rfl, rfl, rfl, rfl, rfl,
      fun h => absurd ⟨h.2.1, h.1⟩ hc, fun _ => rfl⟩

theorem DCU_releaseMemory_null_pointer_witness :
    ( DCU_initialize DCU_sample_features DCU_sample_environment DCU_sample_state) =
      some DCU_sample_state ∧
    (∃ st', DCU_releaseMemory DCU_sample_features DCU_sample_environment DCU_sample_state
        DCU_FreeType 0 = DCU_Outcome.returned st' ∧
      st'.DCU_memory = DCU_sample_state.DCU_memory ∧
      DCU_problemCount st'.DCU_problems DCU_FreeNullType DCU_null_stack
        (DCU_createStackTrace DCU_sample_environment.stack
          DCU_sample_environment.backtrace) = 1) := by
  have hentry : ( DCU_initialize DCU_sample_features DCU_sample_environment DCU_sample_state)
      = some DCU_sample_state := by rfl
  refine ⟨hentry, ?_⟩
  obtain ⟨st', hret, hmem, _, _, _, _, _, hfree, _⟩ := DCU_releaseMemory_null_pointer
    DCU_sample_features DCU_sample_environment DCU_sample_state DCU_sample_state
    DCU_FreeType hentry
  refine ⟨st', hret, hmem, ?_⟩
  rw [(hfree ⟨rfl, rfl, by decide⟩).1]
  rfl

/-! ## Calls while tracing is off -/

theorem DCU_requestMemory_allocate_untraced (env : DCU_Environment) (st : DCU_State)
    (type : DCU_DynamicOperationType) (size pointer : Nat) (st1 : DCU_State) (out : Nat)
    (htr0 : DCU_STATE st DCU_TRACING = 0)
    (h : DCU_requestMemory_allocate env st type size pointer = some (st1, out)) :
    st1.DCU_flags = st.DCU_flags ∧ st1.DCU_problems = st.DCU_problems ∧
    st1.DCU_memory = st.DCU_memory ∧ st1.DCU_memory_stats = st.DCU_memory_stats ∧
    st1.DCU_memory_stats_c = st.DCU_memory_stats_c ∧
    st1.DCU_memory_stats_new = st.DCU_memory_stats_new ∧
    st1.DCU_memory_stats_new_array = st.DCU_memory_stats_new_array := by
  unfold DCU_requestMemory_allocate at h
  dsimp only at h
  split_ifs at h with h1 h2 hw h3 h4
  · simp only [Option.some.injEq, Prod.mk.injEq] at h
    obtain ⟨hs, -⟩ := h
    subst hs
    exact ⟨rfl, rfl, rfl, rfl, rfl, rfl, rfl⟩
  · simp only [Option.some.injEq, Prod.mk.injEq] at h
    obtain ⟨hs, -⟩ := h
    subst hs
    exact ⟨rfl, rfl, rfl, rfl, rfl, rfl, rfl⟩
  · unfold DCU_requestMemory_realloc at h
    simp only [htr0, ne_eq, not_true_eq_false, if_false, Option.some.injEq,
      Prod.mk.injEq] at h
    obtain ⟨hs, -⟩ := h
    subst hs
    exact ⟨rfl, rfl, rfl, rfl, rfl, rfl, rfl⟩
  · simp only [Option.some.injEq, Prod.mk.injEq] at h
    obtain ⟨hs, -⟩ := h
    subst hs
    exact ⟨rfl, rfl, rfl, rfl, rfl, rfl, rfl⟩

theorem DCU_requestMemory_register_untraced (env : DCU_Environment) (st : DCU_State)
    (type : DCU_DynamicOperationType) (size out : Nat)
    (htr0 : DCU_STATE st DCU_TRACING = 0) :
    (DCU_requestMemory_register env st type size out).DCU_flags = st.DCU_flags ∧
    (DCU_requestMemory_register env st type size out).DCU_problems = st.DCU_problems ∧
    (DCU_requestMemory_register env st type size out).DCU_memory = st.DCU_memory ∧
    (DCU_requestMemory_register env st type size out).DCU_memory_stats
      = st.DCU_memory_stats ∧
    (DCU_requestMemory_register env st type size out).DCU_memory_stats_c
      = st.DCU_memory_stats_c ∧
    (DCU_requestMemory_register env st type size out).DCU_memory_stats_new
      = st.DCU_memory_stats_new ∧
    (DCU_requestMemory_register env st type size out).DCU_memory_stats_new_array
      = st.DCU_memory_stats_new_array := by
  unfold DCU_requestMemory_register
  by_cases hout : out ≠ 0
  · rw [if_pos hout]
    have h2 : ¬ (DCU_STATE { st with heap := (memcpy st.heap (ptr_add out size)
        OVERWRITE_DETECTION_DATA OVERWRITE_DETECTION_DATA_SIZE) } DCU_TRACING ≠ 0) :=
      fun h => h htr0
    dsimp only
    rw [if_neg h2]
    exact ⟨rfl, rfl, rfl, rfl, rfl, rfl, rfl⟩
  · rw [if_neg hout]
    exact ⟨rfl, rfl, rfl, rfl, rfl, rfl, rfl⟩

/-- A request returns whenever the arena hands out a block, the kind is Calloc or Realloc, or
the request is one of the reported zero-sized ones. -/
theorem DCU_requestMemory_returns (ft : DCU_Features) (env : DCU_Environment) (st : DCU_State)
    (type : DCU_DynamicOperationType) (size pointer : Nat)
    (hinit : DCU_STATE st DCU_INITIALIZED ≠ 0)
    (h : (env.mspace_malloc ≠ 0 ∧ (type = DCU_CallocType →
        ¬ (size + OVERWRITE_DETECTION_DATA_SIZE) % WORD < size)) ∨
      (type = DCU_CallocType ∧ env.mspace_malloc = 0) ∨ type = DCU_ReallocType ∨
      (size = 0 ∧ (type = DCU_MallocType ∨ type = DCU_NewType ∨ type = DCU_NewArrayType))) :
    ∃ st' out, DCU_requestMemory ft env st type size pointer = some (st', out) := by
  unfold DCU_requestMemory
  rw [DCU_initialize_initialized ft env st hinit]
  dsimp only
  by_cases hz : size = 0 ∧ (type = DCU_CallocType ∨ type = DCU_MallocType ∨
      type = DCU_NewType ∨ type = DCU_NewArrayType)
  · rw [if_pos hz]
    exact ⟨_, _, rfl⟩
  · rw [if_neg hz]
    have hal : ∃ r, DCU_requestMemory_allocate env st type size pointer = some r := by
      unfold DCU_requestMemory_allocate
      dsimp only
      by_cases h1 : type = DCU_CallocType
      · rw [if_pos h1]
        by_cases h2 : env.mspace_malloc ≠ 0
        · rw [if_pos h2]
          by_cases hw : (size + OVERWRITE_DETECTION_DATA_SIZE) % WORD < size
          · exfalso
            rcases h with h | h | h | ⟨hs, h | h | h⟩
            · exact h.2 h1 hw
            · exact h2 h.2
            · rw [h1] at h
              exact absurd h (by decide)
            · exact hz ⟨hs, Or.inl h1⟩
            · exact hz ⟨hs, Or.inl h1⟩
            · exact hz ⟨hs, Or.inl h1⟩
          · rw [if_neg hw]
            exact ⟨_, rfl⟩
        · rw [if_neg h2]
          exact ⟨_, rfl⟩
      · rw [if_neg h1]
        by_cases h3 : type = DCU_ReallocType
        · rw [if_pos h3]
          exact ⟨_, rfl⟩
        · rw [if_neg h3]
          by_cases h4 : env.mspace_malloc = 0
          · exfalso
            rcases h with h | h | h | ⟨hs, h | h | h⟩
            · exact h.1 h4
            · exact h1 h.1
            · exact h3 h
            · exact hz ⟨hs, Or.inr (Or.inl h)⟩
            · exact hz ⟨hs, Or.inr (Or.inr (Or.inl h))⟩
            · exact hz ⟨hs, Or.inr (Or.inr (Or.inr h))⟩
          · rw [if_neg h4]
            exact ⟨_, rfl⟩
    obtain ⟨⟨sta, out⟩, hr⟩ := hal
    rw [hr]
    exact ⟨_, _, rfl⟩

/-- A request in an initialised state with tracing off leaves registry, table, statistics,
balance records and flags as they were. -/
theorem DCU_requestMemory_untraced (ft : DCU_Features) (env : DCU_Environment) (st : DCU_State)
    (type : DCU_DynamicOperationType) (size pointer : Nat) (st1 : DCU_State) (out : Nat)
    (hinit : DCU_STATE st DCU_INITIALIZED ≠ 0) (htr0 : DCU_STATE st DCU_TRACING = 0)
    (hreq : DCU_requestMemory ft env st type size pointer = some (st1, out)) :
    st1.DCU_flags = st.DCU_flags ∧ st1.DCU_problems = st.DCU_problems ∧
    st1.DCU_memory = st.DCU_memory ∧ st1.DCU_memory_stats = st.DCU_memory_stats ∧
    st1.DCU_memory_stats_c = st.DCU_memory_stats_c ∧
    st1.DCU_memory_stats_new = st.DCU_memory_stats_new ∧
    st1.DCU_memory_stats_new_array = st.DCU_memory_stats_new_array := by
  unfold DCU_requestMemory at hreq
  rw [DCU_initialize_initialized ft env st hinit] at hreq
  dsimp only at hreq
  split_ifs at hreq with hz
  · simp only [Option.some.injEq, Prod.mk.injEq] at hreq
    obtain ⟨hs, -⟩ := hreq
    subst hs
    unfold DCU_requestMemory_zero
    dsimp only
    rw [if_neg (fun h => h htr0)]
    exact ⟨rfl, rfl, rfl, rfl, rfl, rfl, rfl⟩
  · cases hal : DCU_requestMemory_allocate env st type size pointer with
    | none => rw [hal] at hreq; exact absurd hreq (by simp)
    | some r =>
      obtain ⟨sta, o⟩ := r
      rw [hal] at hreq
      simp only [Option.some.injEq, Prod.mk.injEq] at hreq
      obtain ⟨hst, -⟩ := hreq
      subst hst
      obtain ⟨a1, a2, a3, a4, a5, a6, a7⟩ :=
        DCU_requestMemory_allocate_untraced env st type size pointer sta o htr0 hal
      have htra : DCU_STATE sta DCU_TRACING = 0 := by
        unfold DCU_STATE
        rw [a1]
        exact htr0
      obtain ⟨r1, r2, r3, r4, r5, r6, r7⟩ :=
        DCU_requestMemory_register_untraced env sta type size o htra
      exact ⟨r1.trans a1, r2.trans a2, r3.trans a3, r4.trans a4, r5.trans a5, r6.trans a6,
        r7.trans a7⟩

/-- C13: in every state in which `DCU_INITIALIZED` is set and `DCU_TRACING` is clear, and in
every state that `DCU_shutdown` produces when it runs on an initialised state,
`DCU_releaseMemory` returns the state as it was, and `DCU_requestMemory` returns (whenever the
arena hands out a block whose `memset` stays inside it, for a Calloc that receives no block,
for Realloc, and for the reported zero-sized requests) in a state whose registry, table,
operation statistics, balance records and flags are as before. -/
theorem DCU_tracing_disabled_frame (ft : DCU_Features) (env : DCU_Environment)
    (st : DCU_State) (kind type : DCU_DynamicOperationType) (size pointer old : Nat)
    (h : (DCU_STATE st DCU_INITIALIZED ≠ 0 ∧ DCU_STATE st DCU_TRACING = 0) ∨
      (∃ env0 st0, DCU_STATE st0 DCU_INITIALIZED ≠ 0 ∧ DCU_STATE st0 DCU_FINISHED = 0 ∧
        DCU_shutdown ft env0 st0 = some st)) :
    DCU_releaseMemory ft env st kind pointer = DCU_Outcome.returned st ∧
    (∀ st' out, DCU_requestMemory ft env st type size old = some (st', out) →
      st'.DCU_problems = st.DCU_problems ∧ st'.DCU_memory = st.DCU_memory ∧
      st'.DCU_memory_stats = st.DCU_memory_stats ∧
      st'.DCU_memory_stats_c = st.DCU_memory_stats_c ∧
      st'.DCU_memory_stats_new = st.DCU_memory_stats_new ∧
      st'.DCU_memory_stats_new_array = st.DCU_memory_stats_new_array ∧
      st'.DCU_flags = st.DCU_flags) ∧
    (((env.mspace_malloc ≠ 0 ∧ (type = DCU_CallocType →
          ¬ (size + OVERWRITE_DETECTION_DATA_SIZE) % WORD < size)) ∨
        (type = DCU_CallocType ∧ env.mspace_malloc = 0) ∨ type = DCU_ReallocType ∨
        (size = 0 ∧ (type = DCU_MallocType ∨ type = DCU_NewType ∨ type = DCU_NewArrayType))) →
      ∃ st' out, DCU_requestMemory ft env st type size old = some (st', out)) := by
  have hoff : DCU_STATE st DCU_INITIALIZED ≠ 0 ∧ DCU_STATE st DCU_TRACING = 0 := by
    rcases h with h | ⟨env0, st0, h0, hf, hs⟩
    · exact h
    · obtain ⟨h1, h2⟩ := DCU_shutdown_state ft env0 st0 st h0 hs
      exact ⟨h1, h2 hf⟩
  obtain ⟨hinit, htr0⟩ := hoff
  refine ⟨?_, ?_, ?_⟩
  · unfold DCU_releaseMemory
    rw [DCU_initialize_initialized ft env st hinit]
    dsimp only
    by_cases hp : pointer ≠ 0
    · rw [if_pos hp, if_neg (fun h => h htr0)]
    · rw [if_neg hp]
      unfold DCU_releaseMemory_null
      split_ifs <;> first | rfl | contradiction
  · intro st' out hreq
    obtain ⟨r1, r2, r3, r4, r5, r6, r7⟩ :=
      DCU_requestMemory_untraced ft env st type size old st' out hinit htr0 hreq
    exact ⟨r2, r3, r4, r5, r6, r7, r1⟩
  · exact DCU_requestMemory_returns ft env st type size old hinit

theorem DCU_tracing_disabled_frame_witness :
    ∃ st, DCU_shutdown DCU_sample_features DCU_sample_environment DCU_sample_state = some st ∧
      DCU_releaseMemory DCU_sample_features DCU_sample_environment2 st DCU_DeleteArrayType 4096
        = DCU_Outcome.returned st ∧
      ∃ st' out, DCU_requestMemory DCU_sample_features DCU_sample_environment2 st
          DCU_NewArrayType 10 0 = some (st', out) ∧
        st'.DCU_problems = st.DCU_problems ∧ st'.DCU_memory = st.DCU_memory := by
  obtain ⟨st, hst, -⟩ := DCU_shutdown_flags DCU_sample_features DCU_sample_environment
    DCU_sample_state (by decide) (by decide)
  obtain ⟨hrel, hframe, hret⟩ := DCU_tracing_disabled_frame DCU_sample_features
    DCU_sample_environment2 st DCU_DeleteArrayType DCU_NewArrayType 10 4096 0
    (Or.inr ⟨DCU_sample_environment, DCU_sample_state, by decide, by decide, hst⟩)
  obtain ⟨st', out, hreq⟩ := hret (Or.inl ⟨by decide, fun h => absurd h (by decide)⟩)
  obtain ⟨h1, h2, -⟩ := hframe st' out hreq
  exact ⟨st, hst, hrel, st', out, hreq, h1, h2⟩

/-! ## Failure of the arena -/

/-- The request of a kind other than Calloc and Realloc applies `memset` to the null result
of a failed arena allocation: the call does not return. -/
theorem DCU_requestMemory_failure_faults (ft : DCU_Features) (env : DCU_Environment)
    (st : DCU_State) (type : DCU_DynamicOperationType) (size pointer : Nat)
    (hinit : DCU_STATE st DCU_INITIALIZED ≠ 0) (hfail : env.mspace_malloc = 0)
    (hsize : size ≠ 0) (htype : type ≠ DCU_CallocType ∧ type ≠ DCU_ReallocType) :
    DCU_requestMemory ft env st type size pointer = none := by
  unfold DCU_requestMemory
  rw [DCU_initialize_initialized ft env st hinit]
  dsimp only
  rw [if_neg (fun h => hsize h.1)]
  unfold DCU_requestMemory_allocate
  rw [if_neg htype.1, if_neg htype.2]
  dsimp only
  rw [if_pos hfail]

/-- C15, as amended: when the arena allocation fails, a Calloc or Realloc request of non-zero
size returns null with the defect registry unchanged.  The live-block table and the operation
statistics are unchanged for Calloc, and for Realloc when tracing is off or the old pointer is
not tracked.  A Realloc of a tracked old pointer has, before the allocation is attempted,
removed the old entry from the table and counted one more Free operation; the statistics of
every other kind are unchanged. -/
theorem DCU_requestMemory_arena_failure (ft : DCU_Features) (env : DCU_Environment)
    (st : DCU_State) (type : DCU_DynamicOperationType) (size pointer : Nat)
    (hinit : DCU_STATE st DCU_INITIALIZED ≠ 0) (hfail : env.mspace_malloc = 0)
    (hsize : size ≠ 0) (htype : type = DCU_CallocType ∨ type = DCU_ReallocType) :
    ∃ st', DCU_requestMemory ft env st type size pointer = some (st', 0) ∧
      st'.DCU_problems = st.DCU_problems ∧
      ((type = DCU_CallocType ∨ DCU_STATE st DCU_TRACING = 0 ∨
          DCU_findMemory st pointer = none) →
        st'.DCU_memory = st.DCU_memory ∧ st'.DCU_memory_stats = st.DCU_memory_stats) ∧
      (∀ op, type = DCU_ReallocType → DCU_STATE st DCU_TRACING ≠ 0 →
        DCU_findMemory st pointer = some op →
        st'.DCU_memory = (DCU_removeMemory st (some op)).DCU_memory ∧
        (st'.DCU_memory_stats DCU_FreeType).count =
          ((st.DCU_memory_stats DCU_FreeType).count + 1) % WORD ∧
        (st'.DCU_memory_stats DCU_FreeType).max_value =
          (st.DCU_memory_stats DCU_FreeType).max_value ∧
        ∀ k, k ≠ DCU_FreeType → st'.DCU_memory_stats k = st.DCU_memory_stats k) := by
  unfold DCU_requestMemory
  rw [DCU_initialize_initialized ft env st hinit]
  dsimp only
  rw [if_neg (fun h => hsize h.1)]
  have hreg : ∀ s : DCU_State, DCU_requestMemory_register env s type size 0 = s := by
    intro s
    unfold DCU_requestMemory_register
    rw [if_neg (fun h => h rfl)]
  rcases htype with htype | htype
  · subst htype
    have hal : DCU_requestMemory_allocate env st DCU_CallocType size pointer = some (st, 0) := by
      unfold DCU_requestMemory_allocate
      rw [if_pos rfl]
      dsimp only
      rw [if_neg (fun h => h hfail), hfail]
    rw [hal]
    dsimp only
    rw [hreg]
    exact ⟨st, rfl, rfl, fun _ => ⟨rfl, rfl⟩, fun op h => absurd h (by decide)⟩
  · subst htype
    have hal : DCU_requestMemory_allocate env st DCU_ReallocType size pointer =
        some (DCU_requestMemory_realloc env st size pointer) := by
      unfold DCU_requestMemory_allocate
      rw [if_neg (by decide), if_pos rfl]
    rw [hal]
    dsimp only
    by_cases htr : DCU_STATE st DCU_TRACING = 0
    · have hre : DCU_requestMemory_realloc env st size pointer = (st, 0) := by
        unfold DCU_requestMemory_realloc
        simp only [htr, hfail, ne_eq, not_true_eq_false, if_false]
      rw [hre]
      dsimp only
      rw [hreg]
      exact ⟨st, rfl, rfl, fun _ => ⟨rfl, rfl⟩, fun op _ h => absurd htr h⟩
    · cases hfind : DCU_findMemory st pointer with
      | none =>
        have hre : DCU_requestMemory_realloc env st size pointer = (st, 0) := by
          unfold DCU_requestMemory_realloc
          simp only [hfind, hfail, ne_eq, not_true_eq_false, if_false, ite_self]
        rw [hre]
        dsimp only
        rw [hreg]
        exact ⟨st, rfl, rfl, fun _ => ⟨rfl, rfl⟩, fun op _ _ h => absurd h (by simp)⟩
      | some op0 =>
        have hre : DCU_requestMemory_realloc env st size pointer =
            ({ DCU_removeMemory st (some op0) with
                DCU_memory_stats := (Function.update st.DCU_memory_stats DCU_FreeType
                  { count := ((st.DCU_memory_stats DCU_FreeType).count + 1) % WORD,
                    total_memory :=
                      ((st.DCU_memory_stats DCU_FreeType).total_memory + env.freed_size) % WORD,
                    max_value := (st.DCU_memory_stats DCU_FreeType).max_value }) }, 0) := by
          unfold DCU_requestMemory_realloc
          simp only [hfind, hfail, ne_eq, not_true_eq_false, if_false, htr, not_false_eq_true,
            if_true]
          rfl
        rw [hre]
        dsimp only
        rw [hreg]
        refine ⟨_, rfl, rfl, ?_, ?_⟩
        · intro h
          rcases h with h | h | h
          · exact absurd h (by decide)
          · exact absurd h htr
          · exact absurd h (by simp)
        · intro op _ _ hop
          have hop' : op0 = op := Option.some.inj hop
          subst hop'
          refine ⟨rfl, ?_, ?_, ?_⟩
          · dsimp only
            rw [Function.update_same]
          · dsimp only
            rw [Function.update_same]
          · intro k hk
            dsimp only
            rw [Function.update_noteq hk]

theorem DCU_requestMemory_arena_failure_witness :
    DCU_sample_environment_exhausted.mspace_malloc = 0 ∧
    ∃ st', DCU_requestMemory DCU_sample_features DCU_sample_environment_exhausted
        DCU_sample_malloc_state DCU_CallocType 16 0 = some (st', 0) ∧
      st'.DCU_problems = DCU_sample_malloc_state.DCU_problems ∧
      st'.DCU_memory = DCU_sample_malloc_state.DCU_memory ∧
      st'.DCU_memory_stats = DCU_sample_malloc_state.DCU_memory_stats := by
  obtain ⟨st', hreq, hp, hsame, _⟩ := DCU_requestMemory_arena_failure
    DCU_sample_features DCU_sample_environment_exhausted DCU_sample_malloc_state
    DCU_CallocType 16 0 (by decide) rfl (by decide) (Or.inl rfl)
  exact ⟨rfl, st', hreq, hp, hsame (Or.inl rfl)⟩

/-- C15, a failing input: `realloc(p, 16)` on the tracked 4-byte block at 4096 while the arena
is exhausted.  The request returns null, but the table no longer holds the block and the Free
statistics count one more operation: table and statistics are not what they were before the
call. -/
theorem DCU_requestMemory_realloc_failure_unlinks :
    DCU_sample_environment_exhausted.mspace_malloc = 0 ∧
    DCU_findMemory DCU_sample_malloc_state 4096 = some DCU_sample_malloc_block ∧
    (DCU_sample_malloc_state.DCU_memory_stats DCU_FreeType).count = 0 ∧
    ∃ st', DCU_requestMemory DCU_sample_features DCU_sample_environment_exhausted
        DCU_sample_malloc_state DCU_ReallocType 16 4096 = some (st', 0) ∧
      DCU_findMemory st' 4096 = none ∧
      (st'.DCU_memory_stats DCU_FreeType).count = 1 ∧
      ¬ (st'.DCU_memory = DCU_sample_malloc_state.DCU_memory ∧
          st'.DCU_memory_stats = DCU_sample_malloc_state.DCU_memory_stats) := by
  refine ⟨rfl, rfl, rfl, _, rfl, rfl, rfl, ?_⟩
  rintro ⟨-, hstats⟩
  have h := congrArg (fun f => (f DCU_FreeType).count) hstats
  exact absurd h (by decide)

/-! ## The table and the held addresses -/

theorem DCU_entriesFor_congr (st1 st2 : DCU_State) (h : st1.DCU_memory = st2.DCU_memory)
    (a : Nat) : DCU_entriesFor st1 a = DCU_entriesFor st2 a := by
  unfold DCU_entriesFor DCU_residual
  rw [h]

theorem DCU_tableInvariant_congr (st1 st2 : DCU_State) (h : st1.DCU_memory = st2.DCU_memory)
    (hinv : DCU_tableInvariant st2) : DCU_tableInvariant st1 := by
  unfold DCU_tableInvariant
  rw [h]
  exact hinv

theorem DCU_findMemory_congr (st1 st2 : DCU_State) (h : st1.DCU_memory = st2.DCU_memory)
    (a : Nat) : DCU_findMemory st1 a = DCU_findMemory st2 a := by
  unfold DCU_findMemory
  rw [h]

theorem DCU_addMemory_congr (st1 st2 : DCU_State) (h : st1.DCU_memory = st2.DCU_memory)
    (e : DCU_OperationInfo) :
    (DCU_addMemory st1 e).DCU_memory = (DCU_addMemory st2 e).DCU_memory := by
  unfold DCU_addMemory
  dsimp only
  rw [h]

/-- In a well-shaped table `DCU_findMemory` fails exactly for the addresses without a node. -/
theorem DCU_findMemory_none_iff (st : DCU_State) (hinv : DCU_tableInvariant st) (a : Nat) :
    DCU_findMemory st a = none ↔ DCU_entriesFor st a = [] := by
  rw [DCU_entriesFor_bucket st hinv a, List.filter_eq_nil_iff]
  unfold DCU_findMemory
  dsimp only
  rw [DCU_findOperationOnList_none]
  simp

/-- The nodes for an address after `DCU_removeMemory` of what `DCU_findMemory` found. -/
theorem DCU_entriesFor_removeMemory (st : DCU_State) (hinv : DCU_tableInvariant st)
    (p a : Nat) :
    DCU_entriesFor (DCU_removeMemory st (DCU_findMemory st p)) a =
      if a = p then [] else DCU_entriesFor st a := by
  have hinv' := DCU_tableInvariant_removeMemory st (DCU_findMemory st p) hinv
  rw [DCU_entriesFor_bucket _ hinv', DCU_entriesFor_bucket st hinv]
  cases hfind : DCU_findMemory st p with
  | none =>
    show List.filter _ (st.DCU_memory (DCU_HASH_FUNCTION a)) = _
    by_cases hap : a = p
    · subst hap
      rw [if_pos rfl, List.filter_eq_nil_iff]
      unfold DCU_findMemory at hfind
      dsimp only at hfind
      rw [DCU_findOperationOnList_none] at hfind
      intro op hop
      simpa using hfind op hop
    · rw [if_neg hap]
  | some op =>
    have hop : op ∈ st.DCU_memory (DCU_HASH_FUNCTION p) ∧ op.memory_address = p :=
      DCU_findOperationOnList_some _ _ _ hfind
    obtain ⟨hmem, haddr⟩ := hop
    unfold DCU_removeMemory
    dsimp only
    rw [haddr]
    by_cases hb : DCU_HASH_FUNCTION a = DCU_HASH_FUNCTION p
    · rw [hb, Function.update_same]
      unfold DCU_removeOperationFromList
      dsimp only
      rw [DCU_unlinkOperation_filter _ op hmem (hinv _).2, haddr, List.filter_filter]
      by_cases hap : a = p
      · subst hap
        rw [if_pos rfl, List.filter_eq_nil_iff]
        intro x _
        simp
      · rw [if_neg hap]
        apply List.filter_congr
        intro x _
        by_cases hx : x.memory_address = a
        · simp [hx, hap]
        · simp [hx]
    · rw [Function.update_noteq hb]
      have hap : a ≠ p := fun e => hb (by rw [e])
      rw [if_neg hap]

/-- The nodes for an address after `DCU_addMemory`. -/
theorem DCU_entriesFor_addMemory (st : DCU_State) (hinv : DCU_tableInvariant st)
    (e : DCU_OperationInfo) (hfresh : DCU_findMemory st e.memory_address = none) (a : Nat) :
    DCU_entriesFor (DCU_addMemory st e) a =
      if a = e.memory_address then [e] else DCU_entriesFor st a := by
  have hinv' := DCU_tableInvariant_addMemory st e hinv hfresh
  have hnone := (DCU_findMemory_none_iff st hinv e.memory_address).mp hfresh
  rw [DCU_entriesFor_bucket st hinv] at hnone
  rw [DCU_entriesFor_bucket _ hinv', DCU_entriesFor_bucket st hinv]
  unfold DCU_addMemory DCU_addOperationToList
  dsimp only
  by_cases hb : DCU_HASH_FUNCTION a = DCU_HASH_FUNCTION e.memory_address
  · rw [hb, Function.update_same]
    by_cases hae : a = e.memory_address
    · subst hae
      rw [if_pos rfl, List.filter_cons, hnone]
      simp
    · rw [if_neg hae, List.filter_cons]
      have : ¬ e.memory_address = a := fun h => hae h.symm
      simp [this]
  · rw [Function.update_noteq hb]
    have hae : a ≠ e.memory_address := fun h => hb (by rw [h])
    rw [if_neg hae]

/-- The table in which lines 439-490 leave the library when tracing is enabled: only a Realloc
request touches it, unlinking the node of the old pointer. -/
theorem DCU_requestMemory_allocate_table (env : DCU_Environment) (st : DCU_State)
    (type : DCU_DynamicOperationType) (size pointer : Nat) (st1 : DCU_State) (out : Nat)
    (htracing : DCU_STATE st DCU_TRACING ≠ 0)
    (h : DCU_requestMemory_allocate env st type size pointer = some (st1, out)) :
    st1.DCU_memory = (DCU_removeMemory st
      (if type = DCU_ReallocType then DCU_findMemory st pointer else none)).DCU_memory := by
  unfold DCU_requestMemory_allocate at h
  dsimp only at h
  split_ifs at h with h1 h2 hw h3 h4
  · simp only [Option.some.injEq, Prod.mk.injEq] at h
    obtain ⟨hs, -⟩ := h
    subst hs
    rw [if_neg (by rw [h1]; decide)]
    rfl
  · simp only [Option.some.injEq, Prod.mk.injEq] at h
    obtain ⟨hs, -⟩ := h
    subst hs
    rw [if_neg (by rw [h1]; decide)]
    rfl
  · rw [if_pos h3]
    unfold DCU_requestMemory_realloc at h
    have htr' : DCU_STATE st DCU_TRACING ≠ 0 := htracing
    simp only [Option.some.injEq] at h
    rw [if_pos htr'] at h
    cases hfind : DCU_findMemory st pointer with
    | none =>
      rw [hfind] at h
      simp only [Prod.mk.injEq] at h
      obtain ⟨hs, -⟩ := h
      subst hs
      rfl
    | some op =>
      rw [hfind] at h
      simp only [Prod.mk.injEq] at h
      obtain ⟨hs, -⟩ := h
      subst hs
      rfl
  · simp only [Option.some.injEq, Prod.mk.injEq] at h
    obtain ⟨hs, -⟩ := h
    subst hs
    rw [if_neg h3]
    rfl

/-- The table after a request that returns, when tracing is enabled. -/
theorem DCU_requestMemory_table (ft : DCU_Features) (env : DCU_Environment) (st : DCU_State)
    (type : DCU_DynamicOperationType) (size pointer : Nat) (st1 : DCU_State) (out : Nat)
    (hinit : DCU_STATE st DCU_INITIALIZED ≠ 0) (htracing : DCU_STATE st DCU_TRACING ≠ 0)
    (hreq : DCU_requestMemory ft env st type size pointer = some (st1, out)) :
    st1.DCU_memory =
      (if out ≠ 0 then
        DCU_addMemory (DCU_removeMemory st
            (if type = DCU_ReallocType then DCU_findMemory st pointer else none))
          (DCU_registeredNode env type size out)
       else DCU_removeMemory st
            (if type = DCU_ReallocType then DCU_findMemory st pointer else none)).DCU_memory := by
  unfold DCU_requestMemory at hreq
  rw [DCU_initialize_initialized ft env st hinit] at hreq
  dsimp only at hreq
  split_ifs at hreq with hz
  · simp only [Option.some.injEq, Prod.mk.injEq] at hreq
    obtain ⟨hs, ho⟩ := hreq
    subst hs
    subst ho
    have hne : type ≠ DCU_ReallocType := by
      rcases hz.2 with h | h | h | h <;> rw [h] <;> decide
    rw [if_neg (fun h => h rfl), if_neg hne]
    unfold DCU_requestMemory_zero
    dsimp only
    split_ifs
    rfl
  · cases hal : DCU_requestMemory_allocate env st type size pointer with
    | none => rw [hal] at hreq; exact absurd hreq (by simp)
    | some r =>
      obtain ⟨sta, o⟩ := r
      rw [hal] at hreq
      simp only [Option.some.injEq, Prod.mk.injEq] at hreq
      obtain ⟨hst, hout⟩ := hreq
      subst hout
      subst hst
      have hmem := DCU_requestMemory_allocate_table env st type size pointer sta o htracing hal
      have hfl := (DCU_requestMemory_allocate_frame env st type size pointer sta o hal).1
      have htra : DCU_STATE sta DCU_TRACING ≠ 0 := by
        unfold DCU_STATE
        rw [hfl]
        exact htracing
      by_cases ho : o ≠ 0
      · rw [if_pos ho, DCU_requestMemory_register_tracing env sta type size o ho htra]
        exact DCU_addMemory_congr _ _ hmem _
      · rw [if_neg ho]
        unfold DCU_requestMemory_register
        rw [if_neg ho]
        exact hmem

/-- The table after a release that returns, when tracing is enabled. -/
theorem DCU_releaseMemory_table (ft : DCU_Features) (env : DCU_Environment) (st : DCU_State)
    (type : DCU_DynamicOperationType) (pointer : Nat) (st1 : DCU_State)
    (hinit : DCU_STATE st DCU_INITIALIZED ≠ 0) (htracing : DCU_STATE st DCU_TRACING ≠ 0)
    (hrel : DCU_releaseMemory ft env st type pointer = DCU_Outcome.returned st1) :
    st1.DCU_memory = (DCU_removeMemory st
      (if pointer ≠ 0 then DCU_findMemory st pointer else none)).DCU_memory := by
  unfold DCU_releaseMemory at hrel
  rw [DCU_initialize_initialized ft env st hinit] at hrel
  dsimp only at hrel
  have htr' : DCU_STATE st DCU_TRACING ≠ 0 := htracing
  by_cases hp : pointer ≠ 0
  · rw [if_pos hp, if_pos htr'] at hrel
    rw [if_pos hp]
    cases hfind : DCU_findMemory st pointer with
    | none =>
      rw [hfind] at hrel
      unfold DCU_releaseMemory_untracked at hrel
      dsimp only at hrel
      split_ifs at hrel
      simp only [DCU_Outcome.returned.injEq] at hrel
      subst hrel
      rfl
    | some op =>
      rw [hfind] at hrel
      unfold DCU_releaseMemory_tracked at hrel
      dsimp only at hrel
      split_ifs at hrel <;>
        (simp only [DCU_Outcome.returned.injEq] at hrel
         subst hrel
         rfl)
  · rw [if_neg hp] at hrel
    rw [if_neg hp]
    simp only [DCU_Outcome.returned.injEq] at hrel
    subst hrel
    unfold DCU_releaseMemory_null
    split_ifs <;> rfl

theorem DCU_tracksHeld_remove (st : DCU_State) (held : List Nat) (p : Nat)
    (h : DCU_tracksHeld st held) :
    DCU_tracksHeld (DCU_removeMemory st (DCU_findMemory st p))
      (held.filter (fun a => decide (a ≠ p))) := by
  obtain ⟨hinv, h0, hlen⟩ := h
  refine ⟨DCU_tableInvariant_removeMemory st _ hinv, ?_, ?_⟩
  · intro hmem
    exact h0 (List.mem_filter.mp hmem).1
  · intro a
    rw [DCU_entriesFor_removeMemory st hinv p a]
    by_cases hap : a = p
    · rw [if_pos hap, if_neg]
      · rfl
      · intro hmem
        have := (List.mem_filter.mp hmem).2
        simp [hap] at this
    · rw [if_neg hap, hlen a]
      by_cases hm : a ∈ held
      · rw [if_pos hm, if_pos (List.mem_filter.mpr ⟨hm, by simpa using hap⟩)]
      · rw [if_neg hm, if_neg (fun h' => hm (List.mem_filter.mp h').1)]

theorem DCU_tracksHeld_add (st : DCU_State) (held : List Nat) (e : DCU_OperationInfo)
    (h : DCU_tracksHeld st held) (hne : e.memory_address ≠ 0)
    (hfresh : e.memory_address ∉ held) :
    DCU_tracksHeld (DCU_addMemory st e) (e.memory_address :: held) := by
  obtain ⟨hinv, h0, hlen⟩ := h
  have hnone : DCU_findMemory st e.memory_address = none := by
    rw [DCU_findMemory_none_iff st hinv]
    have := hlen e.memory_address
    rw [if_neg hfresh] at this
    exact List.length_eq_zero.mp this
  refine ⟨DCU_tableInvariant_addMemory st e hinv hnone, ?_, ?_⟩
  · intro hmem
    rcases List.mem_cons.mp hmem with h | h
    · exact hne h.symm
    · exact h0 h
  · intro a
    rw [DCU_entriesFor_addMemory st hinv e hnone a]
    by_cases hae : a = e.memory_address
    · rw [if_pos hae, if_pos (by rw [hae]; exact List.mem_cons_self _ _)]
      rfl
    · rw [if_neg hae, hlen a]
      by_cases hm : a ∈ held
      · rw [if_pos hm, if_pos (List.mem_cons_of_mem _ hm)]
      · rw [if_neg hm, if_neg]
        intro h'
        rcases List.mem_cons.mp h' with h'' | h''
        · exact hae h''
        · exact hm h''

theorem DCU_tracksHeld_congr (st1 st2 : DCU_State) (held : List Nat)
    (hmem : st1.DCU_memory = st2.DCU_memory) (h : DCU_tracksHeld st2 held) :
    DCU_tracksHeld st1 held := by
  obtain ⟨hinv, h0, hlen⟩ := h
  refine ⟨DCU_tableInvariant_congr st1 st2 hmem hinv, h0, ?_⟩
  intro a
  rw [DCU_entriesFor_congr st1 st2 hmem a]
  exact hlen a

/-- One request keeps the table in step with the held addresses. -/
theorem DCU_tracksHeld_request (ft : DCU_Features) (env : DCU_Environment) (st : DCU_State)
    (type : DCU_DynamicOperationType) (size pointer : Nat) (st1 : DCU_State) (out : Nat)
    (held : List Nat)
    (hinit : DCU_STATE st DCU_INITIALIZED ≠ 0) (htracing : DCU_STATE st DCU_TRACING ≠ 0)
    (h : DCU_tracksHeld st held)
    (hreq : DCU_requestMemory ft env st type size pointer = some (st1, out))
    (hfresh : out = 0 ∨ out ∉ held) :
    DCU_tracksHeld st1 (DCU_heldAfterRequest held type pointer out) := by
  have hmem := DCU_requestMemory_table ft env st type size pointer st1 out hinit htracing hreq
  have hmid : DCU_tracksHeld
      (DCU_removeMemory st (if type = DCU_ReallocType then DCU_findMemory st pointer else none))
      (if type = DCU_ReallocType then held.filter (fun a => decide (a ≠ pointer))
        else held) := by
    by_cases ht : type = DCU_ReallocType
    · rw [if_pos ht, if_pos ht]
      exact DCU_tracksHeld_remove st held pointer h
    · rw [if_neg ht, if_neg ht]
      exact h
  unfold DCU_heldAfterRequest
  dsimp only
  by_cases ho : out ≠ 0
  · rw [if_pos ho] at hmem
    rw [if_pos ho]
    refine DCU_tracksHeld_congr _ _ _ hmem ?_
    have hnot : out ∉ (if type = DCU_ReallocType then
        held.filter (fun a => decide (a ≠ pointer)) else held) := by
      rcases hfresh with h0 | h0
      · exact absurd h0 ho
      · intro hm
        by_cases ht : type = DCU_ReallocType
        · rw [if_pos ht] at hm
          exact h0 (List.mem_filter.mp hm).1
        · rw [if_neg ht] at hm
          exact h0 hm
    exact DCU_tracksHeld_add _ _ (DCU_registeredNode env type size out) hmid ho hnot
  · rw [if_neg ho] at hmem
    rw [if_neg ho]
    exact DCU_tracksHeld_congr _ _ _ hmem hmid

/-- One release keeps the table in step with the held addresses. -/
theorem DCU_tracksHeld_release (ft : DCU_Features) (env : DCU_Environment) (st : DCU_State)
    (type : DCU_DynamicOperationType) (pointer : Nat) (st1 : DCU_State) (held : List Nat)
    (hinit : DCU_STATE st DCU_INITIALIZED ≠ 0) (htracing : DCU_STATE st DCU_TRACING ≠ 0)
    (h : DCU_tracksHeld st held)
    (hrel : DCU_releaseMemory ft env st type pointer = DCU_Outcome.returned st1) :
    DCU_tracksHeld st1 (DCU_heldAfterRelease held pointer) := by
  have hmem := DCU_releaseMemory_table ft env st type pointer st1 hinit htracing hrel
  unfold DCU_heldAfterRelease
  by_cases hp : pointer ≠ 0
  · rw [if_pos hp] at hmem
    exact DCU_tracksHeld_congr _ _ _ hmem (DCU_tracksHeld_remove st held pointer h)
  · rw [if_neg hp] at hmem
    have hp0 : pointer = 0 := by
      by_contra hne
      exact hp hne
    have hsame : held.filter (fun a => decide (a ≠ pointer)) = held := by
      rw [List.filter_eq_self]
      intro a ha
      have : a ≠ pointer := by
        intro e
        rw [hp0] at e
        rw [e] at ha
        exact h.2.1 ha
      simpa using this
    rw [hsame]
    exact DCU_tracksHeld_congr _ _ _ hmem h

/-- A run keeps the table in step with the held addresses, as long as the arena hands out no
address that is still held. -/
theorem DCU_tracksHeld_run (ft : DCU_Features) (calls : List DCU_Call) (st0 st : DCU_State)
    (held : List Nat) (outs : List Nat)
    (hinit : DCU_STATE st0 DCU_INITIALIZED ≠ 0) (htracing : DCU_STATE st0 DCU_TRACING ≠ 0)
    (h : DCU_tracksHeld st0 held)
    (hrun : DCU_run ft st0 calls = some (st, outs))
    (hfresh : DCU_arenaFresh ft st0 held calls) :
    DCU_tracksHeld st (DCU_heldAfter ft st0 held calls) := by
  induction calls generalizing st0 held outs with
  | nil =>
    simp only [DCU_run, Option.some.injEq, Prod.mk.injEq] at hrun
    obtain ⟨hs, _⟩ := hrun
    subst hs
    exact h
  | cons c rest ih =>
    cases c with
    | request env type size pointer =>
      unfold DCU_run at hrun
      unfold DCU_arenaFresh at hfresh
      unfold DCU_heldAfter
      cases hreq : DCU_requestMemory ft env st0 type size pointer with
      | none => rw [hreq] at hrun; exact absurd hrun (by simp)
      | some r =>
        obtain ⟨st1, out⟩ := r
        rw [hreq] at hrun hfresh
        dsimp only at hrun hfresh ⊢
        obtain ⟨hf1, hf2⟩ := hfresh
        have hfl := (DCU_requestMemory_records ft env st0 st1 type size pointer out hinit
          hreq).1
        have hinit1 : DCU_STATE st1 DCU_INITIALIZED ≠ 0 := by
          unfold DCU_STATE at hinit ⊢
          rw [hfl]
          exact hinit
        have htr1 : DCU_STATE st1 DCU_TRACING ≠ 0 := by
          unfold DCU_STATE at htracing ⊢
          rw [hfl]
          exact htracing
        cases hrest : DCU_run ft st1 rest with
        | none => rw [hrest] at hrun; exact absurd hrun (by simp)
        | some r2 =>
          obtain ⟨st2, outs2⟩ := r2
          rw [hrest] at hrun
          simp only [Option.some.injEq, Prod.mk.injEq] at hrun
          obtain ⟨hst, _⟩ := hrun
          subst hst
          exact ih st1 _ outs2 hinit1 htr1
            (DCU_tracksHeld_request ft env st0 type size pointer st1 out held hinit htracing
              h hreq hf1) hrest hf2
    | release env type pointer =>
      unfold DCU_run at hrun
      unfold DCU_arenaFresh at hfresh
      unfold DCU_heldAfter
      cases hrel : DCU_releaseMemory ft env st0 type pointer with
      | halted => rw [hrel] at hrun; exact absurd hrun (by simp)
      | aborted s => rw [hrel] at hrun; exact absurd hrun (by simp)
      | returned st1 =>
        rw [hrel] at hrun hfresh
        dsimp only at hrun hfresh ⊢
        have hfl := (DCU_releaseMemory_records ft env st0 st1 type pointer hinit hrel).1
        have hinit1 : DCU_STATE st1 DCU_INITIALIZED ≠ 0 := by
          unfold DCU_STATE at hinit ⊢
          rw [hfl]
          exact hinit
        have htr1 : DCU_STATE st1 DCU_TRACING ≠ 0 := by
          unfold DCU_STATE at htracing ⊢
          rw [hfl]
          exact htracing
        exact ih st1 _ outs hinit1 htr1
          (DCU_tracksHeld_release ft env st0 type pointer st1 held hinit htracing h hrel)
          hrun hfresh

theorem DCU_tracksHeld_empty (st : DCU_State) (h : st.DCU_memory = fun _ => []) :
    DCU_tracksHeld st [] := by
  refine ⟨?_, by simp, ?_⟩
  · intro b
    rw [h]
    simp
  · intro a
    unfold DCU_entriesFor DCU_residual
    rw [h]
    simp

/-- C14: start from the state `DCU_initialize` produces, run any sequence of
`DCU_requestMemory` and `DCU_releaseMemory` calls that all return, and assume that no request
returns an address the program still holds.  Then for every address the table holds exactly
one node if the address was returned by a request and not since released or passed to a
Realloc request, and no node otherwise; `DCU_findMemory` finds a node exactly for the held
addresses, and the node it finds carries the address. -/
theorem DCU_table_tracks_held (ft : DCU_Features) (env0 : DCU_Environment)
    (boot st0 st : DCU_State) (calls : List DCU_Call) (outs : List Nat)
    (hcold : DCU_STATE boot DCU_INITIALIZED = 0)
    (hstart : ( DCU_initialize ft env0 boot) = some st0)
    (hrun : DCU_run ft st0 calls = some (st, outs))
    (hfresh : DCU_arenaFresh ft st0 [] calls) :
    (∀ a, (DCU_entriesFor st a).length =
      if a ∈ DCU_heldAfter ft st0 [] calls then 1 else 0) ∧
    (∀ a, a ∈ DCU_heldAfter ft st0 [] calls ↔
      ∃ op, DCU_findMemory st a = some op ∧ op.memory_address = a) ∧
    (∀ a, a ∉ DCU_heldAfter ft st0 [] calls → DCU_findMemory st a = none) := by
  obtain ⟨hinit, htracing, -, hmem⟩ := DCU_initialize_fresh ft env0 boot st0 hcold hstart
  obtain ⟨hinv, h0, hlen⟩ := DCU_tracksHeld_run ft calls st0 st [] outs hinit htracing
    (DCU_tracksHeld_empty st0 hmem) hrun hfresh
  have hnone : ∀ a, a ∉ DCU_heldAfter ft st0 [] calls → DCU_findMemory st a = none := by
    intro a ha
    rw [DCU_findMemory_none_iff st hinv]
    have := hlen a
    rw [if_neg ha] at this
    exact List.length_eq_zero.mp this
  refine ⟨hlen, ?_, hnone⟩
  intro a
  constructor
  · intro ha
    cases hfind : DCU_findMemory st a with
    | none =>
      have := hlen a
      rw [if_pos ha, (DCU_findMemory_none_iff st hinv a).mp hfind] at this
      exact absurd this (by simp)
    | some op =>
      exact ⟨op, rfl, (DCU_findOperationOnList_some _ _ _ hfind).2⟩
  · rintro ⟨op, hop, -⟩
    by_contra ha
    rw [hnone a ha] at hop
    exact absurd hop (by simp)

theorem DCU_table_tracks_held_witness :
    ∃ st outs, DCU_run DCU_sample_features DCU_sample_started DCU_sample_session
        = some (st, outs) ∧
      DCU_heldAfter DCU_sample_features DCU_sample_started [] DCU_sample_session = [16384] ∧
      (DCU_entriesFor st 16384).length = 1 ∧ (DCU_entriesFor st 12288).length = 0 ∧
      (DCU_entriesFor st 8192).length = 0 := by
  have hheld : DCU_heldAfter DCU_sample_features DCU_sample_started [] DCU_sample_session
      = [16384] := by rfl
  have hrun : ∃ st, DCU_run DCU_sample_features DCU_sample_started DCU_sample_session
      = some (st, [8192, 12288, 16384]) := ⟨_, rfl⟩
  obtain ⟨st, hrun⟩ := hrun
  have hfresh : DCU_arenaFresh DCU_sample_features DCU_sample_started []
      DCU_sample_session := by
    refine ⟨Or.inr (by decide), Or.inr (by decide), Or.inr (by decide), trivial⟩
  obtain ⟨hlen, -, -⟩ := DCU_table_tracks_held DCU_sample_features DCU_sample_environment
    DCU_sample_boot DCU_sample_started st DCU_sample_session [8192, 12288, 16384]
    (by decide) DCU_sample_started_eq hrun hfresh
  refine ⟨st, _, hrun, hheld, ?_, ?_, ?_⟩
  · rw [hlen, hheld]; rfl
  · rw [hlen, hheld]; rfl
  · rw [hlen, hheld]; rfl

/-! ## The registry across a request -/

theorem DCU_recordEvent_filter (l : List DCU_ProblemInfo) (t : DCU_ProblemType)
    (a d : DCU_Stack) :
    (DCU_recordEvent l (t, a, d)).filter (fun p => decide (DCU_signature p ≠ (t, a, d))) =
      l.filter (fun p => decide (DCU_signature p ≠ (t, a, d))) := by
  refine DCU_registerProblem_filter_of _ l t a d
    { type := t, size := 0, count := 0, total_memory := 0,
      allocation_stack := a, deallocation_stack := d } DCU_countProblem ?_
    DCU_countProblem_signature rfl
  intro p hp
  simp [hp]

/-- C26: in an initialised state, a request that returns leaves the registry as it was unless
its size is 0 and its kind is Malloc, Calloc, new or new[]; in that case every node whose
signature is not (Request Zero Memory, current stack, all-zero stack) is as before, in the
same order.  A Realloc request (of any size, for any old pointer, tracked or not and of
whatever allocating kind) returns with the registry unchanged. -/
theorem DCU_requestMemory_registry_frame (ft : DCU_Features) (env : DCU_Environment)
    (st : DCU_State) (type : DCU_DynamicOperationType) (size pointer : Nat)
    (hinit : DCU_STATE st DCU_INITIALIZED ≠ 0) :
    (∀ st1 out, DCU_requestMemory ft env st type size pointer = some (st1, out) →
      (¬ (size = 0 ∧ (type = DCU_CallocType ∨ type = DCU_MallocType ∨ type = DCU_NewType
          ∨ type = DCU_NewArrayType)) → st1.DCU_problems = st.DCU_problems) ∧
      (∀ t a d, (t, a, d) ≠ (DCU_RequestZeroMemoryType,
            DCU_createStackTrace env.stack env.backtrace, DCU_null_stack) →
          DCU_problemFor st1.DCU_problems t a d = DCU_problemFor st.DCU_problems t a d) ∧
      st1.DCU_problems.filter (fun p => decide (DCU_signature p ≠
          (DCU_RequestZeroMemoryType, DCU_createStackTrace env.stack env.backtrace,
            DCU_null_stack))) =
        st.DCU_problems.filter (fun p => decide (DCU_signature p ≠
          (DCU_RequestZeroMemoryType, DCU_createStackTrace env.stack env.backtrace,
            DCU_null_stack)))) ∧
    (type = DCU_ReallocType →
      ∃ st1 out, DCU_requestMemory ft env st type size pointer = some (st1, out) ∧
        st1.DCU_problems = st.DCU_problems) := by
  have hframe : ∀ st1 out, DCU_requestMemory ft env st type size pointer = some (st1, out) →
      (¬ (size = 0 ∧ (type = DCU_CallocType ∨ type = DCU_MallocType ∨ type = DCU_NewType
          ∨ type = DCU_NewArrayType)) → st1.DCU_problems = st.DCU_problems) ∧
      (∀ t a d, (t, a, d) ≠ (DCU_RequestZeroMemoryType,
            DCU_createStackTrace env.stack env.backtrace, DCU_null_stack) →
          DCU_problemFor st1.DCU_problems t a d = DCU_problemFor st.DCU_problems t a d) ∧
      st1.DCU_problems.filter (fun p => decide (DCU_signature p ≠
          (DCU_RequestZeroMemoryType, DCU_createStackTrace env.stack env.backtrace,
            DCU_null_stack))) =
        st.DCU_problems.filter (fun p => decide (DCU_signature p ≠
          (DCU_RequestZeroMemoryType, DCU_createStackTrace env.stack env.backtrace,
            DCU_null_stack))) := by
    intro st1 out hreq
    have hp := (DCU_requestMemory_records ft env st st1 type size pointer out hinit hreq).2
    unfold DCU_requestMemory_events at hp
    by_cases hz : size = 0 ∧ (type = DCU_CallocType ∨ type = DCU_MallocType ∨
        type = DCU_NewType ∨ type = DCU_NewArrayType)
    · rw [if_pos hz] at hp
      by_cases htr : DCU_STATE st DCU_TRACING ≠ 0
      · rw [if_pos htr] at hp
        simp only [List.foldl_cons, List.foldl_nil] at hp
        refine ⟨fun h => absurd hz h, ?_, ?_⟩
        · intro t a d hne
          rw [hp]
          exact DCU_problemFor_recordEvent_other _ _ _ _ _ _ _ hne
        · rw [hp]
          exact DCU_recordEvent_filter _ _ _ _
      · rw [if_neg htr] at hp
        simp only [List.foldl_nil] at hp
        rw [hp]
        exact ⟨fun _ => rfl, fun _ _ _ _ => rfl, rfl⟩
    · rw [if_neg hz] at hp
      simp only [List.foldl_nil] at hp
      rw [hp]
      exact ⟨fun _ => rfl, fun _ _ _ _ => rfl, rfl⟩
  refine ⟨hframe, ?_⟩
  intro ht
  obtain ⟨st1, out, hreq⟩ := DCU_requestMemory_returns ft env st type size pointer hinit
    (Or.inr (Or.inr (Or.inl ht)))
  refine ⟨st1, out, hreq, (hframe st1 out hreq).1 ?_⟩
  rintro ⟨-, h | h | h | h⟩ <;> rw [ht] at h <;> exact absurd h (by decide)

theorem DCU_requestMemory_registry_frame_witness :
    ∃ st1 out, DCU_requestMemory DCU_sample_features DCU_sample_environment DCU_sample_state
        DCU_ReallocType 0 4096 = some (st1, out) ∧
      st1.DCU_problems = DCU_sample_state.DCU_problems :=
  (DCU_requestMemory_registry_frame DCU_sample_features DCU_sample_environment
    DCU_sample_state DCU_ReallocType 0 4096 (by decide)).2 rfl

/-! ## Statistics across a call -/

theorem DCU_bucket_addMemory (st : DCU_State) (element : DCU_OperationInfo)
    (h : ∀ b, ∀ op ∈ st.DCU_memory b, DCU_HASH_FUNCTION op.memory_address = b) :
    ∀ b, ∀ op ∈ (DCU_addMemory st element).DCU_memory b,
      DCU_HASH_FUNCTION op.memory_address = b := by
  intro b op hop
  unfold DCU_addMemory DCU_addOperationToList at hop
  dsimp only at hop
  by_cases hb : b = DCU_HASH_FUNCTION element.memory_address
  · subst hb
    rw [Function.update_same] at hop
    rcases List.mem_cons.mp hop with h1 | h1
    · rw [h1]
    · exact h _ op h1
  · rw [Function.update_noteq hb] at hop
    exact h b op hop

theorem DCU_bucket_removeMemory (st : DCU_State) (element : Option DCU_OperationInfo)
    (h : ∀ b, ∀ op ∈ st.DCU_memory b, DCU_HASH_FUNCTION op.memory_address = b) :
    ∀ b, ∀ op ∈ (DCU_removeMemory st element).DCU_memory b,
      DCU_HASH_FUNCTION op.memory_address = b := by
  cases element with
  | none => exact h
  | some e =>
    intro b op hop
    unfold DCU_removeMemory DCU_removeOperationFromList at hop
    dsimp only at hop
    by_cases hb : b = DCU_HASH_FUNCTION e.memory_address
    · subst hb
      rw [Function.update_same] at hop
      exact h _ op ((DCU_unlinkOperation_sublist _ e).subset hop)
    · rw [Function.update_noteq hb] at hop
      exact h b op hop

theorem DCU_bucket_tableAfter (calls : List DCU_TableCall) (st : DCU_State)
    (h : ∀ b, ∀ op ∈ st.DCU_memory b, DCU_HASH_FUNCTION op.memory_address = b) :
    ∀ b, ∀ op ∈ (DCU_tableAfter st calls).DCU_memory b,
      DCU_HASH_FUNCTION op.memory_address = b := by
  induction calls generalizing st with
  | nil => exact h
  | cons c rest ih =>
    cases c with
    | add e => exact ih _ (DCU_bucket_addMemory st e h)
    | remove e => exact ih _ (DCU_bucket_removeMemory st e h)

/-- C22: in every table obtained from the empty table by `DCU_addMemory` and
`DCU_removeMemory`, each node is stored in bucket (address mod 35323), an index below 35323;
`DCU_findMemory(a)` returns a node whose address is `a` if some node in some bucket has
address `a`, and returns null if no node has. -/
theorem DCU_findMemory_exact (st0 : DCU_State) (calls : List DCU_TableCall) (a : Nat)
    (hempty : st0.DCU_memory = fun _ => []) :
    (∀ b, ∀ op ∈ (DCU_tableAfter st0 calls).DCU_memory b,
      b = DCU_HASH_FUNCTION op.memory_address ∧ b = op.memory_address % 35323 ∧ b < 35323) ∧
    ((∃ b, ∃ op ∈ (DCU_tableAfter st0 calls).DCU_memory b, op.memory_address = a) →
      ∃ op, DCU_findMemory (DCU_tableAfter st0 calls) a = some op ∧ op.memory_address = a) ∧
    ((∀ b, ∀ op ∈ (DCU_tableAfter st0 calls).DCU_memory b, op.memory_address ≠ a) →
      DCU_findMemory (DCU_tableAfter st0 calls) a = none) := by
  have hb : ∀ b, ∀ op ∈ (DCU_tableAfter st0 calls).DCU_memory b,
      DCU_HASH_FUNCTION op.memory_address = b := by
    apply DCU_bucket_tableAfter
    intro b op hop
    rw [hempty] at hop
    exact absurd hop (by simp)
  refine ⟨?_, ?_, ?_⟩
  · intro b op hop
    have h1 := hb b op hop
    refine ⟨h1.symm, h1.symm, ?_⟩
    rw [← h1]
    exact DCU_HASH_FUNCTION_lt _
  · rintro ⟨b, op, hop, haddr⟩
    have h1 := hb b op hop
    rw [haddr] at h1
    cases hfind : DCU_findMemory (DCU_tableAfter st0 calls) a with
    | none =>
      unfold DCU_findMemory at hfind
      dsimp only at hfind
      rw [DCU_findOperationOnList_none] at hfind
      rw [← h1] at hop
      exact absurd haddr (hfind op hop)
    | some found =>
      exact ⟨found, rfl, (DCU_findOperationOnList_some _ _ _ hfind).2⟩
  · intro hno
    unfold DCU_findMemory
    dsimp only
    rw [DCU_findOperationOnList_none]
    intro op hop
    exact hno _ op hop

theorem DCU_findMemory_exact_witness :
    DCU_findMemory (DCU_tableAfter DCU_sample_boot
      [DCU_TableCall.add DCU_sample_block, DCU_TableCall.add (DCU_sample_leak 39419 11),
       DCU_TableCall.remove (some DCU_sample_block)]) 4096 = none ∧
    ∃ op, DCU_findMemory (DCU_tableAfter DCU_sample_boot
      [DCU_TableCall.add DCU_sample_block, DCU_TableCall.add (DCU_sample_leak 39419 11),
       DCU_TableCall.remove (some DCU_sample_block)]) 39419 = some op ∧
      op.memory_address = 39419 := by
  obtain ⟨-, hsome, -⟩ := DCU_findMemory_exact DCU_sample_boot
    [DCU_TableCall.add DCU_sample_block, DCU_TableCall.add (DCU_sample_leak 39419 11),
     DCU_TableCall.remove (some DCU_sample_block)] 39419 rfl
  exact ⟨rfl, hsome ⟨4096, DCU_sample_leak 39419 11, by decide, rfl⟩⟩

/-! ## Stacks shown in the report -/

/-- The texts written for a leak node of five blocks and sixty bytes requested from the call
site (0x191, 0x192). -/
theorem DCU_reportMemoryStatus_problem_sample :
    DCU_reportMemoryStatus_problem
      { type := DCU_LeakType, size := 14, count := 5, total_memory := 60,
        allocation_stack := DCU_sample_leak_stack, deallocation_stack := DCU_null_stack } =
      ["\x7b\n", "[0] Memory Leak\n", "Count: 5\n", "Total Memory Lost: 60 \n",
       "Allocation Stack: ", "0x191 ", "0x192 ", "\n", "\x7d\n"] := by
  decide

/-! ## The report in the log -/

/-- The report of a registry with a leak node and a Free Null Pointer node, as it reaches
stream 7 after the start-up line. -/
theorem DCU_reportMemoryStatus_sample :
    DCU_streamTexts 7 (DCU_reportMemoryStatus DCU_sample_features DCU_sample_environment
      DCU_sample_reported).written =
      ["DynamicCheckUp Started\n", "DynamicCheckUp Memory Report\n",
       "----------------------------------------------------------------\n",
       "             ->      operations       total mem       max value\n",
       "         Malloc               0               0               0\n",
       "           Free               0               0               0\n",
       "        Realloc               0               0               0\n",
       "         Calloc               0               0               0\n",
       "            new               0               0               0\n",
       "         delete               0               0               0\n",
       "          new[]               0               0               0\n",
       "       delete[]               0               0               0\n",
       "\nDynamic Memory Balance\n",
       "----------------------------------------------------------------\n",
       "       C Memory               0               0\n",
       "        New Del               0               0\n",
       "      New Del[]               0               0\n",
       "\nProblems\n",
       "----------------------------------------------------------------\n",
       "\x7b\n", "[0] Memory Leak\n", "Count: 5\n", "Total Memory Lost: 60 \n",
       "Allocation Stack: ", "0x191 ", "0x192 ", "\n", "\x7d\n",
       "\x7b\n", "[3] Free Null Pointer\n", "Count: 2\n",
       "Deallocation Stack: ", "0x191 ", "0x192 ", "\n", "\x7d\n"] := by
  decide

/-! ## Shape of the problem nodes -/

theorem DCU_registerProblem_forall (P : DCU_ProblemInfo → Prop) (l : List DCU_ProblemInfo)
    (t : DCU_ProblemType) (a d : DCU_Stack) (fresh : DCU_ProblemInfo)
    (mutate : DCU_ProblemInfo → DCU_ProblemInfo)
    (hl : ∀ p ∈ l, P p)
    (hmut : ∀ p, P p → DCU_signature p = (t, a, d) → P (mutate p))
    (hfresh : P (mutate fresh)) :
    ∀ p ∈ DCU_registerProblem l t a d fresh mutate, P p := by
  intro p hp
  rcases DCU_registerProblem_cases l t a d fresh mutate with
    ⟨pre, q, post, hlq, -, hq, hreg⟩ | ⟨-, hreg⟩
  · rw [hreg] at hp
    rcases List.mem_append.mp hp with h | h
    · exact hl p (by rw [hlq]; exact List.mem_append_left _ h)
    · rcases List.mem_cons.mp h with h | h
      · rw [h]
        exact hmut q (hl q (by rw [hlq]; simp)) hq
      · exact hl p (by rw [hlq]; simp [h])
  · rw [hreg] at hp
    rcases List.mem_cons.mp hp with h | h
    · rw [h]
      exact hfresh
    · exact hl p h

theorem DCU_recordEvent_shape (l : List DCU_ProblemInfo) (e : DCU_Event)
    (hl : ∀ p ∈ l, DCU_problemShape p)
    (he : DCU_problemShape
      { type := e.1, size := 0, count := 0, total_memory := 0,
        allocation_stack := e.2.1, deallocation_stack := e.2.2 }) :
    ∀ p ∈ DCU_recordEvent l e, DCU_problemShape p := by
  unfold DCU_recordEvent
  exact DCU_registerProblem_forall DCU_problemShape l e.1 e.2.1 e.2.2 _ DCU_countProblem hl
    (fun p hp _ => hp) he

theorem DCU_foldl_recordEvent_shape (es : List DCU_Event) (l : List DCU_ProblemInfo)
    (hl : ∀ p ∈ l, DCU_problemShape p)
    (he : ∀ e ∈ es, DCU_problemShape
      { type := e.1, size := 0, count := 0, total_memory := 0,
        allocation_stack := e.2.1, deallocation_stack := e.2.2 }) :
    ∀ p ∈ es.foldl DCU_recordEvent l, DCU_problemShape p := by
  induction es generalizing l with
  | nil => exact hl
  | cons e rest ih =>
    rw [List.foldl_cons]
    exact ih _ (DCU_recordEvent_shape l e hl (he e (List.mem_cons_self _ _)))
      (fun e' he' => he e' (List.mem_cons_of_mem _ he'))

theorem DCU_analyzeMemory_leak_shape (l : List DCU_ProblemInfo) (iterator : DCU_OperationInfo)
    (hl : ∀ p ∈ l, DCU_problemShape p) :
    ∀ p ∈ DCU_analyzeMemory_leak l iterator, DCU_problemShape p := by
  unfold DCU_analyzeMemory_leak
  refine DCU_registerProblem_forall DCU_problemShape l DCU_LeakType iterator.stack
    DCU_null_stack _ _ hl ?_ ?_
  · intro p hp hsig
    have ht : p.type = DCU_LeakType := congrArg Prod.fst hsig
    refine ⟨fun h => hp.1 h, fun h => hp.2.1 h, fun h => absurd ht h⟩
  · refine ⟨fun h => ?_, fun _ => rfl, fun h => absurd rfl h⟩
    rcases h with h | h
    · have h' : DCU_LeakType = DCU_ReleaseUnallocatedType := h
      exact absurd h' (by decide)
    · have h' : DCU_LeakType = DCU_FreeNullType := h
      exact absurd h' (by decide)

theorem DCU_analyzeMemory_shape (st : DCU_State)
    (hl : ∀ p ∈ st.DCU_problems, DCU_problemShape p) :
    ∀ p ∈ (DCU_analyzeMemory st).DCU_problems, DCU_problemShape p := by
  rw [(DCU_analyzeMemory_problems st).1]
  generalize DCU_residual st = ops
  generalize st.DCU_problems = l at hl
  induction ops generalizing l with
  | nil => exact hl
  | cons it rest ih =>
    rw [List.foldl_cons]
    exact ih _ (DCU_analyzeMemory_leak_shape l it hl)

theorem DCU_problemShape_fresh (t : DCU_ProblemType) (a d : DCU_Stack)
    (h1 : (t = DCU_ReleaseUnallocatedType ∨ t = DCU_FreeNullType) → a = DCU_null_stack)
    (h2 : (t = DCU_LeakType ∨ t = DCU_RequestZeroMemoryType) → d = DCU_null_stack) :
    DCU_problemShape
      { type := t, size := 0, count := 0, total_memory := 0,
        allocation_stack := a, deallocation_stack := d } :=
  ⟨h1, h2, fun _ => rfl⟩

theorem DCU_requestMemory_events_shape (env : DCU_Environment) (st : DCU_State)
    (type : DCU_DynamicOperationType) (size : Nat) :
    ∀ e ∈ DCU_requestMemory_events env st type size,
      DCU_problemShape
        { type := e.1, size := 0, count := 0, total_memory := 0,
          allocation_stack := e.2.1, deallocation_stack := e.2.2 } := by
  intro e he
  unfold DCU_requestMemory_events at he
  split_ifs at he
  · rw [List.mem_singleton] at he
    rw [he]
    refine DCU_problemShape_fresh DCU_RequestZeroMemoryType _ DCU_null_stack ?_ (fun _ => rfl)
    intro h
    rcases h with h | h <;> exact absurd h (by decide)
  · exact absurd he (List.not_mem_nil _)
  · exact absurd he (List.not_mem_nil _)

theorem DCU_releaseMemory_events_shape (ft : DCU_Features) (env : DCU_Environment)
    (st : DCU_State) (type : DCU_DynamicOperationType) (pointer : Nat) :
    ∀ e ∈ DCU_releaseMemory_events ft env st type pointer,
      DCU_problemShape
        { type := e.1, size := 0, count := 0, total_memory := 0,
          allocation_stack := e.2.1, deallocation_stack := e.2.2 } := by
  intro e he
  have hOW : ∀ a d, DCU_problemShape
      { type := DCU_MemoryOverWriteType, size := 0, count := 0, total_memory := 0,
        allocation_stack := a, deallocation_stack := d } := by
    intro a d
    refine DCU_problemShape_fresh DCU_MemoryOverWriteType a d ?_ ?_ <;>
      (intro h; rcases h with h | h <;> exact absurd h (by decide))
  have hMM : ∀ a d, DCU_problemShape
      { type := DCU_MismatchOperationType, size := 0, count := 0, total_memory := 0,
        allocation_stack := a, deallocation_stack := d } := by
    intro a d
    refine DCU_problemShape_fresh DCU_MismatchOperationType a d ?_ ?_ <;>
      (intro h; rcases h with h | h <;> exact absurd h (by decide))
  have hRU : ∀ d, DCU_problemShape
      { type := DCU_ReleaseUnallocatedType, size := 0, count := 0, total_memory := 0,
        allocation_stack := DCU_null_stack, deallocation_stack := d } := by
    intro d
    refine DCU_problemShape_fresh DCU_ReleaseUnallocatedType DCU_null_stack d (fun _ => rfl) ?_
    intro h
    rcases h with h | h <;> exact absurd h (by decide)
  have hFN : ∀ d, DCU_problemShape
      { type := DCU_FreeNullType, size := 0, count := 0, total_memory := 0,
        allocation_stack := DCU_null_stack, deallocation_stack := d } := by
    intro d
    refine DCU_problemShape_fresh DCU_FreeNullType DCU_null_stack d (fun _ => rfl) ?_
    intro h
    rcases h with h | h <;> exact absurd h (by decide)
  unfold DCU_releaseMemory_events at he
  dsimp only at he
  split_ifs at he with h1 h2 h3 h4
  · cases hfind : DCU_findMemory st pointer with
    | none =>
      rw [hfind] at he
      dsimp only at he
      rw [List.mem_singleton] at he
      rw [he]
      exact hRU _
    | some op =>
      rw [hfind] at he
      dsimp only at he
      rcases List.mem_append.mp he with h | h
      · split_ifs at h
        · rw [List.mem_singleton] at h
          rw [h]
          exact hOW _ _
        · exact absurd h (List.not_mem_nil _)
      · split_ifs at h
        · exact absurd h (List.not_mem_nil _)
        · rw [List.mem_singleton] at h
          rw [h]
          exact hMM _ _
        · exact absurd h (List.not_mem_nil _)
  · exact absurd he (List.not_mem_nil _)
  · rw [List.mem_singleton] at he
    rw [he]
    exact hFN _
  · exact absurd he (List.not_mem_nil _)
  · exact absurd he (List.not_mem_nil _)

/-- A release that returns or enters `DCU_abort` keeps the flags and has recorded exactly its
events. -/
theorem DCU_releaseMemory_state_records (ft : DCU_Features) (env : DCU_Environment)
    (st st1 : DCU_State) (type : DCU_DynamicOperationType) (pointer : Nat)
    (hinit : DCU_STATE st DCU_INITIALIZED ≠ 0)
    (hrel : (DCU_releaseMemory ft env st type pointer).state = some st1) :
    st1.DCU_flags = st.DCU_flags ∧
    st1.DCU_problems =
      (DCU_releaseMemory_events ft env st type pointer).foldl DCU_recordEvent
        st.DCU_problems := by
  unfold DCU_releaseMemory at hrel
  rw [DCU_initialize_initialized ft env st hinit] at hrel
  dsimp only at hrel
  unfold DCU_releaseMemory_events
  dsimp only
  by_cases hp : pointer ≠ 0
  · rw [if_pos hp] at hrel
    rw [if_pos hp]
    by_cases htr : DCU_STATE st DCU_TRACING ≠ 0
    · rw [if_pos htr] at hrel
      rw [if_pos htr]
      cases hfind : DCU_findMemory st pointer with
      | none =>
        rw [hfind] at hrel
        dsimp only at hrel ⊢
        unfold DCU_releaseMemory_untracked at hrel
        dsimp only at hrel
        split_ifs at hrel <;>
          (simp only [DCU_Outcome.state, Option.some.injEq] at hrel
           subst hrel
           exact ⟨rfl, rfl⟩)
      | some operation =>
        rw [hfind] at hrel
        dsimp only at hrel ⊢
        unfold DCU_releaseMemory_tracked at hrel
        dsimp only at hrel
        cases hc : memcmp st.heap (ptr_add pointer operation.size) OVERWRITE_DETECTION_DATA
            OVERWRITE_DETECTION_DATA_SIZE <;>
          cases hm : DCU_mismatched_release type operation.type <;>
          cases hab : ft.DCU_ABORT_ON_MEMORY_OVERWRITE <;>
          simp only [hc, hm, hab, Bool.false_eq_true, if_false, if_true, and_self, and_false,
            false_and, DCU_Outcome.state, Option.some.injEq] at hrel <;>
          subst hrel <;>
          simp only [Bool.false_eq_true, if_false, if_true, and_self, and_false,
            false_and, DCU_removeMemory_problems, List.append_nil, List.nil_append,
            List.singleton_append] <;>
          refine ⟨?_, ?_⟩ <;> first | rfl | trivial
    · rw [if_neg htr] at hrel
      rw [if_neg htr]
      simp only [DCU_Outcome.state, Option.some.injEq] at hrel
      subst hrel
      exact ⟨rfl, rfl⟩
  · rw [if_neg hp] at hrel
    rw [if_neg hp]
    simp only [DCU_Outcome.state, Option.some.injEq] at hrel
    subst hrel
    unfold DCU_releaseMemory_null
    by_cases hc : ft.DCU_C_MEMORY_CHECK = true ∧ type = DCU_FreeType
    · rw [if_pos hc, if_pos hc]
      by_cases htr : DCU_STATE st DCU_TRACING ≠ 0
      · rw [if_pos htr, if_pos htr]
        exact ⟨rfl, rfl⟩
      · rw [if_neg htr, if_neg htr]
        exact ⟨rfl, rfl⟩
    · rw [if_neg hc, if_neg hc]
      exact ⟨rfl, rfl⟩

theorem DCU_perform_cons (ft : DCU_Features) (st : DCU_State) (a : DCU_Action)
    (rest : List DCU_Action) :
    DCU_perform ft st (a :: rest) =
      match DCU_act ft st a with
      | none => none
      | some st1 => DCU_perform ft st1 rest := rfl

/-- One step keeps the shape of the problem nodes and the initialised flag. -/
theorem DCU_act_shape (ft : DCU_Features) (a : DCU_Action) (st0 st : DCU_State)
    (hinit : DCU_STATE st0 DCU_INITIALIZED ≠ 0)
    (hl : ∀ p ∈ st0.DCU_problems, DCU_problemShape p)
    (hact : DCU_act ft st0 a = some st) :
    DCU_STATE st DCU_INITIALIZED ≠ 0 ∧ ∀ p ∈ st.DCU_problems, DCU_problemShape p := by
  cases a with
  | analyze =>
    have hst : DCU_analyzeMemory st0 = st := Option.some.inj hact
    rw [← hst]
    refine ⟨?_, DCU_analyzeMemory_shape st0 hl⟩
    unfold DCU_STATE
    rw [DCU_analyzeMemory_flags]
    exact hinit
  | call c =>
    cases c with
    | request env type size pointer =>
      unfold DCU_act at hact
      dsimp only at hact
      cases hreq : DCU_requestMemory ft env st0 type size pointer with
      | none => rw [hreq] at hact; exact absurd hact (by simp)
      | some r =>
        obtain ⟨st1, out⟩ := r
        rw [hreq] at hact
        have hst : st1 = st := Option.some.inj hact
        subst hst
        obtain ⟨hfl, hpr⟩ :=
          DCU_requestMemory_records ft env st0 st1 type size pointer out hinit hreq
        refine ⟨?_, ?_⟩
        · unfold DCU_STATE at hinit ⊢
          rw [hfl]
          exact hinit
        · rw [hpr]
          exact DCU_foldl_recordEvent_shape _ _ hl
            (DCU_requestMemory_events_shape env st0 type size)
    | release env type pointer =>
      unfold DCU_act at hact
      dsimp only at hact
      cases hrel : DCU_releaseMemory ft env st0 type pointer with
      | halted => rw [hrel] at hact; exact absurd hact (by simp)
      | aborted s => rw [hrel] at hact; exact absurd hact (by simp)
      | returned st1 =>
        rw [hrel] at hact
        have hst : st1 = st := Option.some.inj hact
        subst hst
        obtain ⟨hfl, hpr⟩ :=
          DCU_releaseMemory_records ft env st0 st1 type pointer hinit hrel
        refine ⟨?_, ?_⟩
        · unfold DCU_STATE at hinit ⊢
          rw [hfl]
          exact hinit
        · rw [hpr]
          exact DCU_foldl_recordEvent_shape _ _ hl
            (DCU_releaseMemory_events_shape ft env st0 type pointer)

/-- Every sequence of steps keeps the shape of the problem nodes and the initialised flag. -/
theorem DCU_perform_shape (ft : DCU_Features) (actions : List DCU_Action) (st0 st : DCU_State)
    (hinit : DCU_STATE st0 DCU_INITIALIZED ≠ 0)
    (hl : ∀ p ∈ st0.DCU_problems, DCU_problemShape p)
    (hrun : DCU_perform ft st0 actions = some st) :
    DCU_STATE st DCU_INITIALIZED ≠ 0 ∧ ∀ p ∈ st.DCU_problems, DCU_problemShape p := by
  induction actions generalizing st0 with
  | nil =>
    have hst : st0 = st := Option.some.inj hrun
    subst hst
    exact ⟨hinit, hl⟩
  | cons a rest ih =>
    rw [DCU_perform_cons] at hrun
    cases hact : DCU_act ft st0 a with
    | none => rw [hact] at hrun; exact absurd hrun (by simp)
    | some st1 =>
      rw [hact] at hrun
      obtain ⟨h1, h2⟩ := DCU_act_shape ft a st0 st1 hinit hl hact
      exact ih st1 h1 h2 hrun

/-- C23: in every registry reached from the state `DCU_initialize` produces by
`DCU_requestMemory`, `DCU_releaseMemory` and `DCU_analyzeMemory` — the registry with which a
further release enters `DCU_abort` included — every Release Unallocated and Free Null Pointer
node has an all-zero allocation stack, every Memory Leak and Request Zero Memory node an
all-zero deallocation stack, and every node of a kind other than Memory Leak has
`total_memory = 0`. -/
theorem DCU_registry_shape (ft : DCU_Features) (env0 : DCU_Environment)
    (boot st0 st : DCU_State) (actions : List DCU_Action)
    (hcold : DCU_STATE boot DCU_INITIALIZED = 0)
    (hstart : ( DCU_initialize ft env0 boot) = some st0)
    (hrun : DCU_perform ft st0 actions = some st) :
    (∀ p ∈ st.DCU_problems,
      ((p.type = DCU_ReleaseUnallocatedType ∨ p.type = DCU_FreeNullType) →
        ∀ i, p.allocation_stack i = 0) ∧
      ((p.type = DCU_LeakType ∨ p.type = DCU_RequestZeroMemoryType) →
        ∀ i, p.deallocation_stack i = 0) ∧
      (p.type ≠ DCU_LeakType → p.total_memory = 0)) ∧
    (∀ env type pointer st',
      (DCU_releaseMemory ft env st type pointer).state = some st' →
      ∀ p ∈ st'.DCU_problems, DCU_problemShape p) := by
  obtain ⟨hinit, -, hempty, -⟩ := DCU_initialize_fresh ft env0 boot st0 hcold hstart
  have h0 : ∀ p ∈ st0.DCU_problems, DCU_problemShape p := by
    intro p hp
    rw [hempty] at hp
    exact absurd hp (List.not_mem_nil _)
  obtain ⟨hinit', hshape⟩ := DCU_perform_shape ft actions st0 st hinit h0 hrun
  refine ⟨?_, ?_⟩
  · intro p hp
    obtain ⟨h1, h2, h3⟩ := hshape p hp
    refine ⟨fun h i => ?_, fun h i => ?_, h3⟩
    · rw [h1 h]
      rfl
    · rw [h2 h]
      rfl
  · intro env type pointer st' hrel
    rw [(DCU_releaseMemory_state_records ft env st st' type pointer hinit' hrel).2]
    exact DCU_foldl_recordEvent_shape _ _ hshape
      (DCU_releaseMemory_events_shape ft env st type pointer)

theorem DCU_registry_shape_witness :
    ∃ st, DCU_perform DCU_sample_features DCU_sample_started
        [DCU_Action.call (DCU_Call.request DCU_sample_environment DCU_NewArrayType 10 0),
         DCU_Action.call (DCU_Call.release DCU_sample_environment2 DCU_DeleteArrayType 8193),
         DCU_Action.call (DCU_Call.request DCU_sample_environment2 DCU_MallocType 0 0),
         DCU_Action.analyze] = some st ∧
      ∀ p ∈ st.DCU_problems,
        ((p.type = DCU_ReleaseUnallocatedType ∨ p.type = DCU_FreeNullType) →
          ∀ i, p.allocation_stack i = 0) ∧
        ((p.type = DCU_LeakType ∨ p.type = DCU_RequestZeroMemoryType) →
          ∀ i, p.deallocation_stack i = 0) ∧
        (p.type ≠ DCU_LeakType → p.total_memory = 0) := by
  have hrun : ∃ st, DCU_perform DCU_sample_features DCU_sample_started
      [DCU_Action.call (DCU_Call.request DCU_sample_environment DCU_NewArrayType 10 0),
       DCU_Action.call (DCU_Call.release DCU_sample_environment2 DCU_DeleteArrayType 8193),
       DCU_Action.call (DCU_Call.request DCU_sample_environment2 DCU_MallocType 0 0),
       DCU_Action.analyze] = some st := ⟨_, rfl⟩
  obtain ⟨st, hrun⟩ := hrun
  exact ⟨st, hrun, (DCU_registry_shape DCU_sample_features DCU_sample_environment
    DCU_sample_boot DCU_sample_started st _ (by decide) DCU_sample_started_eq hrun).1⟩

/-! ## Balances and leaks -/

theorem DCU_residual_nil_of_entries (st : DCU_State)
    (h : ∀ a, (DCU_entriesFor st a).length = 0) : DCU_residual st = [] := by
  cases hres : DCU_residual st with
  | nil => rfl
  | cons op rest =>
    have h1 := h op.memory_address
    unfold DCU_entriesFor at h1
    rw [hres, List.filter_cons] at h1
    simp at h1

/-- On a table without nodes `DCU_analyzeMemory` finds nothing to report: the table stays
empty and the registry is as before. -/
theorem DCU_analyzeMemory_empty_table (st : DCU_State)
    (h : ∀ a, (DCU_entriesFor st a).length = 0) :
    DCU_residual (DCU_analyzeMemory st) = [] ∧
    (DCU_analyzeMemory st).DCU_problems = st.DCU_problems := by
  have hnil := DCU_residual_nil_of_entries st h
  obtain ⟨hprob, hmem⟩ := DCU_analyzeMemory_problems st
  have hres : DCU_residual (DCU_analyzeMemory st) = DCU_residual st := by
    unfold DCU_residual
    rw [hmem]
  rw [hres, hprob, hnil]
  exact ⟨rfl, rfl⟩

/-- After a run from an empty table at the end of which the program holds no address,
`DCU_analyzeMemory` finds nothing to report. -/
theorem DCU_analyzeMemory_nothing_held (ft : DCU_Features) (calls : List DCU_Call)
    (st0 st : DCU_State) (outs : List Nat)
    (hinit : DCU_STATE st0 DCU_INITIALIZED ≠ 0) (htracing : DCU_STATE st0 DCU_TRACING ≠ 0)
    (hmem : st0.DCU_memory = fun _ => [])
    (hrun : DCU_run ft st0 calls = some (st, outs))
    (hfresh : DCU_arenaFresh ft st0 [] calls)
    (hheld : DCU_heldAfter ft st0 [] calls = []) :
    DCU_residual (DCU_analyzeMemory st) = [] ∧
    (DCU_analyzeMemory st).DCU_problems = st.DCU_problems := by
  obtain ⟨-, -, hlen⟩ := DCU_tracksHeld_run ft calls st0 st [] outs hinit htracing
    (DCU_tracksHeld_empty st0 hmem) hrun hfresh
  rw [hheld] at hlen
  exact DCU_analyzeMemory_empty_table st hlen

/-- A run in which the read at line 463 yields 0 for a reallocated block of four bytes:
`malloc(4)`, `realloc(p, 16)`, `free(q)`.  No node is left and no Memory Leak node is
registered, but the Free statistics were credited 0 + 16 bytes against 4 + 16 requested: the
three balance byte totals add up to 4. -/
theorem DCU_sample_stale_credit_balance :
    ∃ st, DCU_run DCU_sample_features DCU_sample_started
        [DCU_Call.request DCU_sample_environment DCU_MallocType 4 0,
         DCU_Call.request
           { DCU_sample_environment with mspace_malloc := 12288, freed_size := 0 }
           DCU_ReallocType 16 8192,
         DCU_Call.release DCU_sample_environment2 DCU_FreeType 12288]
        = some (st, [8192, 12288]) ∧
      (DCU_residual (DCU_analyzeMemory st)).length = 0 ∧
      DCU_leakBytes (DCU_analyzeMemory st).DCU_problems = 0 ∧
      (DCU_analyzeMemory st).DCU_memory_stats_c.total_memory = 4 ∧
      (DCU_analyzeMemory st).DCU_memory_stats_new.total_memory = 0 ∧
      (DCU_analyzeMemory st).DCU_memory_stats_new_array.total_memory = 0 := by
  refine ⟨_, rfl, ?_⟩
  have hnone := DCU_analyzeMemory_nothing_held DCU_sample_features
    [DCU_Call.request DCU_sample_environment DCU_MallocType 4 0,
     DCU_Call.request
       { DCU_sample_environment with mspace_malloc := 12288, freed_size := 0 }
       DCU_ReallocType 16 8192,
     DCU_Call.release DCU_sample_environment2 DCU_FreeType 12288]
    DCU_sample_started _ [8192, 12288] (by decide) (by decide) rfl rfl
    ⟨Or.inr (by decide), Or.inr (by decide), trivial⟩ rfl
  exact ⟨congrArg List.length hnone.1, (congrArg DCU_leakBytes hnone.2).trans rfl,
    (congrArg DCU_MemoryStats.total_memory (DCU_analyzeMemory_stats_fold _).2.1).trans rfl,
    (congrArg DCU_MemoryStats.total_memory (DCU_analyzeMemory_stats_fold _).2.2.1).trans rfl,
    (congrArg DCU_MemoryStats.total_memory (DCU_analyzeMemory_stats_fold _).2.2.2).trans rfl⟩
